import Mathlib

/-! Block time-of-use schedules, the heat sink and the Sandia inverter.

A shallow embedding of `C_block_schedule` and `C_csp_tou_block_schedules`
(`src/tcs/csp_solver_tou_block_schedules.cpp`), of `C_pc_heat_sink`
(`src/tcs/csp_solver_pc_heat_sink.cpp`, whose own conventions are stated with its
definitions) and of `sandia_inverter_t::acpower` (`src/shared/lib_sandia.cpp`).

Conventions of the embedding.

* A method that mutates its object is a function from the object's state to a pair of
  the fault it raised (`none` for a normal return) and the state it leaves behind, so
  that what a failing call leaves in the object can be stated.
* `double` quantities of the schedules are exact rationals: schedule cells hold integer
  period ids (the data model of the schedules), multipliers and elapsed seconds are `ℚ`.
  The doubles of the heat sink and of the inverter, where a division by zero can occur,
  have their own conventions, stated with their definitions.
* `int` arithmetic is arithmetic on `Int`, and the conversion `(int)` of an integer-valued
  double is the identity: this is what the source computes within the range of a 32 bit
  `int`.  Where a statement is about what the program reads after these conversions, the
  range of the cells is a hypothesis of it (`cells_fit_int`).
* An access outside a `std::vector` or outside the expanded array, and a read of a slot
  that was never assigned, is the distinguished fault `fault.out_of_bounds`.
-/

namespace ssc

/-! ## Data model -/

/-- Modelled from the spec: the container `util::matrix_t<double>` is declared outside
the given sources.  The schedules are "12(month)×24(hour) integer matrices", so a matrix
is a row count, a column count and the cell read by `operator()(r, c)`. -/
structure matrix_t where
  n_rows : Nat
  n_cols : Nat
  cell : Nat → Nat → Int

/-- Modelled from the spec: `resize_fill(nr, nc, val)` of the matrix container, which
gives the matrix the requested shape with every cell equal to `val`. -/
def matrix_t.resize_fill (_self : matrix_t) (nr nc : Nat) (val : Int) : matrix_t :=
  ⟨nr, nc, fun _ _ => val⟩

/-- The exception class `C_csp_exception(message, code location)`. -/
structure C_csp_exception where
  m_error_message : String
  m_code_location : String
deriving DecidableEq

/-- How a call can fail: by throwing a `C_csp_exception`, or by reading outside the
bounds of a container (undefined behaviour in the source). -/
inductive fault where
  | thrown (e : C_csp_exception)
  | out_of_bounds
deriving DecidableEq

/-- Modelled from the spec: the `%d` conversion of `util::format`, declared outside the
given sources: the decimal rendering of an integer. -/
def fmt_d (n : Int) : String := toString n

/-- Modelled from the spec: required number of schedule rows (`mstatic_n_rows`, declared
in the absent header; "TOU schedules require 12 rows and 24 columns"). -/
def mstatic_n_rows : Nat := 12

/-- Modelled from the spec: required number of schedule columns (`mstatic_n_cols`). -/
def mstatic_n_cols : Nat := 24

/-- The members of `C_block_schedule` used by the source file.  `m_hr_tou` is the
expanded array: `[]` is the null pointer, a slot `none` is allocated but not yet
assigned. -/
structure C_block_schedule where
  mc_weekdays : matrix_t
  mc_weekends : matrix_t
  mvv_tou_arrays : List (List ℚ)
  mv_labels : List String
  m_hr_tou : List (Option Int)
  m_error_msg : String

/-- Outcome of a `void` method: the fault raised (if any) and the state left behind. -/
abbrev method_result := Option fault × C_block_schedule

/-- The code location string used by every throw of the schedule initialisation. -/
def loc_init : String := "TOU block schedule initialization"

/-! ## `C_block_schedule::check_dimensions` -/

/-- Method `C_block_schedule::check_dimensions` (lines 5-35). -/
def check_dimensions (s : C_block_schedule) : method_result :=
  if s.mc_weekdays.n_rows ≠ mstatic_n_rows then
    let msg := "TOU schedules require 12 rows and 24 columns. The loaded weekday schedule has "
      ++ fmt_d s.mc_weekdays.n_rows ++ " rows."
    (some (.thrown ⟨msg, loc_init⟩), { s with m_error_msg := msg })
  else if s.mc_weekdays.n_cols ≠ mstatic_n_cols then
    let msg := "TOU schedules require 12 rows and 24 columns. The loaded weekday schedule has "
      ++ fmt_d s.mc_weekdays.n_cols ++ " columns."
    (some (.thrown ⟨msg, loc_init⟩), { s with m_error_msg := msg })
  else if s.mc_weekends.n_rows ≠ mstatic_n_rows then
    let msg := "TOU schedules require 12 rows and 24 columns. The loaded weekend schedule has "
      ++ fmt_d s.mc_weekends.n_rows ++ " rows."
    (some (.thrown ⟨msg, loc_init⟩), { s with m_error_msg := msg })
  else if s.mc_weekends.n_cols ≠ mstatic_n_cols then
    let msg := "TOU schedules require 12 rows and 24 columns. The loaded weekend schedule has "
      ++ fmt_d s.mc_weekends.n_cols ++ " columns."
    (some (.thrown ⟨msg, loc_init⟩), { s with m_error_msg := msg })
  else
    (none, s)

/-- Method `C_block_schedule::size_vv` (lines 37-40): `resize` keeps the arrays already there
and appends empty ones up to `n_arrays`. -/
def size_vv (s : C_block_schedule) (n_arrays : Nat) : C_block_schedule :=
  { s with mvv_tou_arrays :=
      s.mvv_tou_arrays.take n_arrays ++ List.replicate (n_arrays - s.mvv_tou_arrays.length) [] }

/-! ## `C_block_schedule::check_arrays_for_tous` -/

/-- The local variables of `check_arrays_for_tous`, with their initial values
(lines 47-52). -/
structure tou_scan where
  i_tou_min : Int := 1
  i_tou_max : Int := 1
  i_tou_day : Int := -1
  i_tou_end : Int := -1
  i_temp_max : Int := -1
  i_temp_min : Int := -1
deriving DecidableEq

/-- Body of the inner loop of `check_arrays_for_tous` (lines 58-65) at cell `(i, j)`.
The conversion `(int)` of a cell is the identity here and `- 1` is the subtraction of
`Int`: this is what the source computes for a cell in the range `-INT_MAX .. INT_MAX`;
for a cell outside it the conversion or the subtraction is undefined in the source. -/
def scan_cell (s : C_block_schedule) (i j : Nat) (sc : tou_scan) : tou_scan :=
  let i_tou_day := s.mc_weekdays.cell i j - 1
  let i_tou_end := s.mc_weekends.cell i j - 1
  let i_temp_max := max i_tou_day i_tou_end
  let i_temp_min := min i_tou_day i_tou_end
  { i_tou_min := if i_temp_min < sc.i_tou_min then i_temp_min else sc.i_tou_min
    i_tou_max := if i_temp_max > sc.i_tou_max then i_temp_max else sc.i_tou_max
    i_tou_day := i_tou_day
    i_tou_end := i_tou_end
    i_temp_max := i_temp_max
    i_temp_min := i_temp_min }

/-- The inner loop `for j in 0..24` of `check_arrays_for_tous` on row `i`. -/
def scan_row (s : C_block_schedule) (sc : tou_scan) (i : Nat) : tou_scan :=
  (List.range 24).foldl (fun acc j => scan_cell s i j acc) sc

/-- The double loop of `check_arrays_for_tous` (lines 54-67). -/
def scan_schedules (s : C_block_schedule) : tou_scan :=
  (List.range 12).foldl (scan_row s) {}

/-- The message of the array-length exception (line 79).  The period printed is
`i_temp_max`, the value the scan left from its last cell. -/
def size_message (sc : tou_scan) (label : String) (size : Nat) : String :=
  "TOU schedule contains TOU period = " ++ fmt_d sc.i_temp_max ++ ", while the " ++ label
    ++ " array contains " ++ fmt_d size ++ " elements"

/-- The loop `for k in 0..n_arrays` of `check_arrays_for_tous` (lines 74-83), from index
`k` with `remaining = n_arrays - k` iterations to go. -/
def check_sizes (s : C_block_schedule) (sc : tou_scan) : Nat → Nat → method_result
  | _, 0 => (none, s)
  | k, remaining + 1 =>
    match s.mvv_tou_arrays[k]? with
    | none => (some .out_of_bounds, s)
    | some arr =>
      if sc.i_tou_max + 1 > (arr.length : Int) then
        match s.mv_labels[k]? with
        | none => (some .out_of_bounds, s)
        | some label =>
          let msg := size_message sc label arr.length
          (some (.thrown ⟨msg, loc_init⟩), { s with m_error_msg := msg })
      else check_sizes s sc (k + 1) remaining

/-- The message of the smallest-period exception (line 71). -/
def min_message : String := "Smallest TOU period cannot be less than 1"

/-- Method `C_block_schedule::check_arrays_for_tous` (lines 42-84). -/
def check_arrays_for_tous (s : C_block_schedule) (n_arrays : Nat) : method_result :=
  let sc := scan_schedules s
  if sc.i_tou_min < 0 then
    (some (.thrown ⟨min_message, loc_init⟩), s)
  else
    check_sizes s sc 0 n_arrays

/-! ## `C_block_schedule::set_hr_tou` -/

/-- The loop state of `set_hr_tou`: the weekday cursor `wday`, the output position `i`,
the array under construction, and (as a record of the execution) the positions assigned
so far, in the order of assignment. -/
structure expand_state where
  wday : Int
  i : Nat
  m_hr_tou : List (Option Int)
  writes : List Nat

/-- The day-count table of `set_hr_tou` (lines 99-101). -/
def nday (is_leapyear : Bool) : List Nat :=
  let base := [31, 28, 31, 30, 31, 30, 31, 31, 30, 31, 30, 31]
  if is_leapyear then base.set 1 (base.getD 1 0 + 1) else base

/-- The annual hour count of `set_hr_tou` (line 95). -/
def nhrann (is_leapyear : Bool) : Nat := 8760 + (if is_leapyear then 24 else 0)

/-- The hour loop of `set_hr_tou` (lines 113-120) from hour `h`, with its three-part
condition tested before every iteration.  The recursion is on `remaining = 24 - h`, the
number of iterations the test `h < 24` still allows: when it reaches 0, `h` is 24 and the
condition is false. -/
def hour_loop (s : C_block_schedule) (n : Nat) (m : Nat) (bWeekend : Bool) :
    Nat → Nat → expand_state → expand_state
  | _, 0, st => st
  | h, remaining + 1, st =>
    if h < 24 ∧ st.i < n ∧ m * 24 + h < 288 then
      let v := if bWeekend then s.mc_weekends.cell m h else s.mc_weekdays.cell m h
      hour_loop s n m bWeekend (h + 1) remaining
        { st with m_hr_tou := st.m_hr_tou.set st.i (some v)
                  writes := st.writes ++ [st.i]
                  i := st.i + 1 }
    else st

/-- The update of the weekday cursor (lines 110-111). -/
def wday_step (wday : Int) : Int := if wday ≥ 0 then wday - 1 else 5

/-- One iteration of the day loop of `set_hr_tou` (lines 108-120) in month `m`. -/
def day_body (s : C_block_schedule) (n : Nat) (m : Nat) (st : expand_state) : expand_state :=
  let bWeekend := decide (st.wday ≤ 0)
  hour_loop s n m bWeekend 0 24 { st with wday := wday_step st.wday }

/-- One iteration of the month loop of `set_hr_tou` (lines 106-121). -/
def month_body (s : C_block_schedule) (is_leapyear : Bool) (st : expand_state) (m : Nat) :
    expand_state :=
  (List.range ((nday is_leapyear).getD m 0)).foldl (fun acc _ => day_body s (nhrann is_leapyear) m acc) st

/-- The loops of `set_hr_tou` (lines 95-122), started on a freshly allocated array of
`nhrann` unassigned slots with `wday = 5` and `i = 0`. -/
def expand (s : C_block_schedule) (is_leapyear : Bool) : expand_state :=
  (List.range 12).foldl (month_body s is_leapyear)
    ⟨5, 0, List.replicate (nhrann is_leapyear) none, []⟩

/-- Method `C_block_schedule::set_hr_tou` (lines 86-123): the old array is released and
replaced by the newly expanded one. -/
def set_hr_tou (s : C_block_schedule) (is_leapyear : Bool) : C_block_schedule :=
  { s with m_hr_tou := (expand s is_leapyear).m_hr_tou }

/-- Method `C_block_schedule::init` (lines 125-132). -/
def C_block_schedule.init (s : C_block_schedule) (n_arrays : Nat) (is_leapyear : Bool) :
    method_result :=
  match check_dimensions s with
  | (some f, s1) => (some f, s1)
  | (none, s1) =>
    match check_arrays_for_tous s1 n_arrays with
    | (some f, s2) => (some f, s2)
    | (none, s2) => (none, set_hr_tou s2 is_leapyear)

/-! ## The facade `C_csp_tou_block_schedules` -/

/-- Modelled from the spec: the enumeration of `C_block_schedule_csp_ops` in the absent
header; slot 0 is the turbine fraction ("index 0 = fraction/multiplier slot"). -/
def C_block_schedule_csp_ops.TURB_FRAC : Nat := 0

/-- Modelled from the spec: number of value arrays of the operating schedule, the
enumerator following `TURB_FRAC` (the constructor labels exactly one array). -/
def C_block_schedule_csp_ops.N_END : Nat := 1

/-- Modelled from the spec: the enumeration of `C_block_schedule_pricing` in the absent
header; slot 0 is the price multiplier. -/
def C_block_schedule_pricing.MULT_PRICE : Nat := 0

/-- Modelled from the spec: number of value arrays of the pricing schedule. -/
def C_block_schedule_pricing.N_END : Nat := 1

/-- The member `ms_params`: the two schedules. -/
structure S_params where
  mc_csp_ops : C_block_schedule
  mc_pricing : C_block_schedule

/-- The part of `mc_dispatch_params` read by the source file. -/
structure S_dispatch_params where
  m_isleapyear : Bool

/-- The members of `C_csp_tou_block_schedules` used by the source file. -/
structure C_csp_tou_block_schedules where
  ms_params : S_params
  mc_dispatch_params : S_dispatch_params
  m_error_msg : String

/-- The output record `C_csp_tou::S_csp_tou_outputs`. -/
structure S_csp_tou_outputs where
  m_csp_op_tou : Int
  m_pricing_tou : Int
  m_f_turbine : ℚ
  m_price_mult : ℚ
deriving DecidableEq

/-- Method `C_csp_tou_block_schedules::init` (lines 154-177). -/
def C_csp_tou_block_schedules.init (self : C_csp_tou_block_schedules) :
    Option fault × C_csp_tou_block_schedules :=
  match self.ms_params.mc_csp_ops.init C_block_schedule_csp_ops.N_END
      self.mc_dispatch_params.m_isleapyear with
  | (some (.thrown e), ops) =>
    let msg := "The CSP ops " ++ e.m_error_message
    (some (.thrown ⟨msg, loc_init⟩),
      { self with ms_params := { self.ms_params with mc_csp_ops := ops }, m_error_msg := msg })
  | (some .out_of_bounds, ops) =>
    (some .out_of_bounds, { self with ms_params := { self.ms_params with mc_csp_ops := ops } })
  | (none, ops) =>
    match self.ms_params.mc_pricing.init C_block_schedule_pricing.N_END
        self.mc_dispatch_params.m_isleapyear with
    | (some (.thrown e), pricing) =>
      let msg := "The CSP pricing " ++ e.m_error_message
      (some (.thrown ⟨msg, loc_init⟩),
        { self with ms_params := ⟨ops, pricing⟩, m_error_msg := msg })
    | (some .out_of_bounds, pricing) =>
      (some .out_of_bounds, { self with ms_params := ⟨ops, pricing⟩ })
    | (none, pricing) => (none, { self with ms_params := ⟨ops, pricing⟩ })

/-- The hour index computed by `call` (line 181), in exact arithmetic. -/
def hour_index (time_s : ℚ) : Int := ⌈time_s / 3600 - 1 / 1000000⌉ - 1

/-- The range test of `call` (line 183). -/
def hour_out_of_range (is_leapyear : Bool) (i_hour : Int) : Bool :=
  decide (i_hour > 8760 - 1 + (if is_leapyear then 24 else 0) ∨ i_hour < 0)

/-- The message of the range exception of `call` (line 185). -/
def hour_message (i_hour : Int) : String :=
  "The hour input to the TOU schedule must be from 1 to 8760. The input hour was "
    ++ fmt_d (i_hour + 1) ++ "."

/-- The read `m_hr_tou[i_hour]` of an expanded array. -/
def read_hr_tou (s : C_block_schedule) (i_hour : Int) : Option Int :=
  if i_hour < 0 then none else (s.m_hr_tou[i_hour.toNat]?).join

/-- The read `mvv_tou_arrays[slot][tou - 1]` of a value array. -/
def read_tou_array (s : C_block_schedule) (slot : Nat) (tou : Int) : Option ℚ :=
  match s.mvv_tou_arrays[slot]? with
  | none => none
  | some arr => if tou - 1 < 0 then none else arr[(tou - 1).toNat]?

/-- Method `C_csp_tou_block_schedules::call` (lines 179-198): the outputs or the fault, and the
state of the facade afterwards. -/
def C_csp_tou_block_schedules.call (self : C_csp_tou_block_schedules) (time_s : ℚ) :
    Except fault S_csp_tou_outputs × C_csp_tou_block_schedules :=
  let i_hour := hour_index time_s
  if hour_out_of_range self.mc_dispatch_params.m_isleapyear i_hour then
    let msg := hour_message i_hour
    (.error (.thrown ⟨msg, "TOU timestep call"⟩), { self with m_error_msg := msg })
  else
    match read_hr_tou self.ms_params.mc_csp_ops i_hour,
          read_hr_tou self.ms_params.mc_pricing i_hour with
    | some csp_op_tou, some pricing_tou =>
      match read_tou_array self.ms_params.mc_csp_ops C_block_schedule_csp_ops.TURB_FRAC csp_op_tou,
            read_tou_array self.ms_params.mc_pricing C_block_schedule_pricing.MULT_PRICE pricing_tou with
      | some f_turbine, some price_mult =>
        (.ok ⟨csp_op_tou, pricing_tou, f_turbine, price_mult⟩, self)
      | _, _ => (.error .out_of_bounds, self)
    | _, _ => (.error .out_of_bounds, self)

/-! ## Construction and `setup_block_uniform_tod` -/

/-- The operation `resize(n, val)` of `std::vector`: elements beyond `n` are dropped,
missing ones are filled with `val`, elements already present are kept. -/
def vector_resize {α : Type} (v : List α) (n : Nat) (val : α) : List α :=
  v.take n ++ List.replicate (n - v.length) val

/-- The members of a block schedule when the body of a derived-class constructor starts:
the two `std::vector` members are empty; the matrices, the expanded array and the message
are what the base class (declared in the absent header) leaves, and are parameters. -/
def base_schedule (wd we : matrix_t) (hr : List (Option Int)) (msg : String) :
    C_block_schedule :=
  ⟨wd, we, [], [], hr, msg⟩

/-- The constructor `C_block_schedule_csp_ops::C_block_schedule_csp_ops` (lines 134-142),
run on the members `base`. -/
def C_block_schedule_csp_ops.construct (base : C_block_schedule) : C_block_schedule :=
  let s := size_vv base C_block_schedule_csp_ops.N_END
  { s with mv_labels :=
      (vector_resize s.mv_labels C_block_schedule_csp_ops.N_END "").set 0 "Turbine Fraction" }

/-- The constructor `C_block_schedule_pricing::C_block_schedule_pricing` (lines 144-152),
run on the members `base`. -/
def C_block_schedule_pricing.construct (base : C_block_schedule) : C_block_schedule :=
  let s := size_vv base C_block_schedule_pricing.N_END
  { s with mv_labels :=
      (vector_resize s.mv_labels C_block_schedule_pricing.N_END "").set 0 "Price Multiplier" }

/-- A freshly constructed `C_csp_tou_block_schedules`: both schedules constructed, with
the leap flag and the message as parameters. -/
def C_csp_tou_block_schedules.construct (base_ops base_pricing : C_block_schedule)
    (is_leapyear : Bool) (msg : String) : C_csp_tou_block_schedules :=
  ⟨⟨C_block_schedule_csp_ops.construct base_ops,
      C_block_schedule_pricing.construct base_pricing⟩, ⟨is_leapyear⟩, msg⟩

/-- One of the two array loops of `setup_block_uniform_tod` (lines 205-209) from index
`i` with `remaining = N_END - i` iterations to go: `mvv_tou_arrays[i].resize(2, 1.0)`. -/
def resize_tou_arrays : Nat → Nat → C_block_schedule → method_result
  | _, 0, s => (none, s)
  | i, remaining + 1, s =>
    match s.mvv_tou_arrays[i]? with
    | none => (some .out_of_bounds, s)
    | some arr =>
      resize_tou_arrays (i + 1) remaining
        { s with mvv_tou_arrays := s.mvv_tou_arrays.set i (vector_resize arr 2 1) }

/-- Method `C_csp_tou_block_schedules::setup_block_uniform_tod` (lines 200-217). -/
def C_csp_tou_block_schedules.setup_block_uniform_tod (self : C_csp_tou_block_schedules) :
    Option fault × C_csp_tou_block_schedules :=
  let nrows := mstatic_n_rows
  let ncols := mstatic_n_cols
  match resize_tou_arrays 0 C_block_schedule_csp_ops.N_END self.ms_params.mc_csp_ops with
  | (some f, ops) =>
    (some f, { self with ms_params := { self.ms_params with mc_csp_ops := ops } })
  | (none, ops) =>
    match resize_tou_arrays 0 C_block_schedule_pricing.N_END self.ms_params.mc_pricing with
    | (some f, pricing) => (some f, { self with ms_params := ⟨ops, pricing⟩ })
    | (none, pricing) =>
      (none, { self with ms_params :=
        ⟨{ ops with mc_weekdays := ops.mc_weekdays.resize_fill nrows ncols 1
                    mc_weekends := ops.mc_weekends.resize_fill nrows ncols 1 },
         { pricing with mc_weekdays := pricing.mc_weekdays.resize_fill nrows ncols 1
                        mc_weekends := pricing.mc_weekends.resize_fill nrows ncols 1 }⟩ })

/-! ## The heat sink `C_pc_heat_sink` (`src/tcs/csp_solver_pc_heat_sink.cpp`)

Conventions added for this file.

* A `double` member that can be left unset holds NaN until it is assigned; such a double
  is an `Option ℚ`, with `none` for a double that is not a finite number: NaN, or an
  infinity.  The members set by the owner are real numbers or are left unset.
* Arithmetic on finite values is exact.  A quotient whose divisor is zero is an infinity
  or NaN, hence `none` (`div_double`); a value computed from a `none` is `none`: in this
  file no value is divided by, or compared with, a value that can be an infinity, so that
  what is computed from a double that is not finite is not finite either.
* The fluid-property class, `util::format` on a format string that is not a literal of
  this file, and the reported-outputs class are declared outside the given sources; they
  are the fields of `collaborators`, a parameter of every definition.
-/

/-- Modelled from the spec: the user fluid-property table, a `util::matrix_t<double>`
("a user table that must have ≥3 rows and exactly 7 columns"): its shape and its cells. -/
structure htf_table where
  n_rows : Nat
  n_cols : Nat
  cell : Nat → Nat → ℚ

/-- The quantities reported by the heat sink, the first column of the table
`S_output_info` (lines 6-13). -/
inductive heat_sink_output where
  | E_Q_DOT_HEAT_SINK
  | E_W_DOT_PUMPING
  | E_M_DOT_HTF
deriving DecidableEq

/-- The aggregation kind named in the table `S_output_info` (lines 6-13). -/
inductive output_kind where
  | TS_WEIGHTED_AVE
deriving DecidableEq

/-- The table `S_output_info` (lines 6-13), without its end marker. -/
def S_output_info : List (heat_sink_output × output_kind) :=
  [(.E_Q_DOT_HEAT_SINK, .TS_WEIGHTED_AVE), (.E_W_DOT_PUMPING, .TS_WEIGHTED_AVE),
   (.E_M_DOT_HTF, .TS_WEIGHTED_AVE)]

/-- Modelled from the spec: what the source file uses of classes declared outside the
given sources, for a fluid-property state `Φ` (`HTFProperties`) and a reported-outputs
state `R` (`C_csp_reported_outputs`): the two fluid enumerators, the two fluid setters
(result flag and new state), the error message of the user fluid, `util::format` applied
to that message and two integers, the average specific heat `Cp_ave`, and the three
operations on reported outputs. -/
structure collaborators (Φ R : Type) where
  User_defined : Int
  End_Library_Fluids : Int
  SetFluid : Φ → Int → Bool × Φ
  SetUserDefinedFluid : Φ → htf_table → Bool × Φ
  UserFluidErrMessage : Φ → String
  util_format : String → Int → Int → String
  Cp_ave : Φ → ℚ → ℚ → Int → ℚ
  construct_outputs : R → List (heat_sink_output × output_kind) → R
  value : R → heat_sink_output → Option ℚ → R
  set_timestep_outputs : R → R

/-- Modelled from the spec: `check_double`, declared outside the given sources: whether a
double has been set, that is, is not NaN. -/
def check_double (x : Option ℚ) : Bool := x.isSome

/-- The design parameters `C_pc_heat_sink::S_params` read by the source file. -/
structure C_pc_heat_sink.S_params where
  m_T_htf_hot_des : Option ℚ
  m_T_htf_cold_des : Option ℚ
  m_q_dot_des : Option ℚ
  m_htf_pump_coef : Option ℚ
  m_pc_fl : Int
  m_pc_fl_props : htf_table

/-- The members of `C_pc_heat_sink` used by the source file. -/
structure C_pc_heat_sink (Φ R : Type) where
  ms_params : C_pc_heat_sink.S_params
  mc_pc_htfProps : Φ
  mc_reported_outputs : R
  m_max_frac : Option ℚ
  m_m_dot_htf_des : Option ℚ

/-- The fields of `C_csp_power_cycle::S_solved_params` assigned by `init`. -/
structure S_solved_params where
  m_W_dot_des : Option ℚ
  m_eta_des : Option ℚ
  m_q_dot_des : Option ℚ
  m_q_startup : Option ℚ
  m_max_frac : Option ℚ
  m_cutoff_frac : Option ℚ
  m_sb_frac : Option ℚ
  m_T_htf_hot_ref : Option ℚ
  m_m_dot_design : Option ℚ
  m_m_dot_min : Option ℚ
  m_m_dot_max : Option ℚ

/-- The fields of `C_csp_power_cycle::S_csp_pc_out_solver` assigned by `call`. -/
structure S_csp_pc_out_solver where
  m_P_cycle : Option ℚ
  m_T_htf_cold : Option ℚ
  m_m_dot_htf : Option ℚ
  m_W_cool_par : Option ℚ
  m_time_required_su : Option ℚ
  m_q_dot_htf : Option ℚ
  m_W_dot_htf_pump : Option ℚ
  m_was_method_successful : Bool

/-- The constructor `C_pc_heat_sink::C_pc_heat_sink` (lines 15-22), run on the members
`base`. -/
def C_pc_heat_sink.construct {Φ R : Type} (env : collaborators Φ R)
    (base : C_pc_heat_sink Φ R) : C_pc_heat_sink Φ R :=
  { base with
    mc_reported_outputs := env.construct_outputs base.mc_reported_outputs S_output_info
    m_max_frac := some 100
    m_m_dot_htf_des := none }

/-- The message of the four exceptions of `check_double_params_are_set`. -/
def not_set_message : String :=
  "The following parameter was not set prior to calling the C_pc_heat_sink init() method:"

/-- Method `C_pc_heat_sink::check_double_params_are_set` (lines 24-42): the exception
thrown, if any. -/
def C_pc_heat_sink.check_double_params_are_set {Φ R : Type} (self : C_pc_heat_sink Φ R) :
    Option fault :=
  if !check_double self.ms_params.m_T_htf_cold_des then
    some (.thrown ⟨not_set_message, "m_W_dot_des"⟩)
  else if !check_double self.ms_params.m_T_htf_hot_des then
    some (.thrown ⟨not_set_message, "m_W_dot_des"⟩)
  else if !check_double self.ms_params.m_q_dot_des then
    some (.thrown ⟨not_set_message, "m_W_dot_des"⟩)
  else if !check_double self.ms_params.m_htf_pump_coef then
    some (.thrown ⟨not_set_message, "m_W_dot_des"⟩)
  else none

/-- The message of the table-shape exception of `init` (line 71). -/
def table_shape_message (n_rows n_cols : Int) : String :=
  "The user defined field HTF table must contain at least 3 rows and exactly 7 columns. The current table contains "
    ++ fmt_d n_rows ++ " row(s) and " ++ fmt_d n_cols ++ " column(s)"

/-- The fluid selection of `C_pc_heat_sink::init` (lines 48-78): the exception thrown, if
any, and the object afterwards. -/
def C_pc_heat_sink.set_fluid {Φ R : Type} (env : collaborators Φ R)
    (self : C_pc_heat_sink Φ R) : Option fault × C_pc_heat_sink Φ R :=
  if self.ms_params.m_pc_fl ≠ env.User_defined ∧
      self.ms_params.m_pc_fl < env.End_Library_Fluids then
    match env.SetFluid self.mc_pc_htfProps self.ms_params.m_pc_fl with
    | (false, props) =>
      (some (.thrown ⟨"Power cycle HTF code is not recognized",
          "Rankine Indirect Power Cycle Initialization"⟩),
        { self with mc_pc_htfProps := props })
    | (true, props) => (none, { self with mc_pc_htfProps := props })
  else if self.ms_params.m_pc_fl = env.User_defined then
    let n_rows : Int := self.ms_params.m_pc_fl_props.n_rows
    let n_cols : Int := self.ms_params.m_pc_fl_props.n_cols
    if n_rows > 2 ∧ n_cols = 7 then
      match env.SetUserDefinedFluid self.mc_pc_htfProps self.ms_params.m_pc_fl_props with
      | (false, props) =>
        let error_msg := env.util_format (env.UserFluidErrMessage props) n_rows n_cols
        (some (.thrown ⟨error_msg, "Heat Sink Initialization"⟩),
          { self with mc_pc_htfProps := props })
      | (true, props) => (none, { self with mc_pc_htfProps := props })
    else
      let error_msg := table_shape_message n_rows n_cols
      (some (.thrown ⟨error_msg, "Heat Sink Initialization"⟩), self)
  else
    (some (.thrown ⟨"Power cycle HTF code is not recognized", "Heat Sink Initialization"⟩),
      self)

/-- The quotient `x / y` of two finite doubles: not a finite number (an infinity, or NaN
for `0 / 0`) when the divisor is zero. -/
def div_double (x y : ℚ) : Option ℚ := if y = 0 then none else some (x / y)

/-- The design-point computation and the publication of the solved parameters in
`C_pc_heat_sink::init` (lines 80-96). -/
def C_pc_heat_sink.solve_design {Φ R : Type} (env : collaborators Φ R)
    (self : C_pc_heat_sink Φ R) : C_pc_heat_sink Φ R × S_solved_params :=
  let cp_htf_des : Option ℚ := do
    let T_cold ← self.ms_params.m_T_htf_cold_des
    let T_hot ← self.ms_params.m_T_htf_hot_des
    pure (env.Cp_ave self.mc_pc_htfProps (T_cold + 273.15) (T_hot + 273.15) 5)
  let m_m_dot_htf_des : Option ℚ := do
    let q ← self.ms_params.m_q_dot_des
    let cp ← cp_htf_des
    let T_hot ← self.ms_params.m_T_htf_hot_des
    let T_cold ← self.ms_params.m_T_htf_cold_des
    div_double (q * 1000) (cp * (T_hot - T_cold))
  let m_cutoff_frac : Option ℚ := some 0
  let m_max_frac : Option ℚ := self.m_max_frac
  let m_m_dot_design : Option ℚ := do
    let m ← m_m_dot_htf_des
    pure (m * 3600)
  ({ self with m_m_dot_htf_des := m_m_dot_htf_des },
   { m_W_dot_des := some 0
     m_eta_des := some 0
     m_q_dot_des := self.ms_params.m_q_dot_des
     m_q_startup := some 0
     m_max_frac := m_max_frac
     m_cutoff_frac := m_cutoff_frac
     m_sb_frac := some 0
     m_T_htf_hot_ref := self.ms_params.m_T_htf_hot_des
     m_m_dot_design := m_m_dot_design
     m_m_dot_min := do
       let d ← m_m_dot_design
       let f ← m_cutoff_frac
       pure (d * f)
     m_m_dot_max := do
       let d ← m_m_dot_design
       let f ← m_max_frac
       pure (d * f) })

/-- Method `C_pc_heat_sink::init` (lines 44-97): the exception thrown, if any, the object
afterwards, and the `solved_params` structure afterwards. -/
def C_pc_heat_sink.init {Φ R : Type} (env : collaborators Φ R) (self : C_pc_heat_sink Φ R)
    (solved_params : S_solved_params) :
    Option fault × C_pc_heat_sink Φ R × S_solved_params :=
  match self.check_double_params_are_set with
  | some f => (some f, self, solved_params)
  | none =>
    match self.set_fluid env with
    | (some f, self1) => (some f, self1, solved_params)
    | (none, self1) =>
      let r := self1.solve_design env
      (none, r.1, r.2)

/-- Method `C_pc_heat_sink::get_cold_startup_time` (lines 105-108). -/
def C_pc_heat_sink.get_cold_startup_time {Φ R : Type} (_self : C_pc_heat_sink Φ R) :
    Option ℚ := some 0

/-- Method `C_pc_heat_sink::get_warm_startup_time` (lines 110-113). -/
def C_pc_heat_sink.get_warm_startup_time {Φ R : Type} (_self : C_pc_heat_sink Φ R) :
    Option ℚ := some 0

/-- Method `C_pc_heat_sink::get_hot_startup_time` (lines 115-118). -/
def C_pc_heat_sink.get_hot_startup_time {Φ R : Type} (_self : C_pc_heat_sink Φ R) :
    Option ℚ := some 0

/-- Method `C_pc_heat_sink::get_standby_energy_requirement` (lines 120-123). -/
def C_pc_heat_sink.get_standby_energy_requirement {Φ R : Type} (_self : C_pc_heat_sink Φ R) :
    Option ℚ := some 0

/-- Method `C_pc_heat_sink::get_cold_startup_energy` (lines 125-128). -/
def C_pc_heat_sink.get_cold_startup_energy {Φ R : Type} (_self : C_pc_heat_sink Φ R) :
    Option ℚ := some 0

/-- Method `C_pc_heat_sink::get_warm_startup_energy` (lines 130-133). -/
def C_pc_heat_sink.get_warm_startup_energy {Φ R : Type} (_self : C_pc_heat_sink Φ R) :
    Option ℚ := some 0

/-- Method `C_pc_heat_sink::get_hot_startup_energy` (lines 135-138). -/
def C_pc_heat_sink.get_hot_startup_energy {Φ R : Type} (_self : C_pc_heat_sink Φ R) :
    Option ℚ := some 0

/-- Method `C_pc_heat_sink::get_max_thermal_power` (lines 140-143). -/
def C_pc_heat_sink.get_max_thermal_power {Φ R : Type} (self : C_pc_heat_sink Φ R) :
    Option ℚ := do
  let f ← self.m_max_frac
  let q ← self.ms_params.m_q_dot_des
  pure (f * q)

/-- Method `C_pc_heat_sink::get_min_thermal_power` (lines 145-148). -/
def C_pc_heat_sink.get_min_thermal_power {Φ R : Type} (_self : C_pc_heat_sink Φ R) :
    Option ℚ := some 0

/-- Method `C_pc_heat_sink::get_max_q_pc_startup` (lines 164-167). -/
def C_pc_heat_sink.get_max_q_pc_startup {Φ R : Type} (_self : C_pc_heat_sink Φ R) :
    Option ℚ := some 0

/-- Method `C_pc_heat_sink::call` (lines 174-214) for the inlet temperature
`htf_state_in.m_temp` and the mass flow `inputs.m_m_dot`: the exception thrown (there is
no `throw` in the method), the fields of `out_solver` it assigns, and the object
afterwards. -/
def C_pc_heat_sink.call {Φ R : Type} (env : collaborators Φ R) (self : C_pc_heat_sink Φ R)
    (m_temp m_m_dot : ℚ) : Option fault × S_csp_pc_out_solver × C_pc_heat_sink Φ R :=
  let T_htf_hot : ℚ := m_temp
  let m_dot_htf : ℚ := m_m_dot / 3600
  let cp_htf : Option ℚ := do
    let T_cold ← self.ms_params.m_T_htf_cold_des
    pure (env.Cp_ave self.mc_pc_htfProps (T_cold + 273.15) (T_htf_hot + 273.15) 5)
  let q_dot_htf : Option ℚ := do
    let cp ← cp_htf
    let T_cold ← self.ms_params.m_T_htf_cold_des
    pure (m_dot_htf * cp * (T_htf_hot - T_cold) / 1000)
  let m_W_dot_htf_pump : Option ℚ := do
    let coef ← self.ms_params.m_htf_pump_coef
    pure (coef * m_dot_htf / 1000)
  let out_solver : S_csp_pc_out_solver :=
    { m_P_cycle := some 0
      m_T_htf_cold := self.ms_params.m_T_htf_cold_des
      m_m_dot_htf := some (m_dot_htf * 3600)
      m_W_cool_par := some 0
      m_time_required_su := some 0
      m_q_dot_htf := q_dot_htf
      m_W_dot_htf_pump := m_W_dot_htf_pump
      m_was_method_successful := true }
  let r1 := env.value self.mc_reported_outputs .E_Q_DOT_HEAT_SINK q_dot_htf
  let r2 := env.value r1 .E_W_DOT_PUMPING out_solver.m_W_dot_htf_pump
  let r3 := env.value r2 .E_M_DOT_HTF (some m_dot_htf)
  (none, out_solver, { self with mc_reported_outputs := r3 })

/-- Method `C_pc_heat_sink::get_htf_pumping_parasitic_coef` (lines 169-172). -/
def C_pc_heat_sink.get_htf_pumping_parasitic_coef {Φ R : Type} (self : C_pc_heat_sink Φ R) :
    Option ℚ := do
  let coef ← self.ms_params.m_htf_pump_coef
  let m ← self.m_m_dot_htf_des
  let q ← self.ms_params.m_q_dot_des
  div_double (coef * m) (q * 1000)

/-- Method `C_pc_heat_sink::converged` (lines 216-225). -/
def C_pc_heat_sink.converged {Φ R : Type} (env : collaborators Φ R)
    (self : C_pc_heat_sink Φ R) : C_pc_heat_sink Φ R :=
  { self with mc_reported_outputs := env.set_timestep_outputs self.mc_reported_outputs }

/-! ## Doubles with infinities and NaN

The inverter code divides by a difference that can be zero, and a `double` quotient by
zero is an infinity or NaN, on which the later comparisons and products depend.  The
doubles of the inverter are therefore values of the type `double` below: NaN, an infinity
with its sign, a zero with its sign, or a finite number other than zero.  Arithmetic on
finite values is exact (no rounding, no overflow to an infinity); the other cases follow
IEEE 754.
-/

/-- A `double`: NaN, an infinity (`negative` for minus infinity), a zero (`negative` for
minus zero), or a finite number `q`, which is not zero in the values built below. -/
inductive double where
  | nan
  | inf (negative : Bool)
  | zero (negative : Bool)
  | num (q : ℚ)
deriving DecidableEq

/-- The finite double of value `q`; `negative` is the sign given to a zero. -/
def double.finite (q : ℚ) (negative : Bool) : double :=
  if q = 0 then .zero negative else .num q

/-- The double of a real number, as a literal or a real-valued input gives it: zero is
plus zero. -/
def double.of_rat (q : ℚ) : double := double.finite q false

/-- The value of a finite double, and `none` for NaN and the infinities. -/
def double.val : double → Option ℚ
  | .nan => none
  | .inf _ => none
  | .zero _ => some 0
  | .num q => some q

/-- The sign bit of a double (that of NaN is not used). -/
def double.is_negative : double → Bool
  | .nan => false
  | .inf s => s
  | .zero s => s
  | .num q => decide (q < 0)

/-- Unary minus on doubles: it flips the sign, also that of a zero or an infinity. -/
def double.neg : double → double
  | .nan => .nan
  | .inf s => .inf (!s)
  | .zero s => .zero (!s)
  | .num q => double.finite (-q) (!decide (q < 0))

/-- Addition of doubles: opposite infinities give NaN; a sum that is zero is minus zero
only when both terms are minus zero. -/
def double.add (x y : double) : double :=
  match x, y with
  | .nan, _ => .nan
  | _, .nan => .nan
  | .inf s, .inf t => if s = t then .inf s else .nan
  | .inf s, _ => .inf s
  | _, .inf t => .inf t
  | _, _ => double.finite (x.val.getD 0 + y.val.getD 0) (x.is_negative && y.is_negative)

/-- Subtraction of doubles, `x - y = x + (-y)`. -/
def double.sub (x y : double) : double := x.add y.neg

/-- Multiplication of doubles: an infinity times a zero is NaN; the sign of the product
is the exclusive or of the signs. -/
def double.mul (x y : double) : double :=
  match x, y with
  | .nan, _ => .nan
  | _, .nan => .nan
  | .inf s, .inf t => .inf (s != t)
  | .inf s, _ => if y.val = some 0 then .nan else .inf (s != y.is_negative)
  | _, .inf t => if x.val = some 0 then .nan else .inf (x.is_negative != t)
  | _, _ => double.finite (x.val.getD 0 * y.val.getD 0) (x.is_negative != y.is_negative)

/-- The comparison `x < y` of doubles: false when either is NaN; the two zeros are
equal. -/
def double.lt (x y : double) : Bool :=
  match x, y with
  | .nan, _ => false
  | _, .nan => false
  | .inf s, .inf t => s && !t
  | .inf s, _ => s
  | _, .inf t => !t
  | _, _ => decide (x.val.getD 0 < y.val.getD 0)

/-- The comparison `x > y` of doubles. -/
def double.gt (x y : double) : Bool := y.lt x

/-! ## The Sandia inverter (`src/shared/lib_sandia.cpp`) -/

/-- The parameters of `sandia_inverter_t`. -/
structure sandia_inverter_t where
  Paco : double
  Pdco : double
  Vdco : double
  Pso : double
  Pntare : double
  C0 : double
  C1 : double
  C2 : double
  C3 : double

/-- The local `B` of `acpower` after its two adjustments (lines 331-340). -/
def sandia_inverter_t.B (self : sandia_inverter_t) (Vdc : double) : double :=
  let B := self.Pso.mul ((double.of_rat 1).add (self.C2.mul (Vdc.sub self.Vdco)))
  let B :=
    if B.lt ((double.of_rat (1 / 2)).mul self.Pso) then (double.of_rat (1 / 2)).mul self.Pso
    else B
  if B.gt ((double.of_rat 2).mul self.Pso) then (double.of_rat 2).mul self.Pso else B

/-- A real-valued parameter set of the inverter. -/
structure inverter_parameters where
  Paco : ℚ
  Pdco : ℚ
  Vdco : ℚ
  Pso : ℚ
  Pntare : ℚ
  C0 : ℚ
  C1 : ℚ
  C2 : ℚ
  C3 : ℚ

/-- The real number `B = Pso (1 + C2 (Vdc - Vdco))`, raised to `Pso / 2` when below it and
then lowered to `2 Pso` when above it. -/
def inverter_parameters.B (p : inverter_parameters) (Vdc : ℚ) : ℚ :=
  let B := p.Pso * (1 + p.C2 * (Vdc - p.Vdco))
  let B := if B < 1 / 2 * p.Pso then 1 / 2 * p.Pso else B
  if B > 2 * p.Pso then 2 * p.Pso else B

/-- Modelled from the spec: a ReportedQuantity of the absent class
`C_csp_reported_outputs`: "aggregation kind (time-weighted average), a running accumulator
(value×duration sum, total duration) valid only within the open interval, and a committed
series".  The field `samples` lists the values recorded in the open interval, newest
first; a value `none` is a NaN. -/
structure reported_quantity where
  kind : output_kind
  weighted_sum : Option ℚ
  total_duration : ℚ
  samples : List (Option ℚ)
  committed : List (Option ℚ)

/-- Modelled from the spec: a quantity of the absent class `C_csp_reported_outputs` as it
is constructed: an empty accumulator and an empty committed series. -/
def reported_quantity.create (kind : output_kind) : reported_quantity :=
  ⟨kind, some 0, 0, [], []⟩

/-- Modelled from the spec: `record` of the absent class `C_csp_reported_outputs` on one
quantity: "adds a weighted sample to the open interval's accumulator". -/
def reported_quantity.record (q : reported_quantity) (value : Option ℚ) (duration : ℚ) :
    reported_quantity :=
  { q with
    weighted_sum := do
      let s ← q.weighted_sum
      let v ← value
      pure (s + v * duration)
    total_duration := q.total_duration + duration
    samples := value :: q.samples }

/-- Modelled from the spec: `close_interval` of the absent class `C_csp_reported_outputs`
on one quantity: "if no samples were recorded, ... replicate the last known value ...; else
divide accumulated value×duration by total duration; append to the committed series; reset
accumulator", with the edge case "zero-duration interval → average = the single sample
(or 0 if none)". -/
def reported_quantity.close (q : reported_quantity) : reported_quantity :=
  let average : Option ℚ :=
    match q.samples with
    | [] => q.committed.getLast?.getD (some 0)
    | v :: _ =>
      if q.total_duration = 0 then v
      else do
        let s ← q.weighted_sum
        pure (s / q.total_duration)
  { q with
    weighted_sum := some 0
    total_duration := 0
    samples := []
    committed := q.committed ++ [average] }

/-- Modelled from the spec: the state of the absent class `C_csp_reported_outputs`: one
ReportedQuantity for each quantity id. -/
abbrev reported_outputs : Type := heat_sink_output → reported_quantity

/-- Modelled from the spec: `construct` of the absent class `C_csp_reported_outputs`:
one quantity for each id, of the kind the table gives it. -/
def reported_outputs.construct (info : List (heat_sink_output × output_kind)) :
    reported_outputs :=
  fun id => reported_quantity.create ((info.lookup id).getD .TS_WEIGHTED_AVE)

/-- Modelled from the spec: `record(quantity_id, value, duration)` of the absent class
`C_csp_reported_outputs`. -/
def reported_outputs.record (r : reported_outputs) (quantity_id : heat_sink_output)
    (value : Option ℚ) (duration : ℚ) : reported_outputs :=
  fun id => if id = quantity_id then (r id).record value duration else r id

/-- Modelled from the spec: `close_interval` of the absent class `C_csp_reported_outputs`,
"for each quantity".  The bounds `start`, `end` of the interval serve the time-order check
only; `set_timestep_outputs()` is passed none in the source and they are left out. -/
def reported_outputs.close_interval (r : reported_outputs) : reported_outputs :=
  fun id => (r id).close

/-- Modelled from the spec: the collaborators `env` with the reported outputs kept by the
aggregator of the specification, absent from the given sources.  The source passes `value`
an id and a value but no duration: the duration over which the current evaluation is
recorded is the parameter `duration`. -/
def with_aggregator {Φ R : Type} (env : collaborators Φ R) (duration : ℚ) :
    collaborators Φ reported_outputs :=
  { User_defined := env.User_defined
    End_Library_Fluids := env.End_Library_Fluids
    SetFluid := env.SetFluid
    SetUserDefinedFluid := env.SetUserDefinedFluid
    UserFluidErrMessage := env.UserFluidErrMessage
    util_format := env.util_format
    Cp_ave := env.Cp_ave
    construct_outputs := fun _ info => reported_outputs.construct info
    value := fun r id v => r.record id v duration
    set_timestep_outputs := fun r => r.close_interval }

/-- Whether the open interval of a quantity holds no sample: the accumulator as
`construct` and `close_interval` leave it. -/
def reported_quantity.is_reset (q : reported_quantity) : Prop :=
  q.weighted_sum = some 0 ∧ q.total_duration = 0 ∧ q.samples = []

/-- The value that `call` passes to `value` for each reported quantity (lines 200-202):
the delivered duty, the pumping power, and the mass flow in kg/s. -/
def reported_sample {Φ R : Type} (env : collaborators Φ R) (self : C_pc_heat_sink Φ R)
    (m_temp m_m_dot : ℚ) : heat_sink_output → Option ℚ
  | .E_Q_DOT_HEAT_SINK => (self.call env m_temp m_m_dot).2.1.m_q_dot_htf
  | .E_W_DOT_PUMPING => (self.call env m_temp m_m_dot).2.1.m_W_dot_htf_pump
  | .E_M_DOT_HTF => some (m_m_dot / 3600)

/-- The time-weighted average of two samples, a NaN sample giving a NaN. -/
def weighted_average (v1 : Option ℚ) (d1 : ℚ) (v2 : Option ℚ) (d2 : ℚ) : Option ℚ := do
  let x1 ← v1
  let x2 ← v2
  pure ((x1 * d1 + x2 * d2) / (d1 + d2))

/-! ## Reference notions used to state the properties of the expansion -/

/-- The weekday cursor of `set_hr_tou` at the start of day-of-year `d` (0-based): it
starts at 5 and is updated once per day by `wday_step`. -/
def wday_at : Nat → Int
  | 0 => 5
  | d + 1 => wday_step (wday_at d)

/-- Whether the expander classifies day-of-year `d` as weekend: the test `wday <= 0` on
the cursor at the start of that day. -/
def is_weekend_day (d : Nat) : Bool := decide (wday_at d ≤ 0)

/-- Month (0-based) containing day `d` for a list of month lengths. -/
def month_in : List Nat → Nat → Nat
  | [], _ => 0
  | c :: rest, d => if d < c then 0 else 1 + month_in rest (d - c)

/-- The Gregorian month (0-based) containing the 0-based day-of-year `d`, for the day
counts 31, 28|29, 31, 30, 31, 30, 31, 31, 30, 31, 30, 31. -/
def month_of_day (is_leapyear : Bool) (d : Nat) : Nat :=
  month_in [31, if is_leapyear then 29 else 28, 31, 30, 31, 30, 31, 31, 30, 31, 30, 31] d

/-- The source cell that belongs to hour `idx` of the year: month of the day, hour of the
day, and the weekend or weekday matrix according to the cursor. -/
def source_cell (s : C_block_schedule) (is_leapyear : Bool) (idx : Nat) : Int :=
  let d := idx / 24
  let h := idx % 24
  let m := month_of_day is_leapyear d
  if is_weekend_day d then s.mc_weekends.cell m h else s.mc_weekdays.cell m h

/-- Number of days before month `m` according to the table of `set_hr_tou`. -/
def days_before (is_leapyear : Bool) (m : Nat) : Nat := ((nday is_leapyear).take m).sum

/-- The state of the expansion loops after `D` whole days have been written into an
array of `n` slots: cursor, position, record of assignments, and contents. -/
def expanded_to (s : C_block_schedule) (is_leapyear : Bool) (n D : Nat)
    (st : expand_state) : Prop :=
  st.wday = wday_at D ∧ st.i = 24 * D ∧ st.writes = List.range (24 * D) ∧
  st.m_hr_tou.length = n ∧
  ∀ j, st.m_hr_tou[j]? =
    if j < 24 * D then some (some (source_cell s is_leapyear j))
    else if j < n then some none else none

/-- What the scan of `check_arrays_for_tous` has established when the cells with row-major
position below `c` (row `a`, column `b < 24`, position `24 * a + b`) have been visited. -/
def scanned (s : C_block_schedule) (c : Nat) (sc : tou_scan) : Prop :=
  sc.i_tou_min ≤ 1 ∧ 1 ≤ sc.i_tou_max ∧
  (∀ a b, b < 24 → 24 * a + b < c →
    sc.i_tou_min ≤ s.mc_weekdays.cell a b - 1 ∧ sc.i_tou_min ≤ s.mc_weekends.cell a b - 1 ∧
    s.mc_weekdays.cell a b - 1 ≤ sc.i_tou_max ∧ s.mc_weekends.cell a b - 1 ≤ sc.i_tou_max) ∧
  (sc.i_tou_min < 1 → ∃ a b, b < 24 ∧ 24 * a + b < c ∧
    (sc.i_tou_min = s.mc_weekdays.cell a b - 1 ∨ sc.i_tou_min = s.mc_weekends.cell a b - 1)) ∧
  (1 < sc.i_tou_max → ∃ a b, b < 24 ∧ 24 * a + b < c ∧
    (sc.i_tou_max = s.mc_weekdays.cell a b - 1 ∨ sc.i_tou_max = s.mc_weekends.cell a b - 1))

/-- The largest value of the 32-bit type `int`. -/
def INT_MAX : Int := 2147483647

/-- Whether every cell of the two 12 by 24 matrices is a value of the type `int` from
which 1 can be subtracted, that is, lies in `-INT_MAX .. INT_MAX`: the range in which the
conversion `(int) cell` and the subtraction `(int) cell - 1` of the source (lines 60-61)
are defined. -/
def cells_fit_int (s : C_block_schedule) : Prop :=
  ∀ i, i < 12 → ∀ j, j < 24 →
    (-INT_MAX ≤ s.mc_weekdays.cell i j ∧ s.mc_weekdays.cell i j ≤ INT_MAX) ∧
    (-INT_MAX ≤ s.mc_weekends.cell i j ∧ s.mc_weekends.cell i j ≤ INT_MAX)

instance (s : C_block_schedule) : Decidable (cells_fit_int s) := by
  unfold cells_fit_int; infer_instance

/-- Both matrices have the required shape of 12 rows and 24 columns. -/
def shape_ok (s : C_block_schedule) : Prop :=
  s.mc_weekdays.n_rows = 12 ∧ s.mc_weekdays.n_cols = 24 ∧
  s.mc_weekends.n_rows = 12 ∧ s.mc_weekends.n_cols = 24

instance (s : C_block_schedule) : Decidable (shape_ok s) := by
  unfold shape_ok; infer_instance

/-- The 576 period ids of a schedule: every cell of the weekday and of the weekend
matrix, rows 0..11 and columns 0..23. -/
def period_ids (s : C_block_schedule) : List Int :=
  (List.range 12).flatMap fun i =>
    (List.range 24).flatMap fun j => [s.mc_weekdays.cell i j, s.mc_weekends.cell i j]

/-- The smallest period id over all cells of the two matrices. -/
def min_period_id (s : C_block_schedule) : Int :=
  (period_ids s).foldl min (s.mc_weekdays.cell 0 0)

/-- The largest period id over all cells of the two matrices. -/
def max_period_id (s : C_block_schedule) : Int :=
  (period_ids s).foldl max (s.mc_weekdays.cell 0 0)

/-- The messages of the four dimension exceptions of `check_dimensions`. -/
def is_shape_message (msg : String) : Prop :=
  ∃ k : Int,
    msg = "TOU schedules require 12 rows and 24 columns. The loaded weekday schedule has "
      ++ fmt_d k ++ " rows." ∨
    msg = "TOU schedules require 12 rows and 24 columns. The loaded weekday schedule has "
      ++ fmt_d k ++ " columns." ∨
    msg = "TOU schedules require 12 rows and 24 columns. The loaded weekend schedule has "
      ++ fmt_d k ++ " rows." ∨
    msg = "TOU schedules require 12 rows and 24 columns. The loaded weekend schedule has "
      ++ fmt_d k ++ " columns."

/-- The messages of the array-length exception of `check_arrays_for_tous`. -/
def is_size_message (msg : String) : Prop :=
  ∃ (p : Int) (label : String) (size : Nat),
    msg = "TOU schedule contains TOU period = " ++ fmt_d p ++ ", while the " ++ label
      ++ " array contains " ++ fmt_d size ++ " elements"

/-- The entry of value array `slot` that belongs to period id `tou`, at position
`tou - 1` (0 when there is no such entry). -/
def tou_value (s : C_block_schedule) (slot : Nat) (tou : Int) : ℚ :=
  (s.mvv_tou_arrays.getD slot []).getD (tou - 1).toNat 0

/-- Number of hours of the year accepted by `call`: 8760, or 8784 in a leap year. -/
def total_hours (is_leapyear : Bool) : Int := if is_leapyear then 8784 else 8760

/-- What a lookup that resolves to hour index `i` reads: the two expanded arrays at `i`,
and value array 0 of each schedule at the position `id - 1` of the id found there. -/
def lookup_at (self : C_csp_tou_block_schedules) (i : Int) : Option S_csp_tou_outputs :=
  match read_hr_tou self.ms_params.mc_csp_ops i, read_hr_tou self.ms_params.mc_pricing i with
  | some op, some pr =>
    match read_tou_array self.ms_params.mc_csp_ops 0 op,
          read_tou_array self.ms_params.mc_pricing 0 pr with
    | some f, some p => some ⟨op, pr, f, p⟩
    | _, _ => none
  | _, _ => none

/-- The month of every day of the year, in the order in which the month loop and the day
loop of `set_hr_tou` visit the days. -/
def day_months (is_leapyear : Bool) : List Nat :=
  (List.range 12).flatMap fun m => List.replicate ((nday is_leapyear).getD m 0) m

/-- The loop state of `set_hr_tou` at the start of day-of-year `d` (0-based): the state
reached from the initial one by the bodies of the first `d` days. -/
def expand_until (s : C_block_schedule) (is_leapyear : Bool) (d : Nat) : expand_state :=
  ((day_months is_leapyear).take d).foldl
    (fun st m => day_body s (nhrann is_leapyear) m st)
    ⟨5, 0, List.replicate (nhrann is_leapyear) none, []⟩

/-- Number of days of the year: 365, or 366 in a leap year. -/
def days_in_year (is_leapyear : Bool) : Nat := if is_leapyear then 366 else 365

/-! ## Concrete schedules -/

/-- A 12 by 24 matrix with the same period id in every cell. -/
def const_matrix (v : Int) : matrix_t := ⟨12, 24, fun _ _ => v⟩

/-- Scenario A: weekday matrix all 1s, weekend matrix all 2s, one value array
`[x1, x2]`, nothing expanded yet. -/
def scenario_A (x1 x2 : ℚ) (label : String) : C_block_schedule :=
  ⟨const_matrix 1, const_matrix 2, [[x1, x2]], [label], [], ""⟩

/-- A facade whose operating and pricing schedules are both Scenario A. -/
def scenario_A_facade (x1 x2 : ℚ) (is_leapyear : Bool) : C_csp_tou_block_schedules :=
  ⟨⟨scenario_A x1 x2 "Turbine Fraction", scenario_A x1 x2 "Price Multiplier"⟩,
    ⟨is_leapyear⟩, ""⟩

/-- All-ones matrices with a single value array holding one entry `x`: every period of
the schedule (only period 1) has its entry in the array. -/
def one_period_schedule (x : ℚ) : C_block_schedule :=
  ⟨const_matrix 1, const_matrix 1, [[x]], ["Turbine Fraction"], [], ""⟩

/-- A schedule as in Scenario A whose weekday matrix has only 11 rows. -/
def eleven_row_schedule : C_block_schedule :=
  ⟨⟨11, 24, fun _ _ => 1⟩, const_matrix 2, [[1, 1]], ["Turbine Fraction"], [], ""⟩

/-- A facade whose operating schedule is Scenario A, not yet expanded, and whose pricing
schedule has an 11-row weekday matrix. -/
def half_valid_facade : C_csp_tou_block_schedules :=
  ⟨⟨scenario_A (1 / 2) (3 / 2) "Turbine Fraction", eleven_row_schedule⟩, ⟨false⟩, ""⟩

/-- The assignment of the public member `ms_params` by the owner of a heat sink. -/
def C_pc_heat_sink.with_params {Φ R : Type} (self : C_pc_heat_sink Φ R)
    (p : C_pc_heat_sink.S_params) : C_pc_heat_sink Φ R :=
  { self with ms_params := p }

/-- A schedule whose largest period id, 3, sits in the first cell of the weekday matrix,
every other cell being 1, with one value array of two entries. -/
def peak_schedule : C_block_schedule :=
  ⟨⟨12, 24, fun i j => if i = 0 ∧ j = 0 then 3 else 1⟩, const_matrix 1, [[1, 1]],
    ["Turbine Fraction"], [], ""⟩

/-! ## Concrete heat sinks -/

/-- Collaborators for the examples: every fluid is accepted, the average specific heat is
3/2 whatever the fluid and the temperatures, and reported outputs are not recorded. -/
def example_env : collaborators Unit Unit :=
  { User_defined := 50
    End_Library_Fluids := 36
    SetFluid := fun props _ => (true, props)
    SetUserDefinedFluid := fun props _ => (true, props)
    UserFluidErrMessage := fun _ => "user fluid error"
    util_format := fun msg _ _ => msg
    Cp_ave := fun _ _ _ _ => 3 / 2
    construct_outputs := fun r _ => r
    value := fun r _ _ => r
    set_timestep_outputs := fun r => r }

/-- A fluid table with the given shape and all cells zero. -/
def blank_table (n_rows n_cols : Nat) : htf_table := ⟨n_rows, n_cols, fun _ _ => 0⟩

/-- The members of a heat sink before its constructor body runs: nothing is set. -/
def heat_sink_base : C_pc_heat_sink Unit Unit :=
  ⟨⟨none, none, none, none, 0, blank_table 0 0⟩, (), (), none, none⟩

/-- A constructed heat sink whose parameters have then been set to `p`. -/
def configured (p : C_pc_heat_sink.S_params) : C_pc_heat_sink Unit Unit :=
  { C_pc_heat_sink.construct example_env heat_sink_base with ms_params := p }

/-- Scenario B: hot 300 C, cold 250 C, duty 10 MWt, pump coefficient 1/2, with fluid
selector `fl` and user table `table`. -/
def scenario_B (fl : Int) (table : htf_table) : C_pc_heat_sink Unit Unit :=
  configured ⟨some 300, some 250, some 10, some (1 / 2), fl, table⟩

/-- A `solved_params` structure nothing has been written to. -/
def blank_solved_params : S_solved_params :=
  ⟨none, none, none, none, none, none, none, none, none, none, none⟩

/-- The messages of the table-shape exception of `C_pc_heat_sink::init`. -/
def is_table_shape_message (msg : String) : Prop :=
  ∃ r c : Int, msg = table_shape_message r c

/-- Scenario B constructed over the aggregator of the specification. -/
def scenario_B_reporting : C_pc_heat_sink Unit reported_outputs :=
  { C_pc_heat_sink.construct (with_aggregator example_env 0)
      ⟨⟨none, none, none, none, 0, blank_table 0 0⟩, (),
        reported_outputs.construct [], none, none⟩ with
    ms_params := ⟨some 300, some 250, some 10, some (1 / 2), 1, blank_table 0 0⟩ }

/-- A constructed heat sink configured with equal hot and cold design temperatures: hot
250 C, cold 250 C, duty 10 MWt, pump coefficient `k`, a library fluid. -/
def equal_temperatures (k : ℚ) : C_pc_heat_sink Unit Unit :=
  (C_pc_heat_sink.construct example_env heat_sink_base).with_params
    ⟨some 250, some 250, some 10, some k, 1, blank_table 0 0⟩

/-! ## The expansion loops -/

theorem hour_loop_spec (s : C_block_schedule) (n m : Nat) (b : Bool) (hm : m < 12) :
    ∀ (r h : Nat) (st : expand_state), h + r = 24 → st.i + r ≤ n → st.m_hr_tou.length = n →
      (hour_loop s n m b h r st).wday = st.wday ∧
      (hour_loop s n m b h r st).i = st.i + r ∧
      (hour_loop s n m b h r st).writes = st.writes ++ List.range' st.i r ∧
      (hour_loop s n m b h r st).m_hr_tou.length = n ∧
      ∀ j, (hour_loop s n m b h r st).m_hr_tou[j]? =
        if st.i ≤ j ∧ j < st.i + r then
          some (some (if b then s.mc_weekends.cell m (h + (j - st.i))
            else s.mc_weekdays.cell m (h + (j - st.i))))
        else st.m_hr_tou[j]? := by
  intro r
  induction r with
  | zero =>
    intro h st _ _ hlen
    refine ⟨rfl, rfl, by simp [hour_loop], hlen, ?_⟩
    intro j
    have hno : ¬ (st.i ≤ j ∧ j < st.i + 0) := by omega
    rw [if_neg hno]
    rfl
  | succ r ih =>
    intro h st hh hi hlen
    have hg : h < 24 ∧ st.i < n ∧ m * 24 + h < 288 := by omega
    have step := ih (h + 1)
      { st with m_hr_tou := st.m_hr_tou.set st.i
                  (some (if b then s.mc_weekends.cell m h else s.mc_weekdays.cell m h))
                writes := st.writes ++ [st.i]
                i := st.i + 1 }
      (by omega) (by simp; omega) (by simp [hlen])
    simp only [hour_loop, hg, and_self, if_true]
    dsimp only at step
    obtain ⟨h1, h2, h3, h4, h5⟩ := step
    refine ⟨h1, by rw [h2]; omega, ?_, h4, ?_⟩
    · rw [h3]; simp [List.range'_succ]
    · intro j
      rw [h5 j]
      by_cases hj : st.i = j
      · subst hj
        have c1 : ¬ (st.i + 1 ≤ st.i ∧ st.i < st.i + 1 + r) := by omega
        have c2 : st.i ≤ st.i ∧ st.i < st.i + (r + 1) := by omega
        have c3 : st.i < st.m_hr_tou.length := by omega
        simp [c1, c2, c3, List.getElem?_set]
      · by_cases hin : st.i + 1 ≤ j ∧ j < st.i + 1 + r
        · have c2 : st.i ≤ j ∧ j < st.i + (r + 1) := by omega
          have e : h + 1 + (j - (st.i + 1)) = h + (j - st.i) := by omega
          simp [hin, c2, e]
        · have c2 : ¬ (st.i ≤ j ∧ j < st.i + (r + 1)) := by omega
          simp [hin, c2, List.getElem?_set, hj]

theorem range_append_range (a b : Nat) :
    List.range a ++ List.range' a b = List.range (a + b) := by
  rw [List.range_eq_range', List.range_eq_range']
  have := List.range'_append 0 a b 1
  simpa [Nat.add_comm] using this

theorem day_body_spec (s : C_block_schedule) (leap : Bool) (n m D : Nat)
    (st : expand_state) (hm : m < 12) (hn : 24 * (D + 1) ≤ n)
    (hmonth : month_of_day leap D = m) (hst : expanded_to s leap n D st) :
    expanded_to s leap n (D + 1) (day_body s n m st) := by
  obtain ⟨hw, hi, hwr, hlen, hget⟩ := hst
  have key := hour_loop_spec s n m (decide (st.wday ≤ 0)) hm 24 0
    { st with wday := wday_step st.wday } (by omega) (by simp only; omega) hlen
  dsimp only at key
  obtain ⟨k1, k2, k3, k4, k5⟩ := key
  unfold day_body
  refine ⟨?_, ?_, ?_, k4, ?_⟩
  · rw [k1, hw]; rfl
  · rw [k2, hi]; omega
  · rw [k3, hwr, hi, range_append_range]
    congr 1
  · intro j
    rw [k5 j, hget j, hi]
    by_cases hin : 24 * D ≤ j ∧ j < 24 * D + 24
    · have c1 : j < 24 * (D + 1) := by omega
      have hd : j / 24 = D := by omega
      have hh : j % 24 = 0 + (j - 24 * D) := by omega
      rw [if_pos hin, if_pos c1]
      simp only [source_cell, is_weekend_day, hd, hh, hmonth, hw]
    · rw [if_neg hin]
      by_cases c0 : j < 24 * D
      · have c1 : j < 24 * (D + 1) := by omega
        rw [if_pos c0, if_pos c1]
      · have c1 : ¬ j < 24 * (D + 1) := by omega
        rw [if_neg c0, if_neg c1]

theorem month_body_spec (s : C_block_schedule) (leap : Bool) (m D0 : Nat) (hm : m < 12)
    (hmonth : ∀ d, d < (nday leap).getD m 0 → month_of_day leap (D0 + d) = m)
    (hn : 24 * (D0 + (nday leap).getD m 0) ≤ nhrann leap) (st : expand_state)
    (hst : expanded_to s leap (nhrann leap) D0 st) :
    expanded_to s leap (nhrann leap) (D0 + (nday leap).getD m 0) (month_body s leap st m) := by
  unfold month_body
  generalize (nday leap).getD m 0 = nd at hmonth hn
  induction nd with
  | zero => simpa using hst
  | succ k ih =>
    rw [List.range_succ, List.foldl_append]
    have prev := ih (fun d hd => hmonth d (by omega)) (by omega)
    exact day_body_spec s leap (nhrann leap) m (D0 + k) _ hm (by omega)
      (hmonth k (by omega)) prev

theorem month_in_take_sum : ∀ (L : List Nat) (m d : Nat), d < L.getD m 0 →
    month_in L ((L.take m).sum + d) = m := by
  intro L
  induction L with
  | nil => intro m d hd; simp at hd
  | cons c rest ih =>
    intro m d hd
    cases m with
    | zero =>
      have hc : d < c := by simpa using hd
      simp [month_in, hc]
    | succ k =>
      have hk : d < rest.getD k 0 := by simpa using hd
      have hnot : ¬ (c + (rest.take k).sum + d < c) := by omega
      have hsub : c + (rest.take k).sum + d - c = (rest.take k).sum + d := by omega
      simp only [List.take_succ_cons, List.sum_cons, month_in, hnot, if_false, hsub, ih k d hk]
      omega

theorem nday_table (leap : Bool) :
    nday leap = [31, if leap then 29 else 28, 31, 30, 31, 30, 31, 31, 30, 31, 30, 31] := by
  cases leap <;> rfl

theorem month_of_day_days_before (leap : Bool) (m d : Nat)
    (hd : d < (nday leap).getD m 0) : month_of_day leap (days_before leap m + d) = m := by
  unfold month_of_day days_before
  rw [← nday_table]
  exact month_in_take_sum (nday leap) m d hd

theorem days_before_succ (leap : Bool) (m : Nat) (hm : m < 12) :
    days_before leap (m + 1) = days_before leap m + (nday leap).getD m 0 := by
  cases leap <;> interval_cases m <;> rfl

theorem days_before_le (leap : Bool) (m : Nat) (hm : m ≤ 12) :
    24 * days_before leap m ≤ nhrann leap := by
  cases leap <;> interval_cases m <;> decide

theorem days_before_twelve (leap : Bool) : 24 * days_before leap 12 = nhrann leap := by
  cases leap <;> rfl

theorem expand_prefix (s : C_block_schedule) (leap : Bool) (k : Nat) (hk : k ≤ 12) :
    expanded_to s leap (nhrann leap) (days_before leap k)
      ((List.range k).foldl (month_body s leap)
        ⟨5, 0, List.replicate (nhrann leap) none, []⟩) := by
  induction k with
  | zero =>
    refine ⟨rfl, rfl, rfl, by simp, ?_⟩
    intro j
    by_cases hj : j < nhrann leap
    · simp [days_before, hj, List.getElem?_replicate]
    · simp [days_before, hj, List.getElem?_replicate]
  | succ k ih =>
    rw [List.range_succ, List.foldl_append, days_before_succ leap k (by omega)]
    have hle := days_before_le leap (k + 1) hk
    rw [days_before_succ leap k (by omega)] at hle
    exact month_body_spec s leap k (days_before leap k) (by omega)
      (fun d hd => month_of_day_days_before leap k d hd) hle _ (ih (by omega))

theorem expand_spec (s : C_block_schedule) (leap : Bool) :
    (expand s leap).writes = List.range (nhrann leap) ∧
    (expand s leap).i = nhrann leap ∧
    (expand s leap).m_hr_tou.length = nhrann leap ∧
    ∀ j, j < nhrann leap →
      (expand s leap).m_hr_tou[j]? = some (some (source_cell s leap j)) := by
  have h := expand_prefix s leap 12 (le_refl 12)
  obtain ⟨_, hi, hwr, hlen, hget⟩ := h
  rw [days_before_twelve] at hi hwr hget
  refine ⟨hwr, hi, hlen, ?_⟩
  intro j hj
  have := hget j
  rw [if_pos hj] at this
  exact this

/-! ## The scan of `check_arrays_for_tous` -/

theorem scan_cell_spec (s : C_block_schedule) (i j : Nat) (sc : tou_scan) (hj : j < 24)
    (h : scanned s (24 * i + j) sc) : scanned s (24 * i + j + 1) (scan_cell s i j sc) := by
  obtain ⟨h1, h2, h3, h4, h5⟩ := h
  unfold scan_cell
  refine ⟨?_, ?_, ?_, ?_, ?_⟩
  · dsimp only; split_ifs <;> omega
  · dsimp only; split_ifs <;> omega
  · intro a b hb hlt
    dsimp only
    by_cases hcell : a = i ∧ b = j
    · obtain ⟨rfl, rfl⟩ := hcell
      split_ifs <;> omega
    · have hprev := h3 a b hb (by omega)
      split_ifs <;> omega
  · dsimp only
    intro hlt
    by_cases hc : min (s.mc_weekdays.cell i j - 1) (s.mc_weekends.cell i j - 1) < sc.i_tou_min
    · rw [if_pos hc] at hlt ⊢
      refine ⟨i, j, hj, by omega, ?_⟩
      omega
    · rw [if_neg hc] at hlt ⊢
      obtain ⟨a, b, hb, hab, hv⟩ := h4 hlt
      exact ⟨a, b, hb, by omega, hv⟩
  · dsimp only
    intro hlt
    by_cases hc : max (s.mc_weekdays.cell i j - 1) (s.mc_weekends.cell i j - 1) > sc.i_tou_max
    · rw [if_pos hc] at hlt ⊢
      refine ⟨i, j, hj, by omega, ?_⟩
      omega
    · rw [if_neg hc] at hlt ⊢
      obtain ⟨a, b, hb, hab, hv⟩ := h5 hlt
      exact ⟨a, b, hb, by omega, hv⟩

theorem scan_row_prefix (s : C_block_schedule) (i : Nat) (sc : tou_scan)
    (h : scanned s (24 * i) sc) (k : Nat) (hk : k ≤ 24) :
    scanned s (24 * i + k) ((List.range k).foldl (fun acc j => scan_cell s i j acc) sc) := by
  induction k with
  | zero => simpa using h
  | succ k ih =>
    rw [List.range_succ, List.foldl_append]
    exact scan_cell_spec s i k _ (by omega) (ih (by omega))

theorem scan_rows_prefix (s : C_block_schedule) (k : Nat) :
    scanned s (24 * k) ((List.range k).foldl (scan_row s) {}) := by
  induction k with
  | zero =>
    simp only [List.range_zero, List.foldl_nil, scanned]
    refine ⟨by decide, by decide, ?_, ?_, ?_⟩
    · intro a b _ hlt; omega
    · intro hlt; exact absurd hlt (by decide)
    · intro hlt; exact absurd hlt (by decide)
  | succ k ih =>
    rw [List.range_succ, List.foldl_append]
    simp only [List.foldl_cons, List.foldl_nil]
    have hrow := scan_row_prefix s k _ ih 24 (le_refl 24)
    have e : 24 * (k + 1) = 24 * k + 24 := by omega
    rw [e]
    unfold scan_row
    exact hrow

theorem scan_schedules_spec (s : C_block_schedule) : scanned s 288 (scan_schedules s) :=
  scan_rows_prefix s 12

/-! ## Period ids of a schedule -/

theorem mem_period_ids (s : C_block_schedule) (x : Int) :
    x ∈ period_ids s ↔
      ∃ a b, a < 12 ∧ b < 24 ∧ (x = s.mc_weekdays.cell a b ∨ x = s.mc_weekends.cell a b) := by
  simp only [period_ids, List.mem_flatMap, List.mem_range, List.mem_cons, List.mem_singleton,
    List.not_mem_nil, or_false]
  constructor
  · rintro ⟨a, ha, b, hb, h⟩
    exact ⟨a, b, ha, hb, h⟩
  · rintro ⟨a, b, ha, hb, h⟩
    exact ⟨a, ha, b, hb, h⟩

theorem foldl_min_lt_iff (l : List Int) (init x : Int) :
    l.foldl min init < x ↔ init < x ∨ ∃ y ∈ l, y < x := by
  induction l generalizing init with
  | nil => simp
  | cons c rest ih =>
    rw [List.foldl_cons, ih]
    constructor
    · rintro (h | ⟨y, hy, hlt⟩)
      · rcases min_lt_iff.mp h with h | h
        · exact Or.inl h
        · exact Or.inr ⟨c, List.mem_cons_self _ _, h⟩
      · exact Or.inr ⟨y, List.mem_cons_of_mem _ hy, hlt⟩
    · rintro (h | ⟨y, hy, hlt⟩)
      · exact Or.inl (min_lt_iff.mpr (Or.inl h))
      · rcases List.mem_cons.mp hy with rfl | hy
        · exact Or.inl (min_lt_iff.mpr (Or.inr hlt))
        · exact Or.inr ⟨y, hy, hlt⟩

theorem lt_foldl_max_iff (l : List Int) (init x : Int) :
    x < l.foldl max init ↔ x < init ∨ ∃ y ∈ l, x < y := by
  induction l generalizing init with
  | nil => simp
  | cons c rest ih =>
    rw [List.foldl_cons, ih]
    constructor
    · rintro (h | ⟨y, hy, hlt⟩)
      · rcases lt_max_iff.mp h with h | h
        · exact Or.inl h
        · exact Or.inr ⟨c, List.mem_cons_self _ _, h⟩
      · exact Or.inr ⟨y, List.mem_cons_of_mem _ hy, hlt⟩
    · rintro (h | ⟨y, hy, hlt⟩)
      · exact Or.inl (lt_max_iff.mpr (Or.inl h))
      · rcases List.mem_cons.mp hy with rfl | hy
        · exact Or.inl (lt_max_iff.mpr (Or.inr hlt))
        · exact Or.inr ⟨y, hy, hlt⟩

theorem min_period_id_lt_iff (s : C_block_schedule) (x : Int) :
    min_period_id s < x ↔
      ∃ a b, a < 12 ∧ b < 24 ∧ (s.mc_weekdays.cell a b < x ∨ s.mc_weekends.cell a b < x) := by
  unfold min_period_id
  rw [foldl_min_lt_iff]
  constructor
  · rintro (h | ⟨y, hy, hlt⟩)
    · exact ⟨0, 0, by decide, by decide, Or.inl h⟩
    · obtain ⟨a, b, ha, hb, h | h⟩ := (mem_period_ids s y).mp hy
      · exact ⟨a, b, ha, hb, Or.inl (h ▸ hlt)⟩
      · exact ⟨a, b, ha, hb, Or.inr (h ▸ hlt)⟩
  · rintro ⟨a, b, ha, hb, h | h⟩
    · exact Or.inr ⟨_, (mem_period_ids s _).mpr ⟨a, b, ha, hb, Or.inl rfl⟩, h⟩
    · exact Or.inr ⟨_, (mem_period_ids s _).mpr ⟨a, b, ha, hb, Or.inr rfl⟩, h⟩

theorem lt_max_period_id_iff (s : C_block_schedule) (x : Int) :
    x < max_period_id s ↔
      ∃ a b, a < 12 ∧ b < 24 ∧ (x < s.mc_weekdays.cell a b ∨ x < s.mc_weekends.cell a b) := by
  unfold max_period_id
  rw [lt_foldl_max_iff]
  constructor
  · rintro (h | ⟨y, hy, hlt⟩)
    · exact ⟨0, 0, by decide, by decide, Or.inl h⟩
    · obtain ⟨a, b, ha, hb, h | h⟩ := (mem_period_ids s y).mp hy
      · exact ⟨a, b, ha, hb, Or.inl (h ▸ hlt)⟩
      · exact ⟨a, b, ha, hb, Or.inr (h ▸ hlt)⟩
  · rintro ⟨a, b, ha, hb, h | h⟩
    · exact Or.inr ⟨_, (mem_period_ids s _).mpr ⟨a, b, ha, hb, Or.inl rfl⟩, h⟩
    · exact Or.inr ⟨_, (mem_period_ids s _).mpr ⟨a, b, ha, hb, Or.inr rfl⟩, h⟩

theorem scan_min_neg_iff (s : C_block_schedule) :
    (scan_schedules s).i_tou_min < 0 ↔ min_period_id s < 1 := by
  obtain ⟨_, _, h3, h4, _⟩ := scan_schedules_spec s
  rw [min_period_id_lt_iff]
  constructor
  · intro hneg
    obtain ⟨a, b, hb, hab, hv⟩ := h4 (by omega)
    refine ⟨a, b, by omega, hb, ?_⟩
    omega
  · rintro ⟨a, b, ha, hb, hv⟩
    have := h3 a b hb (by omega)
    omega

theorem scan_max_le_iff (s : C_block_schedule) (x : Int) :
    (scan_schedules s).i_tou_max + 1 ≤ x ↔ 2 ≤ x ∧ max_period_id s ≤ x := by
  obtain ⟨_, h2, h3, _, h5⟩ := scan_schedules_spec s
  have key : ¬ (x < max_period_id s) ↔ max_period_id s ≤ x := not_lt
  rw [← key, lt_max_period_id_iff]
  constructor
  · intro hle
    refine ⟨by omega, ?_⟩
    rintro ⟨a, b, ha, hb, hv⟩
    have := h3 a b hb (by omega)
    omega
  · rintro ⟨h2x, hall⟩
    by_contra hcon
    have hbig : 1 < (scan_schedules s).i_tou_max := by omega
    obtain ⟨a, b, hb, hab, hv⟩ := h5 hbig
    exact hall ⟨a, b, by omega, hb, by omega⟩

/-! ## The three kinds of message are distinct -/

theorem shape_message_ne_min (msg : String) (h : is_shape_message msg) : msg ≠ min_message := by
  rintro rfl
  obtain ⟨k, h | h | h | h⟩ := h <;>
  · have h2 := congrArg (fun t : String => t.data.take 1) h
    simp [min_message, String.data_append] at h2

theorem shape_message_not_size (msg : String) (h : is_shape_message msg) :
    ¬ is_size_message msg := by
  rintro ⟨p, label, size, rfl⟩
  obtain ⟨k, h | h | h | h⟩ := h <;>
  · have h2 := congrArg (fun t : String => t.data.take 13) h
    simp [String.data_append] at h2

theorem size_message_is_size (sc : tou_scan) (label : String) (size : Nat) :
    is_size_message (size_message sc label size) :=
  ⟨sc.i_temp_max, label, size, rfl⟩

/-! ## `check_dimensions` -/

theorem check_dimensions_ok (s : C_block_schedule) (h : shape_ok s) :
    check_dimensions s = (none, s) := by
  obtain ⟨h1, h2, h3, h4⟩ := h
  simp [check_dimensions, mstatic_n_rows, mstatic_n_cols, h1, h2, h3, h4]

theorem check_dimensions_bad (s : C_block_schedule) (h : ¬ shape_ok s) :
    ∃ msg, is_shape_message msg ∧
      check_dimensions s = (some (.thrown ⟨msg, loc_init⟩), { s with m_error_msg := msg }) := by
  unfold check_dimensions
  simp only [mstatic_n_rows, mstatic_n_cols]
  by_cases h1 : s.mc_weekdays.n_rows = 12
  · by_cases h2 : s.mc_weekdays.n_cols = 24
    · by_cases h3 : s.mc_weekends.n_rows = 12
      · by_cases h4 : s.mc_weekends.n_cols = 24
        · exact absurd ⟨h1, h2, h3, h4⟩ h
        · refine ⟨_, ⟨s.mc_weekends.n_cols, Or.inr (Or.inr (Or.inr rfl))⟩, ?_⟩
          simp [h1, h2, h3, h4]
      · refine ⟨_, ⟨s.mc_weekends.n_rows, Or.inr (Or.inr (Or.inl rfl))⟩, ?_⟩
        simp [h1, h2, h3]
    · refine ⟨_, ⟨s.mc_weekdays.n_cols, Or.inr (Or.inl rfl)⟩, ?_⟩
      simp [h1, h2]
  · refine ⟨_, ⟨s.mc_weekdays.n_rows, Or.inl rfl⟩, ?_⟩
    simp [h1]

/-! ## `check_arrays_for_tous` -/

theorem check_sizes_cases (s : C_block_schedule) (sc : tou_scan) (r k : Nat) :
    check_sizes s sc k r = (none, s) ∨ check_sizes s sc k r = (some .out_of_bounds, s) ∨
    ∃ msg, is_size_message msg ∧
      check_sizes s sc k r = (some (.thrown ⟨msg, loc_init⟩), { s with m_error_msg := msg }) := by
  induction r generalizing k with
  | zero => exact Or.inl rfl
  | succ r ih =>
    unfold check_sizes
    cases ha : s.mvv_tou_arrays[k]? with
    | none => exact Or.inr (Or.inl rfl)
    | some arr =>
      dsimp only
      by_cases hlen : sc.i_tou_max + 1 > (arr.length : Int)
      · rw [if_pos hlen]
        cases hl : s.mv_labels[k]? with
        | none => exact Or.inr (Or.inl rfl)
        | some label =>
          exact Or.inr (Or.inr ⟨_, size_message_is_size sc label arr.length, rfl⟩)
      · rw [if_neg hlen]
        exact ih (k + 1)

theorem check_sizes_none_iff (s : C_block_schedule) (sc : tou_scan) (r k : Nat) :
    (check_sizes s sc k r).1 = none ↔
      ∀ j, k ≤ j → j < k + r →
        ∃ arr, s.mvv_tou_arrays[j]? = some arr ∧ sc.i_tou_max + 1 ≤ (arr.length : Int) := by
  induction r generalizing k with
  | zero =>
    simp only [check_sizes, true_iff]
    intro j h1 h2; omega
  | succ r ih =>
    unfold check_sizes
    cases ha : s.mvv_tou_arrays[k]? with
    | none =>
      dsimp only
      constructor
      · intro h; exact absurd h (by simp)
      · intro h
        obtain ⟨arr, harr, _⟩ := h k (le_refl k) (by omega)
        rw [ha] at harr
        exact absurd harr (by simp)
    | some arr =>
      dsimp only
      by_cases hlen : sc.i_tou_max + 1 > (arr.length : Int)
      · rw [if_pos hlen]
        constructor
        · intro h
          cases hl : s.mv_labels[k]? with
          | none => rw [hl] at h; exact absurd h (by simp)
          | some label => rw [hl] at h; exact absurd h (by simp)
        · intro h
          obtain ⟨arr2, harr, hle⟩ := h k (le_refl k) (by omega)
          rw [ha] at harr
          cases harr
          omega
      · rw [if_neg hlen, ih (k + 1)]
        constructor
        · intro h j hj1 hj2
          by_cases hjk : j = k
          · subst hjk
            exact ⟨arr, ha, by omega⟩
          · exact h j (by omega) (by omega)
        · intro h j hj1 hj2
          exact h j (by omega) (by omega)

theorem check_arrays_cases (s : C_block_schedule) (n : Nat) :
    check_arrays_for_tous s n = (none, s) ∨
    check_arrays_for_tous s n = (some .out_of_bounds, s) ∨
    check_arrays_for_tous s n = (some (.thrown ⟨min_message, loc_init⟩), s) ∨
    ∃ msg, is_size_message msg ∧
      check_arrays_for_tous s n
        = (some (.thrown ⟨msg, loc_init⟩), { s with m_error_msg := msg }) := by
  unfold check_arrays_for_tous
  dsimp only
  by_cases hmin : (scan_schedules s).i_tou_min < 0
  · rw [if_pos hmin]; exact Or.inr (Or.inr (Or.inl rfl))
  · rw [if_neg hmin]
    rcases check_sizes_cases s (scan_schedules s) n 0 with h | h | h
    · exact Or.inl h
    · exact Or.inr (Or.inl h)
    · exact Or.inr (Or.inr (Or.inr h))

theorem check_arrays_none_iff (s : C_block_schedule) (n : Nat) :
    (check_arrays_for_tous s n).1 = none ↔
      1 ≤ min_period_id s ∧
      ∀ k, k < n → ∃ arr, s.mvv_tou_arrays[k]? = some arr ∧
        2 ≤ (arr.length : Int) ∧ max_period_id s ≤ (arr.length : Int) := by
  unfold check_arrays_for_tous
  dsimp only
  by_cases hmin : (scan_schedules s).i_tou_min < 0
  · rw [if_pos hmin]
    have := (scan_min_neg_iff s).mp hmin
    constructor
    · intro h; exact absurd h (by simp)
    · rintro ⟨h, _⟩; omega
  · rw [if_neg hmin, check_sizes_none_iff]
    have hm : 1 ≤ min_period_id s := by
      by_contra hcon
      exact hmin ((scan_min_neg_iff s).mpr (by omega))
    constructor
    · intro h
      refine ⟨hm, fun k hk => ?_⟩
      obtain ⟨arr, harr, hle⟩ := h k (Nat.zero_le k) (by omega)
      exact ⟨arr, harr, (scan_max_le_iff s _).mp hle⟩
    · rintro ⟨_, h⟩ j _ hj
      obtain ⟨arr, harr, hle⟩ := h j (by omega)
      exact ⟨arr, harr, (scan_max_le_iff s _).mpr hle⟩

/-! ## `C_block_schedule::init` -/

theorem init_of_bad_shape (s : C_block_schedule) (n : Nat) (leap : Bool) (h : ¬ shape_ok s) :
    ∃ msg, is_shape_message msg ∧
      s.init n leap = (some (.thrown ⟨msg, loc_init⟩), { s with m_error_msg := msg }) := by
  obtain ⟨msg, hmsg, hcd⟩ := check_dimensions_bad s h
  exact ⟨msg, hmsg, by simp [C_block_schedule.init, hcd]⟩

theorem init_of_good_shape (s : C_block_schedule) (n : Nat) (leap : Bool) (h : shape_ok s) :
    s.init n leap =
      match check_arrays_for_tous s n with
      | (some f, s2) => (some f, s2)
      | (none, s2) => (none, set_hr_tou s2 leap) := by
  simp [C_block_schedule.init, check_dimensions_ok s h]

theorem init_none_iff (s : C_block_schedule) (n : Nat) (leap : Bool) :
    (s.init n leap).1 = none ↔ shape_ok s ∧ (check_arrays_for_tous s n).1 = none := by
  by_cases hs : shape_ok s
  · rw [init_of_good_shape s n leap hs]
    rcases check_arrays_cases s n with h | h | h | ⟨msg, _, h⟩ <;> simp [h, hs]
  · obtain ⟨msg, _, h⟩ := init_of_bad_shape s n leap hs
    simp [h, hs]

theorem init_state_of_none (s : C_block_schedule) (n : Nat) (leap : Bool)
    (h : (s.init n leap).1 = none) : (s.init n leap).2 = set_hr_tou s leap := by
  have hs := ((init_none_iff s n leap).mp h).1
  rw [init_of_good_shape s n leap hs] at h ⊢
  rcases check_arrays_cases s n with h2 | h2 | h2 | ⟨msg, _, h2⟩
  · simp [h2]
  · rw [h2] at h; exact absurd h (by simp)
  · rw [h2] at h; exact absurd h (by simp)
  · rw [h2] at h; exact absurd h (by simp)

theorem init_keeps_array_on_failure (s : C_block_schedule) (n : Nat) (leap : Bool)
    (h : (s.init n leap).1 ≠ none) : (s.init n leap).2.m_hr_tou = s.m_hr_tou := by
  by_cases hs : shape_ok s
  · rw [init_of_good_shape s n leap hs] at h ⊢
    rcases check_arrays_cases s n with h2 | h2 | h2 | ⟨msg, _, h2⟩
    · rw [h2] at h; exact absurd rfl h
    · rw [h2]
    · rw [h2]
    · rw [h2]
  · obtain ⟨msg, _, h2⟩ := init_of_bad_shape s n leap hs
    rw [h2]

theorem init_thrown_message (s : C_block_schedule) (n : Nat) (leap : Bool)
    (e : C_csp_exception) (h : (s.init n leap).1 = some (.thrown e)) (hs : shape_ok s) :
    e.m_error_message = min_message ∨ is_size_message e.m_error_message := by
  rw [init_of_good_shape s n leap hs] at h
  rcases check_arrays_cases s n with h2 | h2 | h2 | ⟨msg, hmsg, h2⟩
  · rw [h2] at h; exact absurd h (by simp)
  · rw [h2] at h; exact absurd h (by simp)
  · rw [h2] at h
    simp only [Option.some.injEq, fault.thrown.injEq] at h
    exact Or.inl (h ▸ rfl)
  · rw [h2] at h
    simp only [Option.some.injEq, fault.thrown.injEq] at h
    exact Or.inr (h ▸ hmsg)

/-! ## Entries of the expanded array are period ids of the schedule -/

theorem month_in_lt_length : ∀ (L : List Nat) (d : Nat), d < L.sum →
    month_in L d < L.length := by
  intro L
  induction L with
  | nil => intro d hd; simp at hd
  | cons c rest ih =>
    intro d hd
    unfold month_in
    by_cases hc : d < c
    · simp [hc]
    · have := ih (d - c) (by simp at hd; omega)
      simp only [hc, if_false, List.length_cons]
      omega

theorem month_of_day_lt (leap : Bool) (d : Nat) (hd : 24 * d < nhrann leap) :
    month_of_day leap d < 12 := by
  unfold month_of_day
  have := month_in_lt_length
    [31, if leap then 29 else 28, 31, 30, 31, 30, 31, 31, 30, 31, 30, 31] d
    (by cases leap <;> simp [nhrann] at hd ⊢ <;> omega)
  simpa using this

theorem source_cell_mem (s : C_block_schedule) (leap : Bool) (j : Nat)
    (hj : j < nhrann leap) : source_cell s leap j ∈ period_ids s := by
  rw [mem_period_ids]
  have hm := month_of_day_lt leap (j / 24) (by omega)
  have hh : j % 24 < 24 := Nat.mod_lt _ (by decide)
  refine ⟨month_of_day leap (j / 24), j % 24, hm, hh, ?_⟩
  unfold source_cell
  dsimp only
  cases is_weekend_day (j / 24)
  · exact Or.inl (by simp)
  · exact Or.inr (by simp)

theorem period_id_bounds (s : C_block_schedule) (x : Int) (hx : x ∈ period_ids s) :
    min_period_id s ≤ x ∧ x ≤ max_period_id s := by
  obtain ⟨a, b, ha, hb, hv⟩ := (mem_period_ids s x).mp hx
  constructor
  · by_contra hcon
    have h1 : ¬ (min_period_id s < min_period_id s) := lt_irrefl _
    apply h1
    rw [min_period_id_lt_iff] 
    rcases hv with hv | hv
    · exact ⟨a, b, ha, hb, Or.inl (by omega)⟩
    · exact ⟨a, b, ha, hb, Or.inr (by omega)⟩
  · by_contra hcon
    have h1 : ¬ (max_period_id s < max_period_id s) := lt_irrefl _
    apply h1
    rw [lt_max_period_id_iff]
    rcases hv with hv | hv
    · exact ⟨a, b, ha, hb, Or.inl (by omega)⟩
    · exact ⟨a, b, ha, hb, Or.inr (by omega)⟩

theorem init_entries (s : C_block_schedule) (n : Nat) (leap : Bool)
    (h : (s.init n leap).1 = none) :
    (s.init n leap).2.mvv_tou_arrays = s.mvv_tou_arrays ∧
    (s.init n leap).2.m_hr_tou.length = nhrann leap ∧
    ∀ j, j < nhrann leap →
      (s.init n leap).2.m_hr_tou[j]? = some (some (source_cell s leap j)) ∧
      1 ≤ source_cell s leap j ∧
      ∀ k, k < n → ∃ arr, s.mvv_tou_arrays[k]? = some arr ∧
        source_cell s leap j ≤ (arr.length : Int) := by
  rw [init_state_of_none s n leap h]
  obtain ⟨_, hca⟩ := (init_none_iff s n leap).mp h
  obtain ⟨hmin, harr⟩ := (check_arrays_none_iff s n).mp hca
  obtain ⟨_, _, hlen, hget⟩ := expand_spec s leap
  refine ⟨rfl, hlen, fun j hj => ?_⟩
  have hb := period_id_bounds s _ (source_cell_mem s leap j hj)
  refine ⟨hget j hj, by omega, fun k hk => ?_⟩
  obtain ⟨arr, ha, _, hmax⟩ := harr k hk
  exact ⟨arr, ha, by omega⟩

/-! ## The facade -/

theorem facade_init_none (self : C_csp_tou_block_schedules) (h : self.init.1 = none) :
    (self.ms_params.mc_csp_ops.init 1 self.mc_dispatch_params.m_isleapyear).1 = none ∧
    (self.ms_params.mc_pricing.init 1 self.mc_dispatch_params.m_isleapyear).1 = none ∧
    self.init.2.ms_params.mc_csp_ops
      = (self.ms_params.mc_csp_ops.init 1 self.mc_dispatch_params.m_isleapyear).2 ∧
    self.init.2.ms_params.mc_pricing
      = (self.ms_params.mc_pricing.init 1 self.mc_dispatch_params.m_isleapyear).2 ∧
    self.init.2.mc_dispatch_params = self.mc_dispatch_params := by
  unfold C_csp_tou_block_schedules.init at h ⊢
  simp only [C_block_schedule_csp_ops.N_END, C_block_schedule_pricing.N_END] at h ⊢
  rcases h1 : self.ms_params.mc_csp_ops.init 1 self.mc_dispatch_params.m_isleapyear
    with ⟨_ | _ | _, ops⟩
  · rcases h2 : self.ms_params.mc_pricing.init 1 self.mc_dispatch_params.m_isleapyear
      with ⟨_ | _ | _, pricing⟩
    · simp [h1, h2]
    · rw [h1, h2] at h; exact absurd h (by simp)
    · rw [h1, h2] at h; exact absurd h (by simp)
  · rw [h1] at h; exact absurd h (by simp)
  · rw [h1] at h; exact absurd h (by simp)

theorem hour_index_eq_iff (t : ℚ) (k : Int) :
    hour_index t = k ↔ 3600 * (k : ℚ) + 9 / 2500 < t ∧ t ≤ 3600 * ((k : ℚ) + 1) + 9 / 2500 := by
  unfold hour_index
  have e : ⌈t / 3600 - 1 / 1000000⌉ - 1 = k ↔ ⌈t / 3600 - 1 / 1000000⌉ = k + 1 := by
    constructor <;> intro h <;> omega
  rw [e, Int.ceil_eq_iff]
  push_cast
  constructor
  · rintro ⟨h1, h2⟩
    constructor <;> linarith
  · rintro ⟨h1, h2⟩
    constructor <;> linarith

theorem hour_out_of_range_iff (leap : Bool) (i : Int) :
    hour_out_of_range leap i = true ↔ (i < 0 ∨ i > total_hours leap - 1) := by
  cases leap <;> simp [hour_out_of_range, total_hours] <;> omega

theorem call_out_of_range (self : C_csp_tou_block_schedules) (t : ℚ)
    (h : hour_out_of_range self.mc_dispatch_params.m_isleapyear (hour_index t) = true) :
    self.call t = (.error (.thrown ⟨hour_message (hour_index t), "TOU timestep call"⟩),
      { self with m_error_msg := hour_message (hour_index t) }) := by
  simp [C_csp_tou_block_schedules.call, h]

theorem read_hr_tou_eq (s : C_block_schedule) (i : Int) (v : Int) (hi : 0 ≤ i)
    (h : s.m_hr_tou[i.toNat]? = some (some v)) : read_hr_tou s i = some v := by
  have : ¬ i < 0 := by omega
  simp [read_hr_tou, this, h]

theorem read_tou_array_eq (s : C_block_schedule) (slot : Nat) (tou : Int) (arr : List ℚ)
    (harr : s.mvv_tou_arrays[slot]? = some arr) (h1 : 1 ≤ tou) (h2 : tou ≤ (arr.length : Int)) :
    read_tou_array s slot tou = some (tou_value s slot tou) := by
  have hneg : ¬ tou - 1 < 0 := by omega
  have hlt : (tou - 1).toNat < arr.length := by omega
  have harr2 : s.mvv_tou_arrays.getD slot [] = arr := by
    rw [List.getD_eq_getElem?_getD, harr]; rfl
  simp only [read_tou_array, harr, hneg, if_false, tou_value, harr2]
  rw [List.getD_eq_getElem?_getD, List.getElem?_eq_getElem hlt]
  rfl

theorem call_of_init (self : C_csp_tou_block_schedules) (h : self.init.1 = none) (t : ℚ)
    (hr : hour_out_of_range self.mc_dispatch_params.m_isleapyear (hour_index t) = false) :
    self.init.2.call t =
      (.ok ⟨source_cell self.ms_params.mc_csp_ops self.mc_dispatch_params.m_isleapyear
              (hour_index t).toNat,
            source_cell self.ms_params.mc_pricing self.mc_dispatch_params.m_isleapyear
              (hour_index t).toNat,
            tou_value self.ms_params.mc_csp_ops 0
              (source_cell self.ms_params.mc_csp_ops self.mc_dispatch_params.m_isleapyear
                (hour_index t).toNat),
            tou_value self.ms_params.mc_pricing 0
              (source_cell self.ms_params.mc_pricing self.mc_dispatch_params.m_isleapyear
                (hour_index t).toNat)⟩, self.init.2) := by
  obtain ⟨ho, hp, eo, ep, el⟩ := facade_init_none self h
  have hrange : ¬ (hour_index t < 0 ∨
      hour_index t > total_hours self.mc_dispatch_params.m_isleapyear - 1) := by
    rw [← hour_out_of_range_iff, hr]; simp
  have hidx : (hour_index t).toNat < nhrann self.mc_dispatch_params.m_isleapyear := by
    have : (nhrann self.mc_dispatch_params.m_isleapyear : Int)
        = total_hours self.mc_dispatch_params.m_isleapyear := by
      cases self.mc_dispatch_params.m_isleapyear <;> rfl
    omega
  obtain ⟨oarr, _, oget⟩ := init_entries _ 1 _ ho
  obtain ⟨parr, _, pget⟩ := init_entries _ 1 _ hp
  obtain ⟨og, o1, oa⟩ := oget _ hidx
  obtain ⟨pg, p1, pa⟩ := pget _ hidx
  obtain ⟨arro, harro, hleo⟩ := oa 0 (by decide)
  obtain ⟨arrp, harrp, hlep⟩ := pa 0 (by decide)
  have r1 := read_hr_tou_eq self.init.2.ms_params.mc_csp_ops (hour_index t) _ (by omega)
    (by rw [eo]; exact og)
  have r2 := read_hr_tou_eq self.init.2.ms_params.mc_pricing (hour_index t) _ (by omega)
    (by rw [ep]; exact pg)
  have v1 := read_tou_array_eq self.init.2.ms_params.mc_csp_ops 0 _ arro
    (by rw [eo, oarr]; exact harro) o1 hleo
  have v2 := read_tou_array_eq self.init.2.ms_params.mc_pricing 0 _ arrp
    (by rw [ep, parr]; exact harrp) p1 hlep
  have t1 : tou_value self.init.2.ms_params.mc_csp_ops = tou_value self.ms_params.mc_csp_ops := by
    funext slot tou; simp only [tou_value, eo, oarr]
  have t2 : tou_value self.init.2.ms_params.mc_pricing = tou_value self.ms_params.mc_pricing := by
    funext slot tou; simp only [tou_value, ep, parr]
  rw [t1] at v1
  rw [t2] at v2
  unfold C_csp_tou_block_schedules.call
  simp only [el, hr, r1, r2, C_block_schedule_csp_ops.TURB_FRAC,
    C_block_schedule_pricing.MULT_PRICE, v1, v2]
  rfl

/-! ## Concrete schedules: the checks evaluated -/

theorem scan_schedules_i_temp_max (s : C_block_schedule) :
    (scan_schedules s).i_temp_max
      = max (s.mc_weekdays.cell 11 23 - 1) (s.mc_weekends.cell 11 23 - 1) := by
  unfold scan_schedules
  rw [show List.range 12 = List.range 11 ++ [11] from rfl, List.foldl_append]
  simp only [List.foldl_cons, List.foldl_nil]
  unfold scan_row
  rw [show List.range 24 = List.range 23 ++ [23] from rfl, List.foldl_append]
  rfl

theorem scan_max_ge_one (s : C_block_schedule) : 1 ≤ (scan_schedules s).i_tou_max :=
  (scan_schedules_spec s).2.1

theorem one_le_min_period_id (s : C_block_schedule)
    (h1 : ∀ a b, 1 ≤ s.mc_weekdays.cell a b) (h2 : ∀ a b, 1 ≤ s.mc_weekends.cell a b) :
    1 ≤ min_period_id s := by
  by_contra hcon
  obtain ⟨a, b, _, _, h | h⟩ := (min_period_id_lt_iff s 1).mp (lt_of_not_le hcon)
  · have := h1 a b; omega
  · have := h2 a b; omega

theorem max_period_id_le (s : C_block_schedule) (x : Int)
    (h1 : ∀ a b, s.mc_weekdays.cell a b ≤ x) (h2 : ∀ a b, s.mc_weekends.cell a b ≤ x) :
    max_period_id s ≤ x := by
  by_contra hcon
  obtain ⟨a, b, _, _, h | h⟩ := (lt_max_period_id_iff s x).mp (lt_of_not_le hcon)
  · have := h1 a b; omega
  · have := h2 a b; omega

theorem scenario_A_init_ok (x1 x2 : ℚ) (label : String) (leap : Bool) :
    ((scenario_A x1 x2 label).init 1 leap).1 = none := by
  rw [init_none_iff, check_arrays_none_iff]
  refine ⟨⟨rfl, rfl, rfl, rfl⟩,
    one_le_min_period_id _ (fun _ _ => by simp [scenario_A, const_matrix])
      (fun _ _ => by simp [scenario_A, const_matrix]), ?_⟩
  intro k hk
  have hk0 : k = 0 := by omega
  subst hk0
  exact ⟨[x1, x2], rfl, by simp,
    max_period_id_le _ _ (fun _ _ => by simp [scenario_A, const_matrix])
      (fun _ _ => by simp [scenario_A, const_matrix])⟩

theorem scenario_A_facade_init_ok (x1 x2 : ℚ) (leap : Bool) :
    (scenario_A_facade x1 x2 leap).init.1 = none := by
  have h1 := scenario_A_init_ok x1 x2 "Turbine Fraction" leap
  have h2 := scenario_A_init_ok x1 x2 "Price Multiplier" leap
  unfold C_csp_tou_block_schedules.init
  simp only [C_block_schedule_csp_ops.N_END, C_block_schedule_pricing.N_END, scenario_A_facade]
  rcases h3 : (scenario_A x1 x2 "Turbine Fraction").init 1 leap with ⟨f, ops⟩
  rw [h3] at h1
  simp only at h1
  subst h1
  rcases h4 : (scenario_A x1 x2 "Price Multiplier").init 1 leap with ⟨g, pricing⟩
  rw [h4] at h2
  simp only at h2
  subst h2
  rfl

/-! ## Lookups after a successful initialisation -/

theorem wday_at_closed (d : Nat) : wday_at d = 5 - ((d % 7 : Nat) : Int) := by
  induction d with
  | zero => rfl
  | succ d ih =>
    rw [wday_at, ih]
    unfold wday_step
    split_ifs <;> omega

theorem is_weekend_day_iff (d : Nat) : is_weekend_day d = true ↔ (d % 7 = 5 ∨ d % 7 = 6) := by
  unfold is_weekend_day
  rw [decide_eq_true_iff, wday_at_closed]
  omega

theorem call_in_range (self : C_csp_tou_block_schedules) (t : ℚ)
    (h : hour_out_of_range self.mc_dispatch_params.m_isleapyear (hour_index t) = false) :
    (self.call t).1 = (match lookup_at self (hour_index t) with
      | some out => .ok out
      | none => .error .out_of_bounds) := by
  unfold C_csp_tou_block_schedules.call lookup_at
  simp only [h, C_block_schedule_csp_ops.TURB_FRAC, C_block_schedule_pricing.MULT_PRICE]
  cases read_hr_tou self.ms_params.mc_csp_ops (hour_index t) with
  | none => rfl
  | some op =>
    cases read_hr_tou self.ms_params.mc_pricing (hour_index t) with
    | none => rfl
    | some pr =>
      dsimp only
      cases read_tou_array self.ms_params.mc_csp_ops 0 op with
      | none => rfl
      | some f =>
        cases read_tou_array self.ms_params.mc_pricing 0 pr with
        | none => rfl
        | some p => rfl

theorem lookup_at_of_init (self : C_csp_tou_block_schedules) (h : self.init.1 = none) (i : Int)
    (h0 : 0 ≤ i) (h1 : i < total_hours self.mc_dispatch_params.m_isleapyear) :
    ∃ op pr oarr parr f p,
      self.init.2.ms_params.mc_csp_ops.m_hr_tou[i.toNat]? = some (some op) ∧
      self.init.2.ms_params.mc_pricing.m_hr_tou[i.toNat]? = some (some pr) ∧
      self.init.2.ms_params.mc_csp_ops.mvv_tou_arrays[0]? = some oarr ∧
      self.init.2.ms_params.mc_pricing.mvv_tou_arrays[0]? = some parr ∧
      1 ≤ op ∧ 1 ≤ pr ∧
      oarr[(op - 1).toNat]? = some f ∧ parr[(pr - 1).toNat]? = some p ∧
      op = source_cell self.ms_params.mc_csp_ops self.mc_dispatch_params.m_isleapyear i.toNat ∧
      pr = source_cell self.ms_params.mc_pricing self.mc_dispatch_params.m_isleapyear i.toNat ∧
      self.ms_params.mc_csp_ops.mvv_tou_arrays[0]? = some oarr ∧
      self.ms_params.mc_pricing.mvv_tou_arrays[0]? = some parr ∧
      lookup_at self.init.2 i = some ⟨op, pr, f, p⟩ := by
  obtain ⟨ho, hp, eo, ep, el⟩ := facade_init_none self h
  have hidx : i.toNat < nhrann self.mc_dispatch_params.m_isleapyear := by
    have : (nhrann self.mc_dispatch_params.m_isleapyear : Int)
        = total_hours self.mc_dispatch_params.m_isleapyear := by
      cases self.mc_dispatch_params.m_isleapyear <;> rfl
    omega
  obtain ⟨oarr, _, oget⟩ := init_entries _ 1 _ ho
  obtain ⟨parr, _, pget⟩ := init_entries _ 1 _ hp
  obtain ⟨og, o1, oa⟩ := oget _ hidx
  obtain ⟨pg, p1, pa⟩ := pget _ hidx
  obtain ⟨arro, harro, hleo⟩ := oa 0 (by decide)
  obtain ⟨arrp, harrp, hlep⟩ := pa 0 (by decide)
  generalize source_cell self.ms_params.mc_csp_ops self.mc_dispatch_params.m_isleapyear
    i.toNat = op at og o1 hleo
  generalize source_cell self.ms_params.mc_pricing self.mc_dispatch_params.m_isleapyear
    i.toNat = pr at pg p1 hlep
  have hlo : (op - 1).toNat < arro.length := by omega
  have hlp : (pr - 1).toNat < arrp.length := by omega
  have go : self.init.2.ms_params.mc_csp_ops.m_hr_tou[i.toNat]? = some (some op) := by
    rw [eo]; exact og
  have gp : self.init.2.ms_params.mc_pricing.m_hr_tou[i.toNat]? = some (some pr) := by
    rw [ep]; exact pg
  have ao : self.init.2.ms_params.mc_csp_ops.mvv_tou_arrays[0]? = some arro := by
    rw [eo, oarr]; exact harro
  have ap : self.init.2.ms_params.mc_pricing.mvv_tou_arrays[0]? = some arrp := by
    rw [ep, parr]; exact harrp
  have hneg : ¬ i < 0 := by omega
  have hno : ¬ op - 1 < 0 := by omega
  have hnp : ¬ pr - 1 < 0 := by omega
  refine ⟨op, pr, arro, arrp, arro[(op - 1).toNat], arrp[(pr - 1).toNat], go, gp, ao, ap, o1, p1,
    List.getElem?_eq_getElem hlo, List.getElem?_eq_getElem hlp, rfl, rfl, harro, harrp, ?_⟩
  simp only [lookup_at, read_hr_tou, hneg, if_false, go, gp, Option.join, Option.bind,
    read_tou_array, ao, ap, id]
  simp only [hno, hnp, if_false, List.getElem?_eq_getElem hlo, List.getElem?_eq_getElem hlp]

theorem hour_index_of_hour (k : Int) : hour_index (3600 * (k : ℚ)) = k - 1 := by
  rw [hour_index_eq_iff]
  push_cast
  constructor <;> linarith

theorem call_resolves (self : C_csp_tou_block_schedules) (h : self.init.1 = none) (t : ℚ)
    (h0 : 0 ≤ hour_index t)
    (h1 : hour_index t < total_hours self.mc_dispatch_params.m_isleapyear) :
    ∃ out, lookup_at self.init.2 (hour_index t) = some out ∧ (self.init.2.call t).1 = .ok out := by
  obtain ⟨op, pr, oarr, parr, f, p, _, _, _, _, _, _, _, _, _, _, _, _, hl⟩ :=
    lookup_at_of_init self h (hour_index t) h0 h1
  have el := (facade_init_none self h).2.2.2.2
  have hr : hour_out_of_range self.init.2.mc_dispatch_params.m_isleapyear (hour_index t)
      = false := by
    rw [el]
    cases hb : hour_out_of_range self.mc_dispatch_params.m_isleapyear (hour_index t) with
    | false => rfl
    | true =>
      have := (hour_out_of_range_iff _ _).mp hb
      omega
  refine ⟨_, hl, ?_⟩
  rw [call_in_range _ _ hr, hl]

theorem call_rejects (self : C_csp_tou_block_schedules) (t : ℚ)
    (h : hour_index t < 0 ∨ hour_index t > total_hours self.mc_dispatch_params.m_isleapyear - 1) :
    (self.call t).1 = .error (.thrown ⟨hour_message (hour_index t), "TOU timestep call"⟩) := by
  rw [call_out_of_range self t ((hour_out_of_range_iff _ _).mpr h)]

theorem scenario_A_source_cell (x1 x2 : ℚ) (label : String) (leap : Bool) (j : Nat) :
    source_cell (scenario_A x1 x2 label) leap j = if is_weekend_day (j / 24) then 2 else 1 := by
  unfold source_cell
  rfl

theorem scenario_A_call (x1 x2 : ℚ) (leap : Bool) (t : ℚ) (h0 : 0 ≤ hour_index t)
    (h1 : hour_index t < total_hours leap) :
    ((scenario_A_facade x1 x2 leap).init.2.call t).1 =
      .ok (if is_weekend_day ((hour_index t).toNat / 24) then ⟨2, 2, x2, x2⟩
        else ⟨1, 1, x1, x1⟩) := by
  have hr : hour_out_of_range (scenario_A_facade x1 x2 leap).mc_dispatch_params.m_isleapyear
      (hour_index t) = false := by
    cases hb : hour_out_of_range (scenario_A_facade x1 x2 leap).mc_dispatch_params.m_isleapyear
      (hour_index t) with
    | false => rfl
    | true =>
      have := (hour_out_of_range_iff _ _).mp hb
      have e : total_hours (scenario_A_facade x1 x2 leap).mc_dispatch_params.m_isleapyear
          = total_hours leap := rfl
      omega
  rw [call_of_init _ (scenario_A_facade_init_ok x1 x2 leap) t hr]
  simp only [scenario_A_facade, scenario_A_source_cell]
  cases is_weekend_day ((hour_index t).toNat / 24)
  · simp [tou_value, scenario_A]
  · simp [tou_value, scenario_A]

/-! ## The claims -/

/-- C1: for every pair of matrices and both values of the leap flag, `set_hr_tou` makes
exactly 8760 (8784 in a leap year) assignments, to the positions 0, 1, 2, ... in this
order, each position once; the expanded array has that length and no slot of it is left
unassigned. -/
theorem set_hr_tou_assigns_every_slot_once (s : C_block_schedule) (leap : Bool) :
    (expand s leap).writes = List.range (if leap then 8784 else 8760) ∧
    (set_hr_tou s leap).m_hr_tou.length = (if leap then 8784 else 8760) ∧
    ∀ slot, slot ∈ (set_hr_tou s leap).m_hr_tou → slot ≠ none := by
  obtain ⟨hwr, _, hlen, hget⟩ := expand_spec s leap
  have hn : nhrann leap = if leap then 8784 else 8760 := by cases leap <;> rfl
  rw [hn] at hwr hlen
  refine ⟨hwr, hlen, ?_⟩
  intro slot hslot hnone
  subst hnone
  change none ∈ (expand s leap).m_hr_tou at hslot
  obtain ⟨j, hj, hjv⟩ := List.getElem_of_mem hslot
  have hj2 : j < nhrann leap := by
    rw [hn]
    omega
  have h1 := hget j hj2
  have h2 : (expand s leap).m_hr_tou[j]? = some none := by
    rw [List.getElem?_eq_getElem hj]
    exact congrArg some hjv
  rw [h1] at h2
  exact absurd h2 (by simp)

/-- C2: for every pair of matrices, both leap settings and every hour index `i` of the
expanded array, with `d = i / 24`, `h = i % 24` and `m` the Gregorian month containing
day-of-year `d`, the entry at `i` is `weekends(m, h)` when the weekday cursor classifies
day `d` as weekend and `weekdays(m, h)` otherwise. -/
theorem set_hr_tou_entry (s : C_block_schedule) (leap : Bool) (i : Nat)
    (hi : i < (if leap then 8784 else 8760)) :
    (set_hr_tou s leap).m_hr_tou[i]? =
      some (some (if is_weekend_day (i / 24)
        then s.mc_weekends.cell (month_of_day leap (i / 24)) (i % 24)
        else s.mc_weekdays.cell (month_of_day leap (i / 24)) (i % 24))) := by
  have hn : nhrann leap = if leap then 8784 else 8760 := by cases leap <;> rfl
  exact (expand_spec s leap).2.2.2 i (by rw [hn]; exact hi)

/-- Witness for C2: hour 130 lies on day 5, which the cursor classifies as weekend, so
in Scenario A the entry is the weekend cell of month 0 at hour 10, that is 2. -/
theorem set_hr_tou_entry_witness :
    130 < (if true then 8784 else 8760) ∧
    (set_hr_tou (scenario_A 1 1 "Turbine Fraction") true).m_hr_tou[130]? = some (some 2) :=
  ⟨by decide, (set_hr_tou_entry (scenario_A 1 1 "Turbine Fraction") true 130 (by decide)).trans
    (by decide)⟩

/-- C3: after a successful facade `init`, `call(t)` computes the hour index
`i = ceil(t/3600 - 1e-6) - 1`; it throws (the range exception, and nothing else) exactly
when `i < 0` or `i > total_hours - 1`, and otherwise returns the two expanded arrays at
`i` together with value array 0 of each schedule at position `id - 1`. -/
theorem call_after_init (self : C_csp_tou_block_schedules) (hinit : self.init.1 = none)
    (t : ℚ) :
    hour_index t = ⌈t / 3600 - 1 / 1000000⌉ - 1 ∧
    ((∃ e, (self.init.2.call t).1 = .error e) ↔
      (hour_index t < 0 ∨
        hour_index t > total_hours self.init.2.mc_dispatch_params.m_isleapyear - 1)) ∧
    ((hour_index t < 0 ∨
        hour_index t > total_hours self.init.2.mc_dispatch_params.m_isleapyear - 1) →
      (self.init.2.call t).1
        = .error (.thrown ⟨hour_message (hour_index t), "TOU timestep call"⟩)) ∧
    (¬ (hour_index t < 0 ∨
        hour_index t > total_hours self.init.2.mc_dispatch_params.m_isleapyear - 1) →
      ∃ op pr oarr parr f p,
        self.init.2.ms_params.mc_csp_ops.m_hr_tou[(hour_index t).toNat]? = some (some op) ∧
        self.init.2.ms_params.mc_pricing.m_hr_tou[(hour_index t).toNat]? = some (some pr) ∧
        self.init.2.ms_params.mc_csp_ops.mvv_tou_arrays[0]? = some oarr ∧
        self.init.2.ms_params.mc_pricing.mvv_tou_arrays[0]? = some parr ∧
        1 ≤ op ∧ 1 ≤ pr ∧
        oarr[(op - 1).toNat]? = some f ∧ parr[(pr - 1).toNat]? = some p ∧
        (self.init.2.call t).1 = .ok ⟨op, pr, f, p⟩) := by
  have el := (facade_init_none self hinit).2.2.2.2
  rw [el]
  have hok : ¬ (hour_index t < 0 ∨
      hour_index t > total_hours self.mc_dispatch_params.m_isleapyear - 1) →
      ∃ op pr oarr parr f p,
        self.init.2.ms_params.mc_csp_ops.m_hr_tou[(hour_index t).toNat]? = some (some op) ∧
        self.init.2.ms_params.mc_pricing.m_hr_tou[(hour_index t).toNat]? = some (some pr) ∧
        self.init.2.ms_params.mc_csp_ops.mvv_tou_arrays[0]? = some oarr ∧
        self.init.2.ms_params.mc_pricing.mvv_tou_arrays[0]? = some parr ∧
        1 ≤ op ∧ 1 ≤ pr ∧
        oarr[(op - 1).toNat]? = some f ∧ parr[(pr - 1).toNat]? = some p ∧
        (self.init.2.call t).1 = .ok ⟨op, pr, f, p⟩ := by
    intro hr
    obtain ⟨op, pr, oarr, parr, f, p, a1, a2, a3, a4, a5, a6, a7, a8, _, _, _, _, hl⟩ :=
      lookup_at_of_init self hinit (hour_index t) (by omega) (by omega)
    obtain ⟨out, hout, hcall⟩ := call_resolves self hinit t (by omega) (by omega)
    rw [hl] at hout
    cases hout
    exact ⟨op, pr, oarr, parr, f, p, a1, a2, a3, a4, a5, a6, a7, a8, hcall⟩
  have hbad : (hour_index t < 0 ∨
      hour_index t > total_hours self.mc_dispatch_params.m_isleapyear - 1) →
      (self.init.2.call t).1
        = .error (.thrown ⟨hour_message (hour_index t), "TOU timestep call"⟩) := by
    intro hr
    exact call_rejects self.init.2 t (by rw [el]; exact hr)
  refine ⟨rfl, ⟨?_, fun hr => ⟨_, hbad hr⟩⟩, hbad, hok⟩
  rintro ⟨e, he⟩
  by_contra hr
  obtain ⟨op, pr, oarr, parr, f, p, _, _, _, _, _, _, _, _, hcall⟩ := hok hr
  rw [hcall] at he
  exact absurd he (by simp)

/-- Witness for C3: the Scenario A facade initialises, and `call(3600)` on it throws
exactly when its hour index is out of range. -/
theorem call_after_init_witness :
    (scenario_A_facade (1 / 2) (3 / 2) false).init.1 = none ∧
    ((∃ e, ((scenario_A_facade (1 / 2) (3 / 2) false).init.2.call 3600).1 = .error e) ↔
      (hour_index 3600 < 0 ∨ hour_index 3600 >
        total_hours (scenario_A_facade (1 / 2) (3 / 2) false).init.2.mc_dispatch_params.m_isleapyear
          - 1)) :=
  ⟨scenario_A_facade_init_ok _ _ _,
    (call_after_init (scenario_A_facade (1 / 2) (3 / 2) false)
      (scenario_A_facade_init_ok _ _ _) 3600).2.1⟩

/-- C4: hour boundaries of the lookup.  For `0 < eps < 3599`, `call(3600 - eps)` and
`call(3600)` both resolve to hour index 0; for every integer `k` with
`1 <= k <= total_hours`, `call(3600 * k)` resolves to hour index `k - 1`; `call(-1)`
throws the range exception. -/
theorem call_hour_boundaries (self : C_csp_tou_block_schedules) (hinit : self.init.1 = none)
    (eps : ℚ) (k : Int) (h0 : 0 < eps) (h1 : eps < 3599) (hk1 : 1 ≤ k)
    (hk2 : k ≤ total_hours self.mc_dispatch_params.m_isleapyear) :
    hour_index (3600 - eps) = 0 ∧ hour_index 3600 = 0 ∧
    (∃ out, lookup_at self.init.2 0 = some out ∧
      (self.init.2.call (3600 - eps)).1 = .ok out ∧ (self.init.2.call 3600).1 = .ok out) ∧
    hour_index (3600 * (k : ℚ)) = k - 1 ∧
    (∃ out, lookup_at self.init.2 (k - 1) = some out ∧
      (self.init.2.call (3600 * (k : ℚ))).1 = .ok out) ∧
    hour_index (-1) = -1 ∧
    (self.init.2.call (-1)).1 = .error (.thrown ⟨hour_message (-1), "TOU timestep call"⟩) := by
  have e1 : hour_index (3600 - eps) = 0 := by
    rw [hour_index_eq_iff]; push_cast; constructor <;> linarith
  have e2 : hour_index 3600 = 0 := by
    rw [hour_index_eq_iff]; push_cast; constructor <;> norm_num
  have e3 : hour_index (-1) = -1 := by
    rw [hour_index_eq_iff]; push_cast; constructor <;> norm_num
  have e4 := hour_index_of_hour k
  have hpos : (0 : Int) < total_hours self.mc_dispatch_params.m_isleapyear := by omega
  obtain ⟨o1, l1, c1⟩ := call_resolves self hinit (3600 - eps) (by omega) (by omega)
  obtain ⟨o2, l2, c2⟩ := call_resolves self hinit 3600 (by omega) (by omega)
  obtain ⟨o3, l3, c3⟩ := call_resolves self hinit (3600 * (k : ℚ)) (by omega) (by omega)
  rw [e1] at l1
  rw [e2] at l2
  rw [e4] at l3
  have ho : o2 = o1 := by
    rw [l1] at l2; exact (Option.some.inj l2).symm
  subst ho
  refine ⟨e1, e2, ⟨o2, l1, c1, c2⟩, e4, ⟨o3, l3, c3⟩, e3, ?_⟩
  have := call_rejects self.init.2 (-1) (by rw [e3]; exact Or.inl (by decide))
  rw [e3] at this
  exact this

/-- Witness for C4: the Scenario A facade, `eps = 1` and `k = 8760`. -/
theorem call_hour_boundaries_witness :
    (scenario_A_facade (1 / 2) (3 / 2) false).init.1 = none ∧ (0 : ℚ) < 1 ∧ (1 : ℚ) < 3599 ∧
    (1 : Int) ≤ 8760 ∧
    (8760 : Int) ≤ total_hours (scenario_A_facade (1 / 2) (3 / 2) false).mc_dispatch_params.m_isleapyear ∧
    hour_index (3600 - 1) = 0 ∧ hour_index (3600 * ((8760 : Int) : ℚ)) = 8760 - 1 :=
  have h := call_hour_boundaries (scenario_A_facade (1 / 2) (3 / 2) false)
    (scenario_A_facade_init_ok _ _ _) 1 8760 (by norm_num) (by norm_num) (by decide) (by decide)
  ⟨scenario_A_facade_init_ok _ _ _, by norm_num, by norm_num, by decide, by decide,
    h.1, h.2.2.2.1⟩

/-- C5, refuted as stated: in a non-leap year `call(3600 * 8760)` does not throw; on the
Scenario A facade it returns period 1 and the value 1/2 for both schedules. -/
theorem call_end_of_nonleap_year_accepted :
    ((scenario_A_facade (1 / 2) (3 / 2) false).init.2.call (3600 * 8760)).1
      = .ok ⟨1, 1, 1 / 2, 1 / 2⟩ := by
  have hi : hour_index (3600 * 8760) = 8759 := by
    rw [hour_index_eq_iff]; push_cast; constructor <;> norm_num
  rw [scenario_A_call _ _ false _ (by rw [hi]; decide) (by rw [hi]; decide), hi]
  have hw : is_weekend_day ((8759 : Int).toNat / 24) = false := by
    cases hb : is_weekend_day ((8759 : Int).toNat / 24) with
    | false => rfl
    | true =>
      have := (is_weekend_day_iff _).mp hb
      revert this
      decide
  rw [hw]
  rfl

/-- C5, amended: after a successful facade `init`, in a non-leap year `call(3600 * 8760)`
succeeds and resolves to hour index 8759, and `call` throws the range exception for
every time whose hour index exceeds 8759; in a leap year `call` succeeds for every time
whose hour index lies in 0..8783, in particular at `3600 * 8760` and `3600 * 8784`, and
throws the range exception for every time whose hour index exceeds 8783. -/
theorem call_end_of_year (self : C_csp_tou_block_schedules) (hinit : self.init.1 = none) :
    (self.mc_dispatch_params.m_isleapyear = false →
      hour_index (3600 * 8760) = 8759 ∧
      (∃ out, lookup_at self.init.2 8759 = some out ∧
        (self.init.2.call (3600 * 8760)).1 = .ok out) ∧
      ∀ t, 8759 < hour_index t → (self.init.2.call t).1
        = .error (.thrown ⟨hour_message (hour_index t), "TOU timestep call"⟩)) ∧
    (self.mc_dispatch_params.m_isleapyear = true →
      (∀ t, 0 ≤ hour_index t → hour_index t ≤ 8783 →
        ∃ out, lookup_at self.init.2 (hour_index t) = some out ∧
          (self.init.2.call t).1 = .ok out) ∧
      hour_index (3600 * 8760) = 8759 ∧ hour_index (3600 * 8784) = 8783 ∧
      (∃ out, (self.init.2.call (3600 * 8760)).1 = .ok out) ∧
      (∃ out, (self.init.2.call (3600 * 8784)).1 = .ok out) ∧
      ∀ t, 8783 < hour_index t → (self.init.2.call t).1
        = .error (.thrown ⟨hour_message (hour_index t), "TOU timestep call"⟩)) := by
  have el := (facade_init_none self hinit).2.2.2.2
  have i1 : hour_index (3600 * 8760) = 8759 := by
    rw [hour_index_eq_iff]; push_cast; constructor <;> norm_num
  have i2 : hour_index (3600 * 8784) = 8783 := by
    rw [hour_index_eq_iff]; push_cast; constructor <;> norm_num
  constructor
  · intro hleap
    have ht : total_hours self.mc_dispatch_params.m_isleapyear = 8760 := by rw [hleap]; rfl
    refine ⟨i1, ?_, ?_⟩
    · obtain ⟨out, hl, hc⟩ := call_resolves self hinit (3600 * 8760) (by omega) (by omega)
      rw [i1] at hl
      exact ⟨out, hl, hc⟩
    · intro t ht2
      exact call_rejects self.init.2 t (by rw [el]; omega)
  · intro hleap
    have ht : total_hours self.mc_dispatch_params.m_isleapyear = 8784 := by rw [hleap]; rfl
    refine ⟨?_, i1, i2, ?_, ?_, ?_⟩
    · intro t h0 h1
      exact call_resolves self hinit t h0 (by omega)
    · obtain ⟨out, _, hc⟩ := call_resolves self hinit (3600 * 8760) (by omega) (by omega)
      exact ⟨out, hc⟩
    · obtain ⟨out, _, hc⟩ := call_resolves self hinit (3600 * 8784) (by omega) (by omega)
      exact ⟨out, hc⟩
    · intro t ht2
      exact call_rejects self.init.2 t (by rw [el]; omega)

/-- Witness for the amended C5: the non-leap Scenario A facade initialises, and
`call(3600 * 8760)` resolves to hour index 8759 on it. -/
theorem call_end_of_year_witness :
    (scenario_A_facade (1 / 2) (3 / 2) false).init.1 = none ∧
    hour_index (3600 * 8760) = 8759 ∧
    (∃ out, lookup_at (scenario_A_facade (1 / 2) (3 / 2) false).init.2 8759 = some out ∧
      ((scenario_A_facade (1 / 2) (3 / 2) false).init.2.call (3600 * 8760)).1 = .ok out) :=
  have h := (call_end_of_year (scenario_A_facade (1 / 2) (3 / 2) false)
    (scenario_A_facade_init_ok _ _ _)).1 rfl
  ⟨scenario_A_facade_init_ok _ _ _, h.1, h.2.1⟩

/-- C7 fails on the code: with all-ones matrices (largest period id 1, all cells at
least 1) and one value array of length 1, which has an entry for every period of the
schedule, `check_arrays_for_tous` throws the array-length exception. -/
theorem check_arrays_rejects_one_period_schedule (x : ℚ) :
    min_period_id (one_period_schedule x) = 1 ∧ max_period_id (one_period_schedule x) = 1 ∧
    (one_period_schedule x).mvv_tou_arrays = [[x]] ∧
    (check_arrays_for_tous (one_period_schedule x) 1).1 = some (.thrown
      ⟨"TOU schedule contains TOU period = 0, while the Turbine Fraction array contains 1 elements",
        loc_init⟩) := by
  have hmin : 1 ≤ min_period_id (one_period_schedule x) :=
    one_le_min_period_id _ (fun _ _ => by simp [one_period_schedule, const_matrix])
      (fun _ _ => by simp [one_period_schedule, const_matrix])
  have hmin2 : ¬ (1 < min_period_id (one_period_schedule x)) := by
    intro hcon
    have := (period_id_bounds (one_period_schedule x) 1
      ((mem_period_ids _ _).mpr ⟨0, 0, by decide, by decide, Or.inl rfl⟩)).1
    omega
  have hmax : max_period_id (one_period_schedule x) ≤ 1 :=
    max_period_id_le _ _ (fun _ _ => by simp [one_period_schedule, const_matrix])
      (fun _ _ => by simp [one_period_schedule, const_matrix])
  have hmax2 : 1 ≤ max_period_id (one_period_schedule x) :=
    (period_id_bounds (one_period_schedule x) 1
      ((mem_period_ids _ _).mpr ⟨0, 0, by decide, by decide, Or.inl rfl⟩)).2
  refine ⟨by omega, by omega, rfl, ?_⟩
  have hneg : ¬ (scan_schedules (one_period_schedule x)).i_tou_min < 0 := by
    rw [scan_min_neg_iff]; omega
  have hbig : (scan_schedules (one_period_schedule x)).i_tou_max + 1 > 1 := by
    have := scan_max_ge_one (one_period_schedule x)
    omega
  have htemp : (scan_schedules (one_period_schedule x)).i_temp_max = 0 := by
    rw [scan_schedules_i_temp_max]; rfl
  unfold check_arrays_for_tous
  dsimp only
  rw [if_neg hneg]
  have harr : (one_period_schedule x).mvv_tou_arrays[0]? = some [x] := rfl
  have hlab : (one_period_schedule x).mv_labels[0]? = some "Turbine Fraction" := rfl
  simp only [check_sizes, harr, hlab, List.length_singleton, Nat.cast_one, hbig, if_true,
    size_message, htemp]
  decide

/-- C8: `C_block_schedule::init` throws a dimension exception if and only if the weekday
or the weekend matrix is not exactly 12 rows by 24 columns (as with an 11-row weekday
matrix), and whenever `init` fails the expanded array is what it was before the call. -/
theorem init_shape_error_iff (s : C_block_schedule) (n : Nat) (leap : Bool) :
    ((∃ e, (s.init n leap).1 = some (.thrown e) ∧ is_shape_message e.m_error_message) ↔
      ¬ (s.mc_weekdays.n_rows = 12 ∧ s.mc_weekdays.n_cols = 24 ∧
          s.mc_weekends.n_rows = 12 ∧ s.mc_weekends.n_cols = 24)) ∧
    ((s.init n leap).1 ≠ none → (s.init n leap).2.m_hr_tou = s.m_hr_tou) ∧
    (eleven_row_schedule.init 1 false).1 = some (.thrown
      ⟨"TOU schedules require 12 rows and 24 columns. The loaded weekday schedule has 11 rows.",
        loc_init⟩) ∧
    (eleven_row_schedule.init 1 false).2.m_hr_tou = eleven_row_schedule.m_hr_tou := by
  refine ⟨⟨?_, ?_⟩, init_keeps_array_on_failure s n leap, by decide, ?_⟩
  · rintro ⟨e, he, hmsg⟩ hs
    rcases init_thrown_message s n leap e he hs with h | h
    · exact shape_message_ne_min _ hmsg h
    · exact shape_message_not_size _ hmsg h
  · intro hs
    obtain ⟨msg, hmsg, h⟩ := init_of_bad_shape s n leap hs
    exact ⟨⟨msg, loc_init⟩, by rw [h], hmsg⟩
  · exact init_keeps_array_on_failure _ _ _ (by decide)

theorem init_entry_fits_int (s : C_block_schedule) (n : Nat) (leap : Bool)
    (hs : (s.init n leap).1 = none) (hcells : cells_fit_int s) (j : Nat) (e : Int)
    (h : (s.init n leap).2.m_hr_tou[j]? = some (some e)) : 1 ≤ e ∧ e ≤ INT_MAX := by
  obtain ⟨_, hlen, hget⟩ := init_entries s n leap hs
  have hj : j < nhrann leap := by
    rw [← hlen]
    by_contra hcon
    rw [List.getElem?_eq_none (by omega)] at h
    exact absurd h (by simp)
  obtain ⟨hg, h1, _⟩ := hget j hj
  rw [hg] at h
  have he : source_cell s leap j = e := by
    simpa using h
  rw [← he]
  refine ⟨h1, ?_⟩
  obtain ⟨a, b, ha, hb, hv⟩ := (mem_period_ids s _).mp (source_cell_mem s leap j hj)
  rcases hv with hv | hv
  · rw [hv]; exact ((hcells a ha b hb).1).2
  · rw [hv]; exact ((hcells a ha b hb).2).2

/-- C9: for matrices whose cells are values of the type `int` to which the source converts
them (`cells_fit_int`: cells in `-INT_MAX .. INT_MAX`, where `(int) cell - 1` is defined):
after `C_block_schedule::init` succeeds with `n` value arrays, every slot of the expanded
array holds an id `e` with `1 <= e <= length(value array k)` for every `k < n`, and `e` is
itself a value of `int`; hence after a successful facade `init` every entry that `call`
converts to an index is in `1 .. INT_MAX` and no `call` reads outside the bounds of an
array. -/
theorem init_entries_index_value_arrays (s : C_block_schedule) (n : Nat) (leap : Bool)
    (hs : (s.init n leap).1 = none) (hcells : cells_fit_int s)
    (self : C_csp_tou_block_schedules) (hself : self.init.1 = none)
    (hops : cells_fit_int self.ms_params.mc_csp_ops)
    (hpricing : cells_fit_int self.ms_params.mc_pricing) :
    (∀ j, j < (s.init n leap).2.m_hr_tou.length →
      ∃ e, (s.init n leap).2.m_hr_tou[j]? = some (some e) ∧ 1 ≤ e ∧ e ≤ INT_MAX ∧
        ∀ k, k < n → ∃ arr, (s.init n leap).2.mvv_tou_arrays[k]? = some arr ∧
          e ≤ (arr.length : Int) ∧ (e - 1).toNat < arr.length) ∧
    (∀ (j : Nat) (e : Int), self.init.2.ms_params.mc_csp_ops.m_hr_tou[j]? = some (some e) →
      1 ≤ e ∧ e ≤ INT_MAX) ∧
    (∀ (j : Nat) (e : Int), self.init.2.ms_params.mc_pricing.m_hr_tou[j]? = some (some e) →
      1 ≤ e ∧ e ≤ INT_MAX) ∧
    (∀ t, (self.init.2.call t).1 ≠ .error .out_of_bounds) := by
  obtain ⟨harr, hlen, hget⟩ := init_entries s n leap hs
  obtain ⟨ho, hp, eo, ep, el⟩ := facade_init_none self hself
  refine ⟨?_, ?_, ?_, ?_⟩
  · intro j hj
    rw [hlen] at hj
    obtain ⟨hg, h1, ha⟩ := hget j hj
    refine ⟨_, hg, h1, (init_entry_fits_int s n leap hs hcells j _ hg).2, fun k hk => ?_⟩
    obtain ⟨arr, hk1, hk2⟩ := ha k hk
    exact ⟨arr, by rw [harr]; exact hk1, hk2, by omega⟩
  · intro j e h
    rw [eo] at h
    exact init_entry_fits_int _ 1 _ ho hops j e h
  · intro j e h
    rw [ep] at h
    exact init_entry_fits_int _ 1 _ hp hpricing j e h
  · intro t hcon
    by_cases hr : hour_index t < 0 ∨
        hour_index t > total_hours self.mc_dispatch_params.m_isleapyear - 1
    · rw [call_rejects self.init.2 t (by rw [el]; exact hr)] at hcon
      exact absurd hcon (by simp)
    · obtain ⟨out, _, hc⟩ := call_resolves self hself t (by omega) (by omega)
      rw [hc] at hcon
      exact absurd hcon (by simp)

theorem scenario_A_cells_fit_int (x1 x2 : ℚ) (label : String) :
    cells_fit_int (scenario_A x1 x2 label) := by
  intro i _ j _
  simp [scenario_A, const_matrix, INT_MAX]

/-- Witness for C9: the Scenario A schedule and the Scenario A facade have cells 1 and 2,
they initialise, and no lookup on that facade reads outside an array. -/
theorem init_entries_index_value_arrays_witness :
    ((scenario_A (1 / 2) (3 / 2) "Turbine Fraction").init 1 false).1 = none ∧
    cells_fit_int (scenario_A (1 / 2) (3 / 2) "Turbine Fraction") ∧
    (scenario_A_facade (1 / 2) (3 / 2) false).init.1 = none ∧
    cells_fit_int (scenario_A_facade (1 / 2) (3 / 2) false).ms_params.mc_csp_ops ∧
    cells_fit_int (scenario_A_facade (1 / 2) (3 / 2) false).ms_params.mc_pricing ∧
    (∀ t, ((scenario_A_facade (1 / 2) (3 / 2) false).init.2.call t).1
      ≠ .error .out_of_bounds) :=
  ⟨scenario_A_init_ok _ _ _ _, scenario_A_cells_fit_int _ _ _, scenario_A_facade_init_ok _ _ _,
    scenario_A_cells_fit_int _ _ _, scenario_A_cells_fit_int _ _ _,
    (init_entries_index_value_arrays (scenario_A (1 / 2) (3 / 2) "Turbine Fraction") 1 false
      (scenario_A_init_ok _ _ _ _) (scenario_A_cells_fit_int _ _ _)
      (scenario_A_facade (1 / 2) (3 / 2) false)
      (scenario_A_facade_init_ok _ _ _) (scenario_A_cells_fit_int _ _ _)
      (scenario_A_cells_fit_int _ _ _)).2.2.2⟩

/-- C10 (Scenario A): weekday matrix all 1s, weekend matrix all 2s, `leap = false`, value
array `[x1, x2]`.  `init` succeeds, and every in-range lookup returns period 1 with value
`x1` when the hour lies on a day the expander classifies as a weekday, and period 2 with
value `x2` when it lies on a day classified as weekend. -/
theorem scenario_A_lookup (x1 x2 : ℚ) (t : ℚ) (h0 : 0 ≤ hour_index t)
    (h1 : hour_index t ≤ 8759) :
    (scenario_A_facade x1 x2 false).init.1 = none ∧
    (is_weekend_day ((hour_index t).toNat / 24) = false →
      ((scenario_A_facade x1 x2 false).init.2.call t).1 = .ok ⟨1, 1, x1, x1⟩) ∧
    (is_weekend_day ((hour_index t).toNat / 24) = true →
      ((scenario_A_facade x1 x2 false).init.2.call t).1 = .ok ⟨2, 2, x2, x2⟩) := by
  have hc := scenario_A_call x1 x2 false t h0
    (by have : total_hours false = 8760 := rfl
        omega)
  refine ⟨scenario_A_facade_init_ok _ _ _, ?_, ?_⟩
  · intro hw; rw [hc, hw]; rfl
  · intro hw; rw [hc, hw]; rfl

/-- Witness for C10: `t = 3600 * 130` resolves to hour 129, on day 5, a weekend day of
the cursor: the lookup returns period 2 and the second value. -/
theorem scenario_A_lookup_witness :
    0 ≤ hour_index (3600 * 130) ∧ hour_index (3600 * 130) ≤ 8759 ∧
    ((scenario_A_facade (1 / 2) (3 / 2) false).init.2.call (3600 * 130)).1
      = .ok ⟨2, 2, 3 / 2, 3 / 2⟩ :=
  have hi : hour_index (3600 * 130) = 129 := by
    rw [hour_index_eq_iff]; push_cast; constructor <;> norm_num
  ⟨by rw [hi]; decide, by rw [hi]; decide,
    (scenario_A_lookup (1 / 2) (3 / 2) (3600 * 130) (by rw [hi]; decide)
      (by rw [hi]; decide)).2.2 (by rw [hi]; decide)⟩

/-! ## Uniform schedules and failures of the facade `init` -/

theorem init_ok_of_cells (s : C_block_schedule) (n : Nat) (leap : Bool) (x : Int)
    (hshape : shape_ok s)
    (hwd : ∀ a b, 1 ≤ s.mc_weekdays.cell a b ∧ s.mc_weekdays.cell a b ≤ x)
    (hwe : ∀ a b, 1 ≤ s.mc_weekends.cell a b ∧ s.mc_weekends.cell a b ≤ x)
    (harr : ∀ k, k < n → ∃ arr, s.mvv_tou_arrays[k]? = some arr ∧
      2 ≤ (arr.length : Int) ∧ x ≤ (arr.length : Int)) :
    (s.init n leap).1 = none := by
  rw [init_none_iff, check_arrays_none_iff]
  refine ⟨hshape, one_le_min_period_id s (fun a b => (hwd a b).1) (fun a b => (hwe a b).1), ?_⟩
  intro k hk
  obtain ⟨arr, h1, h2, h3⟩ := harr k hk
  have hmax := max_period_id_le s x (fun a b => (hwd a b).2) (fun a b => (hwe a b).2)
  exact ⟨arr, h1, h2, by omega⟩

theorem facade_init_cases (self : C_csp_tou_block_schedules) :
    (∀ e, (self.ms_params.mc_csp_ops.init 1 self.mc_dispatch_params.m_isleapyear).1
        = some (.thrown e) →
      self.init = (some (.thrown ⟨"The CSP ops " ++ e.m_error_message, loc_init⟩),
        { self with
          ms_params := { self.ms_params with mc_csp_ops :=
            (self.ms_params.mc_csp_ops.init 1 self.mc_dispatch_params.m_isleapyear).2 },
          m_error_msg := "The CSP ops " ++ e.m_error_message })) ∧
    ((self.ms_params.mc_csp_ops.init 1 self.mc_dispatch_params.m_isleapyear).1
        = some .out_of_bounds →
      self.init = (some .out_of_bounds,
        { self with ms_params := { self.ms_params with mc_csp_ops :=
            (self.ms_params.mc_csp_ops.init 1 self.mc_dispatch_params.m_isleapyear).2 } })) ∧
    ((self.ms_params.mc_csp_ops.init 1 self.mc_dispatch_params.m_isleapyear).1 = none →
      (∀ e, (self.ms_params.mc_pricing.init 1 self.mc_dispatch_params.m_isleapyear).1
          = some (.thrown e) →
        self.init = (some (.thrown ⟨"The CSP pricing " ++ e.m_error_message, loc_init⟩),
          { self with
            ms_params :=
              ⟨(self.ms_params.mc_csp_ops.init 1 self.mc_dispatch_params.m_isleapyear).2,
               (self.ms_params.mc_pricing.init 1 self.mc_dispatch_params.m_isleapyear).2⟩,
            m_error_msg := "The CSP pricing " ++ e.m_error_message })) ∧
      ((self.ms_params.mc_pricing.init 1 self.mc_dispatch_params.m_isleapyear).1
          = some .out_of_bounds →
        self.init = (some .out_of_bounds,
          { self with ms_params :=
              ⟨(self.ms_params.mc_csp_ops.init 1 self.mc_dispatch_params.m_isleapyear).2,
               (self.ms_params.mc_pricing.init 1 self.mc_dispatch_params.m_isleapyear).2⟩ })) ∧
      ((self.ms_params.mc_pricing.init 1 self.mc_dispatch_params.m_isleapyear).1 = none →
        self.init = (none,
          { self with ms_params :=
              ⟨(self.ms_params.mc_csp_ops.init 1 self.mc_dispatch_params.m_isleapyear).2,
               (self.ms_params.mc_pricing.init 1 self.mc_dispatch_params.m_isleapyear).2⟩ }))) := by
  unfold C_csp_tou_block_schedules.init
  simp only [C_block_schedule_csp_ops.N_END, C_block_schedule_pricing.N_END]
  rcases h1 : self.ms_params.mc_csp_ops.init 1 self.mc_dispatch_params.m_isleapyear
    with ⟨_ | e1 | _, ops⟩
  · refine ⟨fun e he => absurd he (by simp), fun he => absurd he (by simp), fun _ => ?_⟩
    rcases h2 : self.ms_params.mc_pricing.init 1 self.mc_dispatch_params.m_isleapyear
      with ⟨_ | e2 | _, pricing⟩
    · exact ⟨fun e he => absurd he (by simp), fun he => absurd he (by simp), fun _ => rfl⟩
    · refine ⟨fun e he => ?_, fun he => absurd he (by simp), fun he => absurd he (by simp)⟩
      simp only [Option.some.injEq, fault.thrown.injEq] at he
      subst he
      rfl
    · exact ⟨fun e he => absurd he (by simp), fun _ => rfl, fun he => absurd he (by simp)⟩
  · refine ⟨fun e he => ?_, fun he => absurd he (by simp), fun he => absurd he (by simp)⟩
    simp only [Option.some.injEq, fault.thrown.injEq] at he
    subst he
    rfl
  · exact ⟨fun e he => absurd he (by simp), fun _ => rfl, fun he => absurd he (by simp)⟩

theorem uniform_setup (wd1 we1 wd2 we2 : matrix_t) (hr1 hr2 : List (Option Int))
    (m1 m2 m3 : String) (leap : Bool) :
    (C_csp_tou_block_schedules.construct (base_schedule wd1 we1 hr1 m1)
        (base_schedule wd2 we2 hr2 m2) leap m3).setup_block_uniform_tod
      = (none,
          ⟨⟨⟨const_matrix 1, const_matrix 1, [[1, 1]], ["Turbine Fraction"], hr1, m1⟩,
            ⟨const_matrix 1, const_matrix 1, [[1, 1]], ["Price Multiplier"], hr2, m2⟩⟩,
           ⟨leap⟩, m3⟩) := by
  rfl

theorem uniform_schedule_init_ok (label : String) (hr : List (Option Int)) (msg : String)
    (leap : Bool) :
    ((⟨const_matrix 1, const_matrix 1, [[1, 1]], [label], hr, msg⟩ : C_block_schedule).init 1
      leap).1 = none := by
  apply init_ok_of_cells _ 1 leap 1 ⟨rfl, rfl, rfl, rfl⟩
  · intro a b; simp [const_matrix]
  · intro a b; simp [const_matrix]
  · intro k hk
    have hk0 : k = 0 := by omega
    subst hk0
    exact ⟨[1, 1], rfl, by simp, by simp⟩

theorem set_hr_tou_length (s : C_block_schedule) (leap : Bool) :
    (set_hr_tou s leap).m_hr_tou.length = nhrann leap :=
  (expand_spec s leap).2.2.1

theorem const_one_source_cell (arrays : List (List ℚ)) (labels : List String)
    (hr : List (Option Int)) (msg : String) (leap : Bool) (j : Nat) :
    source_cell ⟨const_matrix 1, const_matrix 1, arrays, labels, hr, msg⟩ leap j = 1 := by
  unfold source_cell
  dsimp only
  cases is_weekend_day (j / 24) <;> rfl

/-- C11: starting from a freshly constructed `C_csp_tou_block_schedules` (empty value
arrays), `setup_block_uniform_tod` followed by `init` succeeds for both leap settings, and
then for every in-range elapsed time `call` returns operating id 1, pricing id 1,
operating multiplier 1 and price multiplier 1. -/
theorem uniform_tod_lookup (wd1 we1 wd2 we2 : matrix_t) (hr1 hr2 : List (Option Int))
    (m1 m2 m3 : String) (leap : Bool) (t : ℚ) (h0 : 0 ≤ hour_index t)
    (h1 : hour_index t < total_hours leap) :
    (C_csp_tou_block_schedules.construct (base_schedule wd1 we1 hr1 m1)
        (base_schedule wd2 we2 hr2 m2) leap m3).setup_block_uniform_tod.1 = none ∧
    (C_csp_tou_block_schedules.construct (base_schedule wd1 we1 hr1 m1)
        (base_schedule wd2 we2 hr2 m2) leap m3).setup_block_uniform_tod.2.init.1 = none ∧
    ((C_csp_tou_block_schedules.construct (base_schedule wd1 we1 hr1 m1)
        (base_schedule wd2 we2 hr2 m2) leap m3).setup_block_uniform_tod.2.init.2.call t).1
      = .ok ⟨1, 1, 1, 1⟩ := by
  rw [uniform_setup]
  dsimp only
  have hinit : (⟨⟨⟨const_matrix 1, const_matrix 1, [[1, 1]], ["Turbine Fraction"], hr1, m1⟩,
      ⟨const_matrix 1, const_matrix 1, [[1, 1]], ["Price Multiplier"], hr2, m2⟩⟩,
      ⟨leap⟩, m3⟩ : C_csp_tou_block_schedules).init.1 = none := by
    have h := ((facade_init_cases (⟨⟨⟨const_matrix 1, const_matrix 1, [[1, 1]],
        ["Turbine Fraction"], hr1, m1⟩,
      ⟨const_matrix 1, const_matrix 1, [[1, 1]], ["Price Multiplier"], hr2, m2⟩⟩,
      ⟨leap⟩, m3⟩ : C_csp_tou_block_schedules)).2.2
        (uniform_schedule_init_ok "Turbine Fraction" hr1 m1 leap)).2.2
        (uniform_schedule_init_ok "Price Multiplier" hr2 m2 leap)
    exact congrArg Prod.fst h
  refine ⟨rfl, hinit, ?_⟩
  have hr : hour_out_of_range leap (hour_index t) = false := by
    cases hb : hour_out_of_range leap (hour_index t) with
    | false => rfl
    | true =>
      have := (hour_out_of_range_iff _ _).mp hb
      omega
  rw [call_of_init _ hinit t hr]
  simp only [const_one_source_cell]
  simp [tou_value]

/-- Witness for C11: a leap year, bases with all-zero matrices, and `t = 3600`. -/
theorem uniform_tod_lookup_witness :
    0 ≤ hour_index 3600 ∧ hour_index 3600 < total_hours true ∧
    ((C_csp_tou_block_schedules.construct (base_schedule (const_matrix 0) (const_matrix 0) [] "")
        (base_schedule (const_matrix 0) (const_matrix 0) [] "") true
        "").setup_block_uniform_tod.2.init.2.call 3600).1 = .ok ⟨1, 1, 1, 1⟩ :=
  have hi : hour_index 3600 = 0 := by
    rw [hour_index_eq_iff]; push_cast; constructor <;> norm_num
  ⟨by rw [hi], by rw [hi]; decide,
    (uniform_tod_lookup (const_matrix 0) (const_matrix 0) (const_matrix 0) (const_matrix 0)
      [] [] "" "" "" true 3600 (by rw [hi]) (by rw [hi]; decide)).2.2⟩

/-- C12: `C_csp_tou_block_schedules::init` fails if and only if the `init` of the
operating-mode schedule or of the pricing schedule fails.  When the operating-mode
schedule throws, the message raised is its message prefixed with 'The CSP ops '; when the
operating-mode schedule passes and the pricing schedule throws, it is the pricing message
prefixed with 'The CSP pricing '. -/
theorem facade_init_fails_iff (self : C_csp_tou_block_schedules) :
    (self.init.1 ≠ none ↔
      ((self.ms_params.mc_csp_ops.init C_block_schedule_csp_ops.N_END
          self.mc_dispatch_params.m_isleapyear).1 ≠ none ∨
       (self.ms_params.mc_pricing.init C_block_schedule_pricing.N_END
          self.mc_dispatch_params.m_isleapyear).1 ≠ none)) ∧
    (∀ e, (self.ms_params.mc_csp_ops.init C_block_schedule_csp_ops.N_END
          self.mc_dispatch_params.m_isleapyear).1 = some (.thrown e) →
      self.init.1 = some (.thrown ⟨"The CSP ops " ++ e.m_error_message,
        "TOU block schedule initialization"⟩)) ∧
    (∀ e, (self.ms_params.mc_csp_ops.init C_block_schedule_csp_ops.N_END
          self.mc_dispatch_params.m_isleapyear).1 = none →
      (self.ms_params.mc_pricing.init C_block_schedule_pricing.N_END
          self.mc_dispatch_params.m_isleapyear).1 = some (.thrown e) →
      self.init.1 = some (.thrown ⟨"The CSP pricing " ++ e.m_error_message,
        "TOU block schedule initialization"⟩)) := by
  simp only [C_block_schedule_csp_ops.N_END, C_block_schedule_pricing.N_END]
  obtain ⟨c1, c2, c3⟩ := facade_init_cases self
  refine ⟨?_, fun e he => by rw [c1 e he]; rfl, fun e ho hp => by rw [(c3 ho).1 e hp]; rfl⟩
  rcases ho : (self.ms_params.mc_csp_ops.init 1 self.mc_dispatch_params.m_isleapyear).1
    with _ | e1 | _
  · rcases hp : (self.ms_params.mc_pricing.init 1 self.mc_dispatch_params.m_isleapyear).1
      with _ | e2 | _
    · rw [(c3 ho).2.2 hp]; simp
    · rw [(c3 ho).1 e2 hp]; simp
    · rw [(c3 ho).2.1 hp]; simp
  · rw [c1 e1 ho]; simp
  · rw [c2 ho]; simp

/-- C13, refuted as stated: on a facade whose operating schedule is valid and whose
pricing schedule has an 11-row weekday matrix, `init` fails with the pricing message, and
the expanded array of the operating schedule, empty before the call, has been built. -/
theorem facade_init_failure_leaves_ops_expanded :
    half_valid_facade.init.1 = some (.thrown
      ⟨"The CSP pricing TOU schedules require 12 rows and 24 columns. The loaded weekday schedule has 11 rows.",
        "TOU block schedule initialization"⟩) ∧
    half_valid_facade.ms_params.mc_csp_ops.m_hr_tou = [] ∧
    half_valid_facade.init.2.ms_params.mc_csp_ops.m_hr_tou.length = 8760 ∧
    half_valid_facade.init.2.ms_params.mc_csp_ops.m_hr_tou
      ≠ half_valid_facade.ms_params.mc_csp_ops.m_hr_tou := by
  have ho : (half_valid_facade.ms_params.mc_csp_ops.init 1
      half_valid_facade.mc_dispatch_params.m_isleapyear).1 = none :=
    scenario_A_init_ok _ _ _ _
  have hp : (half_valid_facade.ms_params.mc_pricing.init 1
      half_valid_facade.mc_dispatch_params.m_isleapyear).1 = some (.thrown
      ⟨"TOU schedules require 12 rows and 24 columns. The loaded weekday schedule has 11 rows.",
        loc_init⟩) := by decide
  have h := ((facade_init_cases half_valid_facade).2.2 ho).1 _ hp
  have hlen : half_valid_facade.init.2.ms_params.mc_csp_ops.m_hr_tou.length = 8760 := by
    rw [h]
    dsimp only
    rw [init_state_of_none _ _ _ ho, set_hr_tou_length]
    rfl
  have hfst : half_valid_facade.init.1 = some (.thrown
      ⟨"The CSP pricing " ++
        "TOU schedules require 12 rows and 24 columns. The loaded weekday schedule has 11 rows.",
        loc_init⟩) := congrArg Prod.fst h
  have hmsg : "The CSP pricing " ++
        "TOU schedules require 12 rows and 24 columns. The loaded weekday schedule has 11 rows."
      = "The CSP pricing TOU schedules require 12 rows and 24 columns. The loaded weekday schedule has 11 rows." := by
    decide
  rw [hmsg] at hfst
  refine ⟨hfst, rfl, hlen, ?_⟩
  intro hcon
  rw [hcon] at hlen
  exact absurd hlen (by decide)

/-- C13, amended: whenever `C_csp_tou_block_schedules::init` fails, the expanded array of
the pricing schedule is what it was before the call; the expanded array of the
operating-mode schedule is what it was before the call when the operating-mode schedule
is the one that failed, and is its new full-year expansion when the operating-mode
schedule passed and the pricing schedule failed. -/
theorem facade_init_failure_frame (self : C_csp_tou_block_schedules)
    (hfail : self.init.1 ≠ none) :
    self.init.2.ms_params.mc_pricing.m_hr_tou = self.ms_params.mc_pricing.m_hr_tou ∧
    ((self.ms_params.mc_csp_ops.init C_block_schedule_csp_ops.N_END
        self.mc_dispatch_params.m_isleapyear).1 ≠ none →
      self.init.2.ms_params.mc_csp_ops.m_hr_tou = self.ms_params.mc_csp_ops.m_hr_tou) ∧
    ((self.ms_params.mc_csp_ops.init C_block_schedule_csp_ops.N_END
        self.mc_dispatch_params.m_isleapyear).1 = none →
      self.init.2.ms_params.mc_csp_ops.m_hr_tou
        = (set_hr_tou self.ms_params.mc_csp_ops self.mc_dispatch_params.m_isleapyear).m_hr_tou ∧
      self.init.2.ms_params.mc_csp_ops.m_hr_tou.length
        = nhrann self.mc_dispatch_params.m_isleapyear) := by
  simp only [C_block_schedule_csp_ops.N_END]
  obtain ⟨c1, c2, c3⟩ := facade_init_cases self
  rcases ho : (self.ms_params.mc_csp_ops.init 1 self.mc_dispatch_params.m_isleapyear).1
    with _ | e1 | _
  · have hexp : (self.ms_params.mc_csp_ops.init 1 self.mc_dispatch_params.m_isleapyear).2.m_hr_tou
        = (set_hr_tou self.ms_params.mc_csp_ops self.mc_dispatch_params.m_isleapyear).m_hr_tou := by
      rw [init_state_of_none _ _ _ ho]
    have hlen := (expand_spec self.ms_params.mc_csp_ops
      self.mc_dispatch_params.m_isleapyear).2.2.1
    rcases hp : (self.ms_params.mc_pricing.init 1 self.mc_dispatch_params.m_isleapyear).1
      with _ | e2 | _
    · rw [(c3 ho).2.2 hp] at hfail
      exact absurd rfl hfail
    · have hk := init_keeps_array_on_failure self.ms_params.mc_pricing 1
        self.mc_dispatch_params.m_isleapyear (by rw [hp]; simp)
      rw [(c3 ho).1 e2 hp]
      exact ⟨hk, fun h => absurd rfl h, fun _ => ⟨hexp, by rw [hexp]; exact hlen⟩⟩
    · have hk := init_keeps_array_on_failure self.ms_params.mc_pricing 1
        self.mc_dispatch_params.m_isleapyear (by rw [hp]; simp)
      rw [(c3 ho).2.1 hp]
      exact ⟨hk, fun h => absurd rfl h, fun _ => ⟨hexp, by rw [hexp]; exact hlen⟩⟩
  · have hk := init_keeps_array_on_failure self.ms_params.mc_csp_ops 1
      self.mc_dispatch_params.m_isleapyear (by rw [ho]; simp)
    rw [c1 e1 ho]
    exact ⟨rfl, fun _ => hk, fun h => absurd h (by simp)⟩
  · have hk := init_keeps_array_on_failure self.ms_params.mc_csp_ops 1
      self.mc_dispatch_params.m_isleapyear (by rw [ho]; simp)
    rw [c2 ho]
    exact ⟨rfl, fun _ => hk, fun h => absurd h (by simp)⟩

/-- Witness for the amended C13: the facade with a valid operating schedule and an 11-row
pricing schedule fails, and its pricing array is left as it was. -/
theorem facade_init_failure_frame_witness :
    half_valid_facade.init.1 ≠ none ∧
    half_valid_facade.init.2.ms_params.mc_pricing.m_hr_tou
      = half_valid_facade.ms_params.mc_pricing.m_hr_tou :=
  have hp : (half_valid_facade.ms_params.mc_pricing.init 1
      half_valid_facade.mc_dispatch_params.m_isleapyear).1 = some (.thrown
      ⟨"TOU schedules require 12 rows and 24 columns. The loaded weekday schedule has 11 rows.",
        loc_init⟩) := by decide
  have hf : half_valid_facade.init.1 ≠ none := by
    rw [((facade_init_cases half_valid_facade).2.2 (scenario_A_init_ok _ _ _ _)).1 _ hp]
    simp
  ⟨hf, (facade_init_failure_frame half_valid_facade hf).1⟩

/-! ## The heat sink: initialisation -/

theorem check_params_cases {Φ R : Type} (self : C_pc_heat_sink Φ R) :
    ((∃ tc th q k, self.ms_params.m_T_htf_cold_des = some tc ∧
        self.ms_params.m_T_htf_hot_des = some th ∧ self.ms_params.m_q_dot_des = some q ∧
        self.ms_params.m_htf_pump_coef = some k) ∧
      self.check_double_params_are_set = none) ∨
    ((self.ms_params.m_T_htf_cold_des = none ∨ self.ms_params.m_T_htf_hot_des = none ∨
        self.ms_params.m_q_dot_des = none ∨ self.ms_params.m_htf_pump_coef = none) ∧
      self.check_double_params_are_set = some (.thrown ⟨not_set_message, "m_W_dot_des"⟩)) := by
  unfold C_pc_heat_sink.check_double_params_are_set check_double
  cases h1 : self.ms_params.m_T_htf_cold_des with
  | none => exact Or.inr ⟨Or.inl rfl, by simp⟩
  | some tc =>
    cases h2 : self.ms_params.m_T_htf_hot_des with
    | none => exact Or.inr ⟨Or.inr (Or.inl rfl), by simp⟩
    | some th =>
      cases h3 : self.ms_params.m_q_dot_des with
      | none => exact Or.inr ⟨Or.inr (Or.inr (Or.inl rfl)), by simp⟩
      | some q =>
        cases h4 : self.ms_params.m_htf_pump_coef with
        | none => exact Or.inr ⟨Or.inr (Or.inr (Or.inr rfl)), by simp⟩
        | some k => exact Or.inl ⟨⟨tc, th, q, k, rfl, rfl, rfl, rfl⟩, by simp⟩

theorem set_fluid_frame {Φ R : Type} (env : collaborators Φ R) (self : C_pc_heat_sink Φ R) :
    (self.set_fluid env).2.ms_params = self.ms_params ∧
    (self.set_fluid env).2.m_max_frac = self.m_max_frac ∧
    (self.set_fluid env).2.mc_reported_outputs = self.mc_reported_outputs ∧
    (self.set_fluid env).1 ≠ some .out_of_bounds ∧
    ∀ e, (self.set_fluid env).1 = some (.thrown e) →
      e.m_code_location = "Rankine Indirect Power Cycle Initialization" ∨
      e.m_code_location = "Heat Sink Initialization" := by
  unfold C_pc_heat_sink.set_fluid
  by_cases h1 : self.ms_params.m_pc_fl ≠ env.User_defined ∧
      self.ms_params.m_pc_fl < env.End_Library_Fluids
  · rw [if_pos h1]
    rcases env.SetFluid self.mc_pc_htfProps self.ms_params.m_pc_fl with ⟨_ | _, props⟩
    · refine ⟨rfl, rfl, rfl, by simp, ?_⟩
      intro e he
      simp only [Option.some.injEq, fault.thrown.injEq] at he
      exact Or.inl (he ▸ rfl)
    · exact ⟨rfl, rfl, rfl, by simp, fun e he => absurd he (by simp)⟩
  · rw [if_neg h1]
    by_cases h2 : self.ms_params.m_pc_fl = env.User_defined
    · rw [if_pos h2]
      dsimp only
      by_cases h3 : (self.ms_params.m_pc_fl_props.n_rows : Int) > 2 ∧
          (self.ms_params.m_pc_fl_props.n_cols : Int) = 7
      · rw [if_pos h3]
        rcases env.SetUserDefinedFluid self.mc_pc_htfProps self.ms_params.m_pc_fl_props
          with ⟨_ | _, props⟩
        · refine ⟨rfl, rfl, rfl, by simp, ?_⟩
          intro e he
          simp only [Option.some.injEq, fault.thrown.injEq] at he
          exact Or.inr (he ▸ rfl)
        · exact ⟨rfl, rfl, rfl, by simp, fun e he => absurd he (by simp)⟩
      · rw [if_neg h3]
        refine ⟨rfl, rfl, rfl, by simp, ?_⟩
        intro e he
        simp only [Option.some.injEq, fault.thrown.injEq] at he
        exact Or.inr (he ▸ rfl)
    · rw [if_neg h2]
      refine ⟨rfl, rfl, rfl, by simp, ?_⟩
      intro e he
      simp only [Option.some.injEq, fault.thrown.injEq] at he
      exact Or.inr (he ▸ rfl)

theorem heat_sink_init_of_unset {Φ R : Type} (env : collaborators Φ R)
    (self : C_pc_heat_sink Φ R) (sp : S_solved_params)
    (h : self.ms_params.m_T_htf_cold_des = none ∨ self.ms_params.m_T_htf_hot_des = none ∨
        self.ms_params.m_q_dot_des = none ∨ self.ms_params.m_htf_pump_coef = none) :
    self.init env sp = (some (.thrown ⟨not_set_message, "m_W_dot_des"⟩), self, sp) := by
  rcases check_params_cases self with ⟨⟨tc, th, q, k, h1, h2, h3, h4⟩, _⟩ | ⟨_, hc⟩
  · rcases h with h | h | h | h
    · rw [h1] at h; exact absurd h (by simp)
    · rw [h2] at h; exact absurd h (by simp)
    · rw [h3] at h; exact absurd h (by simp)
    · rw [h4] at h; exact absurd h (by simp)
  · simp [C_pc_heat_sink.init, hc]

theorem heat_sink_init_of_set {Φ R : Type} (env : collaborators Φ R)
    (self : C_pc_heat_sink Φ R) (sp : S_solved_params) (tc th q k : ℚ)
    (h1 : self.ms_params.m_T_htf_cold_des = some tc)
    (h2 : self.ms_params.m_T_htf_hot_des = some th)
    (h3 : self.ms_params.m_q_dot_des = some q)
    (h4 : self.ms_params.m_htf_pump_coef = some k) :
    self.init env sp =
      match self.set_fluid env with
      | (some f, self1) => (some f, self1, sp)
      | (none, self1) => (none, (self1.solve_design env).1, (self1.solve_design env).2) := by
  have hc : self.check_double_params_are_set = none := by
    simp [C_pc_heat_sink.check_double_params_are_set, check_double, h1, h2, h3, h4]
  simp only [C_pc_heat_sink.init, hc]

theorem heat_sink_init_ok {Φ R : Type} (env : collaborators Φ R)
    (self : C_pc_heat_sink Φ R) (sp : S_solved_params) (h : (self.init env sp).1 = none) :
    (∃ tc th q k, self.ms_params.m_T_htf_cold_des = some tc ∧
        self.ms_params.m_T_htf_hot_des = some th ∧ self.ms_params.m_q_dot_des = some q ∧
        self.ms_params.m_htf_pump_coef = some k) ∧
    (self.set_fluid env).1 = none ∧
    self.init env sp = (none, ((self.set_fluid env).2.solve_design env).1,
      ((self.set_fluid env).2.solve_design env).2) := by
  rcases check_params_cases self with ⟨⟨tc, th, q, k, h1, h2, h3, h4⟩, _⟩ | ⟨hu, _⟩
  · rw [heat_sink_init_of_set env self sp tc th q k h1 h2 h3 h4] at h ⊢
    rcases hf : self.set_fluid env with ⟨_ | f, self1⟩
    · exact ⟨⟨tc, th, q, k, h1, h2, h3, h4⟩, rfl, rfl⟩
    · rw [hf] at h; exact absurd h (by simp)
  · rw [heat_sink_init_of_unset env self sp hu] at h
    exact absurd h (by simp)

/-- C14: `C_pc_heat_sink::init` throws the 'parameter was not set' exception if and only
if at least one of the four design fields (cold design temperature, hot design
temperature, design duty, pump coefficient) is unset; the test comes before the fluid
selection, so in that case the object, its fluid model included, is left untouched
whatever the fluid selector is. -/
theorem heat_sink_init_not_set_iff {Φ R : Type} (env : collaborators Φ R)
    (self : C_pc_heat_sink Φ R) (sp : S_solved_params) :
    ((self.init env sp).1 = some (.thrown
        ⟨"The following parameter was not set prior to calling the C_pc_heat_sink init() method:",
          "m_W_dot_des"⟩) ↔
      (self.ms_params.m_T_htf_cold_des = none ∨ self.ms_params.m_T_htf_hot_des = none ∨
        self.ms_params.m_q_dot_des = none ∨ self.ms_params.m_htf_pump_coef = none)) ∧
    ((self.ms_params.m_T_htf_cold_des = none ∨ self.ms_params.m_T_htf_hot_des = none ∨
        self.ms_params.m_q_dot_des = none ∨ self.ms_params.m_htf_pump_coef = none) →
      (self.init env sp).2 = (self, sp)) := by
  refine ⟨⟨?_, fun hu => by rw [heat_sink_init_of_unset env self sp hu]; rfl⟩,
    fun hu => by rw [heat_sink_init_of_unset env self sp hu]⟩
  intro hthrow
  rcases check_params_cases self with ⟨⟨tc, th, q, k, h1, h2, h3, h4⟩, _⟩ | ⟨hu, _⟩
  · exfalso
    rw [heat_sink_init_of_set env self sp tc th q k h1 h2 h3 h4] at hthrow
    obtain ⟨_, _, _, _, hloc⟩ := set_fluid_frame env self
    rcases hf : self.set_fluid env with ⟨_ | f, self1⟩
    · rw [hf] at hthrow; exact absurd hthrow (by simp)
    · rw [hf] at hthrow hloc
      rcases hloc ⟨not_set_message, "m_W_dot_des"⟩ hthrow with h | h
      · exact absurd h (by decide)
      · exact absurd h (by decide)
  · exact hu

/-- C15 fails on the code: four heat sinks, each with exactly one of the four design
fields unset, all fail `init` with the same exception, whose name is 'm_W_dot_des' in
every case and is none of the four fields. -/
theorem heat_sink_not_set_names_coincide :
    ((configured ⟨some 300, none, some 10, some (1 / 2), 1, blank_table 0 0⟩).init example_env
      blank_solved_params).1 = some (.thrown
        ⟨"The following parameter was not set prior to calling the C_pc_heat_sink init() method:",
          "m_W_dot_des"⟩) ∧
    ((configured ⟨none, some 250, some 10, some (1 / 2), 1, blank_table 0 0⟩).init example_env
      blank_solved_params).1 = some (.thrown
        ⟨"The following parameter was not set prior to calling the C_pc_heat_sink init() method:",
          "m_W_dot_des"⟩) ∧
    ((configured ⟨some 300, some 250, none, some (1 / 2), 1, blank_table 0 0⟩).init example_env
      blank_solved_params).1 = some (.thrown
        ⟨"The following parameter was not set prior to calling the C_pc_heat_sink init() method:",
          "m_W_dot_des"⟩) ∧
    ((configured ⟨some 300, some 250, some 10, none, 1, blank_table 0 0⟩).init example_env
      blank_solved_params).1 = some (.thrown
        ⟨"The following parameter was not set prior to calling the C_pc_heat_sink init() method:",
          "m_W_dot_des"⟩) := by
  refine ⟨?_, ?_, ?_, ?_⟩
  · rw [heat_sink_init_of_unset _ _ _ (Or.inl rfl)]; rfl
  · rw [heat_sink_init_of_unset _ _ _ (Or.inr (Or.inl rfl))]; rfl
  · rw [heat_sink_init_of_unset _ _ _ (Or.inr (Or.inr (Or.inl rfl)))]; rfl
  · rw [heat_sink_init_of_unset _ _ _ (Or.inr (Or.inr (Or.inr rfl)))]; rfl

theorem heat_sink_set_fluid_user {Φ R : Type} (env : collaborators Φ R)
    (self : C_pc_heat_sink Φ R) (hsel : self.ms_params.m_pc_fl = env.User_defined) :
    self.set_fluid env =
      if (self.ms_params.m_pc_fl_props.n_rows : Int) > 2 ∧
          (self.ms_params.m_pc_fl_props.n_cols : Int) = 7 then
        match env.SetUserDefinedFluid self.mc_pc_htfProps self.ms_params.m_pc_fl_props with
        | (false, props) =>
          (some (.thrown ⟨env.util_format (env.UserFluidErrMessage props)
              self.ms_params.m_pc_fl_props.n_rows self.ms_params.m_pc_fl_props.n_cols,
              "Heat Sink Initialization"⟩),
            { self with mc_pc_htfProps := props })
        | (true, props) => (none, { self with mc_pc_htfProps := props })
      else
        (some (.thrown ⟨table_shape_message self.ms_params.m_pc_fl_props.n_rows
            self.ms_params.m_pc_fl_props.n_cols, "Heat Sink Initialization"⟩), self) := by
  have hno : ¬ (self.ms_params.m_pc_fl ≠ env.User_defined ∧
      self.ms_params.m_pc_fl < env.End_Library_Fluids) := fun h => h.1 hsel
  unfold C_pc_heat_sink.set_fluid
  rw [if_neg hno, if_pos hsel]

theorem heat_sink_set_fluid_unknown {Φ R : Type} (env : collaborators Φ R)
    (self : C_pc_heat_sink Φ R) (hsel : self.ms_params.m_pc_fl ≠ env.User_defined)
    (hlib : ¬ self.ms_params.m_pc_fl < env.End_Library_Fluids) :
    self.set_fluid env =
      (some (.thrown ⟨"Power cycle HTF code is not recognized", "Heat Sink Initialization"⟩),
        self) := by
  have hno : ¬ (self.ms_params.m_pc_fl ≠ env.User_defined ∧
      self.ms_params.m_pc_fl < env.End_Library_Fluids) := fun h => hlib h.2
  unfold C_pc_heat_sink.set_fluid
  rw [if_neg hno, if_neg hsel]

theorem table_shape_message_is (r c : Int) : is_table_shape_message (table_shape_message r c) :=
  ⟨r, c, rfl⟩

theorem example_message_not_table_shape : ¬ is_table_shape_message "user fluid error" := by
  rintro ⟨r, c, h⟩
  have h2 := congrArg (fun t : String => t.data.take 1) h
  simp [table_shape_message, String.data_append] at h2

/-- C16: with all four design fields set and the fluid selector equal to `User_defined`,
`C_pc_heat_sink::init` throws the table-shape exception ('must contain at least 3 rows and
exactly 7 columns') if and only if the user table has fewer than 3 rows or a column count
other than 7, provided the message of the fluid model for a rejected table is not itself
a table-shape message; a selector that is neither `User_defined` nor below
`End_Library_Fluids` always makes `init` throw 'HTF code is not recognized'. -/
theorem heat_sink_init_table_shape {Φ R : Type} (env : collaborators Φ R)
    (self : C_pc_heat_sink Φ R) (sp : S_solved_params) (tc th q k : ℚ)
    (h1 : self.ms_params.m_T_htf_cold_des = some tc)
    (h2 : self.ms_params.m_T_htf_hot_des = some th)
    (h3 : self.ms_params.m_q_dot_des = some q)
    (h4 : self.ms_params.m_htf_pump_coef = some k)
    (hmsg : ¬ is_table_shape_message (env.util_format
      (env.UserFluidErrMessage
        (env.SetUserDefinedFluid self.mc_pc_htfProps self.ms_params.m_pc_fl_props).2)
      self.ms_params.m_pc_fl_props.n_rows self.ms_params.m_pc_fl_props.n_cols)) :
    (self.ms_params.m_pc_fl = env.User_defined →
      ((∃ e, (self.init env sp).1 = some (.thrown e) ∧
          is_table_shape_message e.m_error_message) ↔
        (self.ms_params.m_pc_fl_props.n_rows < 3 ∨ self.ms_params.m_pc_fl_props.n_cols ≠ 7)) ∧
      ((self.ms_params.m_pc_fl_props.n_rows < 3 ∨ self.ms_params.m_pc_fl_props.n_cols ≠ 7) →
        (self.init env sp).1 = some (.thrown
          ⟨"The user defined field HTF table must contain at least 3 rows and exactly 7 columns. The current table contains "
            ++ fmt_d self.ms_params.m_pc_fl_props.n_rows ++ " row(s) and "
            ++ fmt_d self.ms_params.m_pc_fl_props.n_cols ++ " column(s)",
            "Heat Sink Initialization"⟩))) ∧
    (self.ms_params.m_pc_fl ≠ env.User_defined →
      ¬ self.ms_params.m_pc_fl < env.End_Library_Fluids →
      (self.init env sp).1 = some (.thrown
        ⟨"Power cycle HTF code is not recognized", "Heat Sink Initialization"⟩)) := by
  have hinit := heat_sink_init_of_set env self sp tc th q k h1 h2 h3 h4
  constructor
  · intro hsel
    have hsf := heat_sink_set_fluid_user env self hsel
    have hbad : (self.ms_params.m_pc_fl_props.n_rows < 3 ∨
        self.ms_params.m_pc_fl_props.n_cols ≠ 7) →
        (self.init env sp).1 = some (.thrown
          ⟨table_shape_message self.ms_params.m_pc_fl_props.n_rows
            self.ms_params.m_pc_fl_props.n_cols, "Heat Sink Initialization"⟩) := by
      intro hshape
      have hno : ¬ ((self.ms_params.m_pc_fl_props.n_rows : Int) > 2 ∧
          (self.ms_params.m_pc_fl_props.n_cols : Int) = 7) := by omega
      rw [hinit, hsf, if_neg hno]
    refine ⟨⟨?_, fun hshape => ⟨_, hbad hshape, table_shape_message_is _ _⟩⟩, hbad⟩
    rintro ⟨e, he, hem⟩
    by_contra hshape
    have hyes : (self.ms_params.m_pc_fl_props.n_rows : Int) > 2 ∧
        (self.ms_params.m_pc_fl_props.n_cols : Int) = 7 := by omega
    rw [hinit, hsf, if_pos hyes] at he
    rcases hu : env.SetUserDefinedFluid self.mc_pc_htfProps self.ms_params.m_pc_fl_props
      with ⟨_ | _, props⟩
    · rw [hu] at he hmsg
      simp only [Option.some.injEq, fault.thrown.injEq] at he
      rw [← he] at hem
      exact hmsg hem
    · rw [hu] at he
      exact absurd he (by simp)
  · intro hsel hlib
    rw [hinit, heat_sink_set_fluid_unknown env self hsel hlib]

/-- Witness for C16: Scenario B with the user-defined selector and a table of 2 rows and
7 columns. -/
theorem heat_sink_init_table_shape_witness :
    ¬ is_table_shape_message (example_env.util_format
      (example_env.UserFluidErrMessage
        (example_env.SetUserDefinedFluid (scenario_B 50 (blank_table 2 7)).mc_pc_htfProps
          (scenario_B 50 (blank_table 2 7)).ms_params.m_pc_fl_props).2)
      (scenario_B 50 (blank_table 2 7)).ms_params.m_pc_fl_props.n_rows
      (scenario_B 50 (blank_table 2 7)).ms_params.m_pc_fl_props.n_cols) ∧
    ((scenario_B 50 (blank_table 2 7)).init example_env blank_solved_params).1 = some (.thrown
      ⟨"The user defined field HTF table must contain at least 3 rows and exactly 7 columns. The current table contains 2 row(s) and 7 column(s)",
        "Heat Sink Initialization"⟩) :=
  ⟨example_message_not_table_shape,
    (((heat_sink_init_table_shape example_env (scenario_B 50 (blank_table 2 7))
      blank_solved_params 250 300 10 (1 / 2) rfl rfl rfl rfl
      example_message_not_table_shape).1 rfl).2 (Or.inl (by decide))).trans (by decide)⟩

/-! ## The heat sink: design point and `call` -/

theorem div_double_of_ne (x y : ℚ) (hy : y ≠ 0) : div_double x y = some (x / y) := by
  unfold div_double
  rw [if_neg hy]

theorem div_double_zero (x : ℚ) : div_double x 0 = none := by
  unfold div_double
  rw [if_pos rfl]

theorem solve_design_of_set {Φ R : Type} (env : collaborators Φ R)
    (self : C_pc_heat_sink Φ R) (tc th q : ℚ)
    (h1 : self.ms_params.m_T_htf_cold_des = some tc)
    (h2 : self.ms_params.m_T_htf_hot_des = some th)
    (h3 : self.ms_params.m_q_dot_des = some q) :
    (self.solve_design env).1 =
      { self with m_m_dot_htf_des := (div_double (q * 1000)
          (env.Cp_ave self.mc_pc_htfProps (tc + 273.15) (th + 273.15) 5 * (th - tc))) } ∧
    (self.solve_design env).2 =
      { m_W_dot_des := some 0
        m_eta_des := some 0
        m_q_dot_des := some q
        m_q_startup := some 0
        m_max_frac := self.m_max_frac
        m_cutoff_frac := some 0
        m_sb_frac := some 0
        m_T_htf_hot_ref := some th
        m_m_dot_design := Option.map (fun m => m * 3600)
          (div_double (q * 1000)
            (env.Cp_ave self.mc_pc_htfProps (tc + 273.15) (th + 273.15) 5
              * (th - tc)))
        m_m_dot_min := Option.map (fun m => m * 3600 * 0)
          (div_double (q * 1000)
            (env.Cp_ave self.mc_pc_htfProps (tc + 273.15) (th + 273.15) 5
              * (th - tc)))
        m_m_dot_max := Option.bind
          (div_double (q * 1000)
            (env.Cp_ave self.mc_pc_htfProps (tc + 273.15) (th + 273.15) 5
              * (th - tc)))
          (fun m => self.m_max_frac.map (fun f => m * 3600 * f)) } := by
  unfold C_pc_heat_sink.solve_design
  simp only [h1, h2, h3, Option.pure_def, Option.bind_eq_bind, Option.some_bind]
  refine ⟨trivial, ?_⟩
  generalize (div_double (q * 1000)
    (env.Cp_ave self.mc_pc_htfProps (tc + 273.15) (th + 273.15) 5 * (th - tc))) = D
  cases D <;> cases self.m_max_frac <;> rfl

theorem heat_sink_init_design {Φ R : Type} (env : collaborators Φ R)
    (self : C_pc_heat_sink Φ R) (sp : S_solved_params) (tc th q : ℚ)
    (h1 : self.ms_params.m_T_htf_cold_des = some tc)
    (h2 : self.ms_params.m_T_htf_hot_des = some th)
    (h3 : self.ms_params.m_q_dot_des = some q)
    (hinit : (self.init env sp).1 = none) :
    (self.init env sp).2.1.ms_params = self.ms_params ∧
    (self.init env sp).2.1.m_max_frac = self.m_max_frac ∧
    (self.init env sp).2.1.m_m_dot_htf_des = div_double (q * 1000)
      (env.Cp_ave (self.init env sp).2.1.mc_pc_htfProps (tc + 273.15) (th + 273.15) 5
        * (th - tc)) ∧
    (self.init env sp).2.2 =
      { m_W_dot_des := some 0
        m_eta_des := some 0
        m_q_dot_des := some q
        m_q_startup := some 0
        m_max_frac := self.m_max_frac
        m_cutoff_frac := some 0
        m_sb_frac := some 0
        m_T_htf_hot_ref := some th
        m_m_dot_design := Option.map (fun m => m * 3600)
          (div_double (q * 1000)
            (env.Cp_ave (self.init env sp).2.1.mc_pc_htfProps (tc + 273.15) (th + 273.15) 5
              * (th - tc)))
        m_m_dot_min := Option.map (fun m => m * 3600 * 0)
          (div_double (q * 1000)
            (env.Cp_ave (self.init env sp).2.1.mc_pc_htfProps (tc + 273.15) (th + 273.15) 5
              * (th - tc)))
        m_m_dot_max := Option.bind
          (div_double (q * 1000)
            (env.Cp_ave (self.init env sp).2.1.mc_pc_htfProps (tc + 273.15) (th + 273.15) 5
              * (th - tc)))
          (fun m => self.m_max_frac.map (fun f => m * 3600 * f)) } := by
  obtain ⟨_, hsf, heq⟩ := heat_sink_init_ok env self sp hinit
  obtain ⟨fp, fm, _, _, _⟩ := set_fluid_frame env self
  obtain ⟨d1, d2⟩ := solve_design_of_set env (self.set_fluid env).2 tc th q
    (by rw [fp]; exact h1) (by rw [fp]; exact h2) (by rw [fp]; exact h3)
  rw [heq]
  dsimp only
  rw [d1, d2]
  dsimp only
  rw [fp, fm]
  exact ⟨rfl, rfl, rfl, rfl⟩

theorem heat_sink_init_result {Φ R : Type} (env : collaborators Φ R)
    (self : C_pc_heat_sink Φ R) (sp : S_solved_params) (tc th q : ℚ)
    (h1 : self.ms_params.m_T_htf_cold_des = some tc)
    (h2 : self.ms_params.m_T_htf_hot_des = some th)
    (h3 : self.ms_params.m_q_dot_des = some q)
    (hinit : (self.init env sp).1 = none)
    (hdiv : env.Cp_ave (self.init env sp).2.1.mc_pc_htfProps (tc + 273.15) (th + 273.15) 5
      * (th - tc) ≠ 0) :
    (self.init env sp).2.1.ms_params = self.ms_params ∧
    (self.init env sp).2.1.m_max_frac = self.m_max_frac ∧
    (self.init env sp).2.1.m_m_dot_htf_des = some (q * 1000 /
      (env.Cp_ave (self.init env sp).2.1.mc_pc_htfProps (tc + 273.15) (th + 273.15) 5
        * (th - tc))) ∧
    (self.init env sp).2.2 =
      { m_W_dot_des := some 0
        m_eta_des := some 0
        m_q_dot_des := some q
        m_q_startup := some 0
        m_max_frac := self.m_max_frac
        m_cutoff_frac := some 0
        m_sb_frac := some 0
        m_T_htf_hot_ref := some th
        m_m_dot_design := some (q * 1000 /
          (env.Cp_ave (self.init env sp).2.1.mc_pc_htfProps (tc + 273.15) (th + 273.15) 5
            * (th - tc)) * 3600)
        m_m_dot_min := some (q * 1000 /
          (env.Cp_ave (self.init env sp).2.1.mc_pc_htfProps (tc + 273.15) (th + 273.15) 5
            * (th - tc)) * 3600 * 0)
        m_m_dot_max := self.m_max_frac.map (fun f => q * 1000 /
          (env.Cp_ave (self.init env sp).2.1.mc_pc_htfProps (tc + 273.15) (th + 273.15) 5
            * (th - tc)) * 3600 * f) } := by
  obtain ⟨hp, hmf, hm, hsp⟩ := heat_sink_init_design env self sp tc th q h1 h2 h3 hinit
  rw [div_double_of_ne _ _ hdiv] at hm hsp
  exact ⟨hp, hmf, hm, hsp⟩

theorem scenario_B_init_ok :
    ((scenario_B 1 (blank_table 0 0)).init example_env blank_solved_params).1 = none := by
  rw [heat_sink_init_of_set example_env _ _ 250 300 10 (1 / 2) rfl rfl rfl rfl]
  rfl

theorem equal_temperatures_init_ok (k : ℚ) :
    ((equal_temperatures k).init example_env blank_solved_params).1 = none := by
  rw [heat_sink_init_of_set example_env _ _ 250 250 10 k rfl rfl rfl rfl]
  rfl

/-- C17: after a successful `C_pc_heat_sink::init`, the design mass flow is the quotient
`design_duty * 1000 / (cp_avg(T_cold + 273.15, T_hot + 273.15) * (T_hot - T_cold))`, with
`cp_avg` the average specific heat of the fluid model selected by `init` (the quotient of
doubles: the rational quotient when the divisor is not zero, and no finite number when it
is zero); for hot 300, cold 250 and duty 10 it is `10000 / (cp_avg * 50)`; the published
`m_m_dot_design` is 3600 times the design mass flow. -/
theorem heat_sink_design_mass_flow {Φ R : Type} (env : collaborators Φ R)
    (self : C_pc_heat_sink Φ R) (sp : S_solved_params) (tc th q : ℚ)
    (h1 : self.ms_params.m_T_htf_cold_des = some tc)
    (h2 : self.ms_params.m_T_htf_hot_des = some th)
    (h3 : self.ms_params.m_q_dot_des = some q)
    (hinit : (self.init env sp).1 = none) :
    (self.init env sp).2.1.m_m_dot_htf_des = div_double (q * 1000)
      (env.Cp_ave (self.init env sp).2.1.mc_pc_htfProps (tc + 273.15) (th + 273.15) 5
        * (th - tc)) ∧
    (self.init env sp).2.2.m_m_dot_design
      = Option.map (fun m => 3600 * m) (self.init env sp).2.1.m_m_dot_htf_des ∧
    (env.Cp_ave (self.init env sp).2.1.mc_pc_htfProps (tc + 273.15) (th + 273.15) 5
        * (th - tc) ≠ 0 →
      (self.init env sp).2.1.m_m_dot_htf_des = some (q * 1000 /
        (env.Cp_ave (self.init env sp).2.1.mc_pc_htfProps (tc + 273.15) (th + 273.15) 5
          * (th - tc))) ∧
      (self.init env sp).2.2.m_m_dot_design = some (3600 * (q * 1000 /
        (env.Cp_ave (self.init env sp).2.1.mc_pc_htfProps (tc + 273.15) (th + 273.15) 5
          * (th - tc))))) ∧
    (th = 300 → tc = 250 → q = 10 →
      (self.init env sp).2.1.m_m_dot_htf_des = div_double 10000
        (env.Cp_ave (self.init env sp).2.1.mc_pc_htfProps (250 + 273.15) (300 + 273.15) 5
          * 50)) := by
  obtain ⟨_, _, hm, hsp⟩ := heat_sink_init_design env self sp tc th q h1 h2 h3 hinit
  have hd : (self.init env sp).2.2.m_m_dot_design
      = Option.map (fun m => 3600 * m) (self.init env sp).2.1.m_m_dot_htf_des := by
    rw [hsp, hm]
    dsimp only
    congr 1
    funext m
    exact mul_comm _ _
  refine ⟨hm, hd, ?_, ?_⟩
  · intro hdiv
    rw [hd, hm, div_double_of_ne _ _ hdiv]
    exact ⟨rfl, rfl⟩
  · intro e1 e2 e3
    rw [hm, e1, e2, e3]
    norm_num

/-- Witness for C17: Scenario B with a library fluid and `cp_avg = 3/2`: the design mass
flow is 10000 / (3/2 * 50) kg/s. -/
theorem heat_sink_design_mass_flow_witness :
    ((scenario_B 1 (blank_table 0 0)).init example_env blank_solved_params).1 = none ∧
    ((scenario_B 1 (blank_table 0 0)).init example_env blank_solved_params).2.1.m_m_dot_htf_des
      = some (10000 / (3 / 2 * 50)) :=
  ⟨scenario_B_init_ok,
    ((heat_sink_design_mass_flow example_env (scenario_B 1 (blank_table 0 0))
      blank_solved_params 250 300 10 rfl rfl rfl scenario_B_init_ok).2.2.2
      rfl rfl rfl).trans (div_double_of_ne _ _ (by norm_num [example_env]))⟩

theorem heat_sink_call_eq {Φ R : Type} (env : collaborators Φ R) (self : C_pc_heat_sink Φ R)
    (T m tc k : ℚ) (h1 : self.ms_params.m_T_htf_cold_des = some tc)
    (h4 : self.ms_params.m_htf_pump_coef = some k) :
    (self.call env T m).1 = none ∧
    (self.call env T m).2.1 =
      { m_P_cycle := some 0
        m_T_htf_cold := some tc
        m_m_dot_htf := some (m / 3600 * 3600)
        m_W_cool_par := some 0
        m_time_required_su := some 0
        m_q_dot_htf := some (m / 3600 *
          env.Cp_ave self.mc_pc_htfProps (tc + 273.15) (T + 273.15) 5 * (T - tc) / 1000)
        m_W_dot_htf_pump := some (k * (m / 3600) / 1000)
        m_was_method_successful := true } := by
  unfold C_pc_heat_sink.call
  simp only [h1, h4, Option.pure_def, Option.bind_eq_bind, Option.some_bind]
  refine ⟨?_, ?_⟩ <;> first | rfl | trivial

/-- C18: the design-point round trip.  With `T_hot ≠ T_cold` and a non-zero `cp_avg`,
after a successful `init` the `call` with inlet temperature `T_hot` and the published
`m_m_dot_design` as mass flow returns the configured design duty as delivered duty and the
cold design temperature as outlet temperature. -/
theorem heat_sink_design_round_trip {Φ R : Type} (env : collaborators Φ R)
    (self : C_pc_heat_sink Φ R) (sp : S_solved_params) (tc th q k : ℚ)
    (h1 : self.ms_params.m_T_htf_cold_des = some tc)
    (h2 : self.ms_params.m_T_htf_hot_des = some th)
    (h3 : self.ms_params.m_q_dot_des = some q)
    (h4 : self.ms_params.m_htf_pump_coef = some k)
    (hinit : (self.init env sp).1 = none)
    (hT : th ≠ tc)
    (hcp : env.Cp_ave (self.init env sp).2.1.mc_pc_htfProps (tc + 273.15) (th + 273.15) 5
      ≠ 0) :
    ∃ md, (self.init env sp).2.2.m_m_dot_design = some md ∧
      ((self.init env sp).2.1.call env th md).2.1.m_q_dot_htf = some q ∧
      ((self.init env sp).2.1.call env th md).2.1.m_T_htf_cold = some tc := by
  obtain ⟨hp, _, _, hsp⟩ := heat_sink_init_result env self sp tc th q h1 h2 h3 hinit
    (mul_ne_zero hcp (sub_ne_zero.mpr hT))
  refine ⟨_, by rw [hsp], ?_⟩
  obtain ⟨_, hcall⟩ := heat_sink_call_eq env (self.init env sp).2.1 th
    (q * 1000 / (env.Cp_ave (self.init env sp).2.1.mc_pc_htfProps (tc + 273.15)
      (th + 273.15) 5 * (th - tc)) * 3600) tc k
    (by rw [hp]; exact h1) (by rw [hp]; exact h4)
  rw [hcall]
  dsimp only
  refine ⟨?_, rfl⟩
  congr 1
  have hd : th - tc ≠ 0 := sub_ne_zero.mpr hT
  field_simp
  ring

/-- Witness for C18: Scenario B with `cp_avg = 3/2`: the round trip returns 10 MWt and
250 C. -/
theorem heat_sink_design_round_trip_witness :
    ((scenario_B 1 (blank_table 0 0)).init example_env blank_solved_params).1 = none ∧
    (300 : ℚ) ≠ 250 ∧
    ∃ md, ((scenario_B 1 (blank_table 0 0)).init example_env
        blank_solved_params).2.2.m_m_dot_design = some md ∧
      (((scenario_B 1 (blank_table 0 0)).init example_env blank_solved_params).2.1.call
        example_env 300 md).2.1.m_q_dot_htf = some 10 ∧
      (((scenario_B 1 (blank_table 0 0)).init example_env blank_solved_params).2.1.call
        example_env 300 md).2.1.m_T_htf_cold = some 250 :=
  ⟨scenario_B_init_ok, by norm_num,
    heat_sink_design_round_trip example_env (scenario_B 1 (blank_table 0 0))
      blank_solved_params 250 300 10 (1 / 2) rfl rfl rfl rfl scenario_B_init_ok
      (by norm_num) (by simp [example_env])⟩

/-- C19: for every inlet temperature and every mass flow, `C_pc_heat_sink::call` does not
fail, sets the success flag, returns the cold design temperature as outlet temperature
and the input mass flow unchanged, returns the duty
`(m_dot/3600) * cp_avg(T_cold + 273.15, T_in + 273.15) * (T_in - T_cold) / 1000` and the
pumping power `pump_coef * (m_dot/3600) / 1000`, which is linear in the mass flow. -/
theorem heat_sink_call_outputs {Φ R : Type} (env : collaborators Φ R)
    (self : C_pc_heat_sink Φ R) (T m tc k : ℚ)
    (h1 : self.ms_params.m_T_htf_cold_des = some tc)
    (h4 : self.ms_params.m_htf_pump_coef = some k) :
    (self.call env T m).1 = none ∧
    (self.call env T m).2.1.m_was_method_successful = true ∧
    (self.call env T m).2.1.m_T_htf_cold = some tc ∧
    (self.call env T m).2.1.m_m_dot_htf = some m ∧
    (self.call env T m).2.1.m_q_dot_htf = some (m / 3600 *
      env.Cp_ave self.mc_pc_htfProps (tc + 273.15) (T + 273.15) 5 * (T - tc) / 1000) ∧
    (self.call env T m).2.1.m_W_dot_htf_pump = some (k * (m / 3600) / 1000) ∧
    (∀ a m2 : ℚ, (self.call env T (a * m + m2)).2.1.m_W_dot_htf_pump
      = some (a * (k * (m / 3600) / 1000) + k * (m2 / 3600) / 1000)) := by
  obtain ⟨hf, hout⟩ := heat_sink_call_eq env self T m tc k h1 h4
  rw [hout]
  refine ⟨hf, rfl, rfl, ?_, rfl, rfl, ?_⟩
  · dsimp only
    congr 1
    ring
  · intro a m2
    rw [(heat_sink_call_eq env self T (a * m + m2) tc k h1 h4).2]
    dsimp only
    congr 1
    ring

/-- Witness for C19: Scenario B after construction, an inlet at 200 C, colder than the
cold design temperature, and a negative mass flow. -/
theorem heat_sink_call_outputs_witness :
    ((scenario_B 1 (blank_table 0 0)).call example_env 200 (-7200)).1 = none ∧
    ((scenario_B 1 (blank_table 0 0)).call example_env 200 (-7200)).2.1.m_T_htf_cold
      = some 250 ∧
    ((scenario_B 1 (blank_table 0 0)).call example_env 200 (-7200)).2.1.m_m_dot_htf
      = some (-7200) :=
  have h := heat_sink_call_outputs example_env (scenario_B 1 (blank_table 0 0)) 200 (-7200)
    250 (1 / 2) rfl rfl
  ⟨h.1, h.2.2.1, h.2.2.2.1⟩

/-- C20, refuted as stated: with hot and cold design temperatures both 250 C, duty 10 and
pump coefficient 1/2, `init` succeeds, and the published `m_m_dot_min` is not 0: the
quotient of line 83 has the divisor `cp_avg * 0`, so that the design mass flow is not a
finite number and neither is its product by the cutoff fraction 0. -/
theorem heat_sink_min_flow_not_zero_at_equal_temperatures :
    ((equal_temperatures (1 / 2)).init example_env blank_solved_params).1 = none ∧
    ((equal_temperatures (1 / 2)).init example_env blank_solved_params).2.2.m_m_dot_design
      = none ∧
    ((equal_temperatures (1 / 2)).init example_env blank_solved_params).2.2.m_m_dot_min
      = none ∧
    ((equal_temperatures (1 / 2)).init example_env blank_solved_params).2.2.m_m_dot_min
      ≠ some 0 := by
  obtain ⟨_, _, _, hsp⟩ := heat_sink_init_design example_env (equal_temperatures (1 / 2))
    blank_solved_params 250 250 10 rfl rfl rfl (equal_temperatures_init_ok _)
  have hz : (250 : ℚ) - 250 = 0 := by norm_num
  rw [hsp, hz, mul_zero, div_double_zero]
  exact ⟨equal_temperatures_init_ok _, rfl, rfl, by simp⟩

/-- C20, amended: after a successful `init` of a constructed heat sink, the published
solved parameters are: `m_q_dot_des` the configured design duty, `m_W_dot_des`, `m_eta_des`,
`m_q_startup`, `m_cutoff_frac` and `m_sb_frac` zero, `m_max_frac` 100, `m_T_htf_hot_ref`
the hot design temperature; when `T_hot ≠ T_cold` and `cp_avg` is not zero, `m_m_dot_min`
is zero and `m_m_dot_max` is 100 times `m_m_dot_design`, and otherwise none of the three
is a finite number; the startup-time and startup-energy accessors return 0 and
`get_max_thermal_power` returns 100 times the design duty. -/
theorem heat_sink_solved_params {Φ R : Type} (env : collaborators Φ R)
    (base : C_pc_heat_sink Φ R) (p : C_pc_heat_sink.S_params) (sp : S_solved_params)
    (tc th q : ℚ)
    (h1 : p.m_T_htf_cold_des = some tc) (h2 : p.m_T_htf_hot_des = some th)
    (h3 : p.m_q_dot_des = some q)
    (hinit : (((C_pc_heat_sink.construct env base).with_params p).init env sp).1 = none) :
    (((C_pc_heat_sink.construct env base).with_params p).init env sp).2.2.m_q_dot_des
      = some q ∧
    (((C_pc_heat_sink.construct env base).with_params p).init env sp).2.2.m_W_dot_des
      = some 0 ∧
    (((C_pc_heat_sink.construct env base).with_params p).init env sp).2.2.m_eta_des
      = some 0 ∧
    (((C_pc_heat_sink.construct env base).with_params p).init env sp).2.2.m_q_startup
      = some 0 ∧
    (((C_pc_heat_sink.construct env base).with_params p).init env sp).2.2.m_cutoff_frac
      = some 0 ∧
    (((C_pc_heat_sink.construct env base).with_params p).init env sp).2.2.m_sb_frac
      = some 0 ∧
    (((C_pc_heat_sink.construct env base).with_params p).init env sp).2.2.m_max_frac
      = some 100 ∧
    (((C_pc_heat_sink.construct env base).with_params p).init env sp).2.2.m_T_htf_hot_ref
      = some th ∧
    (th ≠ tc →
      env.Cp_ave (((C_pc_heat_sink.construct env base).with_params p).init env sp).2.1.mc_pc_htfProps
        (tc + 273.15) (th + 273.15) 5 ≠ 0 →
      (((C_pc_heat_sink.construct env base).with_params p).init env sp).2.2.m_m_dot_min
        = some 0 ∧
      ∃ md, (((C_pc_heat_sink.construct env base).with_params p).init env sp).2.2.m_m_dot_design
          = some md ∧
        (((C_pc_heat_sink.construct env base).with_params p).init env sp).2.2.m_m_dot_max
          = some (100 * md)) ∧
    ((th = tc ∨ env.Cp_ave (((C_pc_heat_sink.construct env base).with_params p).init env sp).2.1.mc_pc_htfProps
        (tc + 273.15) (th + 273.15) 5 = 0) →
      (((C_pc_heat_sink.construct env base).with_params p).init env sp).2.2.m_m_dot_design
        = none ∧
      (((C_pc_heat_sink.construct env base).with_params p).init env sp).2.2.m_m_dot_min
        = none ∧
      (((C_pc_heat_sink.construct env base).with_params p).init env sp).2.2.m_m_dot_max
        = none) ∧
    (((C_pc_heat_sink.construct env base).with_params p).init env
      sp).2.1.get_cold_startup_time = some 0 ∧
    (((C_pc_heat_sink.construct env base).with_params p).init env
      sp).2.1.get_warm_startup_time = some 0 ∧
    (((C_pc_heat_sink.construct env base).with_params p).init env
      sp).2.1.get_hot_startup_time = some 0 ∧
    (((C_pc_heat_sink.construct env base).with_params p).init env
      sp).2.1.get_cold_startup_energy = some 0 ∧
    (((C_pc_heat_sink.construct env base).with_params p).init env
      sp).2.1.get_warm_startup_energy = some 0 ∧
    (((C_pc_heat_sink.construct env base).with_params p).init env
      sp).2.1.get_hot_startup_energy = some 0 ∧
    (((C_pc_heat_sink.construct env base).with_params p).init env
      sp).2.1.get_max_thermal_power = some (100 * q) := by
  obtain ⟨hp, hmf, _, hsp⟩ := heat_sink_init_design env
    ((C_pc_heat_sink.construct env base).with_params p) sp tc th q h1 h2 h3 hinit
  have hmax : ((C_pc_heat_sink.construct env base).with_params p).m_max_frac = some 100 := rfl
  rw [hmax] at hsp hmf
  refine ⟨by rw [hsp], by rw [hsp], by rw [hsp], by rw [hsp], by rw [hsp], by rw [hsp],
    by rw [hsp], by rw [hsp], ?_, ?_, rfl, rfl, rfl, rfl, rfl, rfl, ?_⟩
  · intro hT hcp
    rw [hsp, div_double_of_ne _ _ (mul_ne_zero hcp (sub_ne_zero.mpr hT))]
    dsimp only [Option.map_some', Option.some_bind]
    refine ⟨?_, _, rfl, ?_⟩
    · congr 1
      ring
    · congr 1
      ring
  · intro hz
    have hdiv : env.Cp_ave (((C_pc_heat_sink.construct env base).with_params p).init env sp).2.1.mc_pc_htfProps
        (tc + 273.15) (th + 273.15) 5 * (th - tc) = 0 := by
      rcases hz with hz | hz
      · rw [hz, sub_self, mul_zero]
      · rw [hz, zero_mul]
    rw [hsp, hdiv, div_double_zero]
    exact ⟨rfl, rfl, rfl⟩
  · have hq : (((C_pc_heat_sink.construct env base).with_params p).init env
        sp).2.1.ms_params.m_q_dot_des = some q := by
      rw [hp]; exact h3
    simp only [C_pc_heat_sink.get_max_thermal_power, hmf, hq, Option.pure_def,
      Option.bind_eq_bind, Option.some_bind]

/-- Witness for the amended C20: Scenario B with a library fluid and `cp_avg = 3/2`: the
published capacity is 10, the smallest mass flow 0 and the largest thermal power 1000. -/
theorem heat_sink_solved_params_witness :
    (((C_pc_heat_sink.construct example_env heat_sink_base).with_params
        ⟨some 300, some 250, some 10, some (1 / 2), 1, blank_table 0 0⟩).init example_env
      blank_solved_params).1 = none ∧
    (((C_pc_heat_sink.construct example_env heat_sink_base).with_params
        ⟨some 300, some 250, some 10, some (1 / 2), 1, blank_table 0 0⟩).init example_env
      blank_solved_params).2.2.m_q_dot_des = some 10 ∧
    (((C_pc_heat_sink.construct example_env heat_sink_base).with_params
        ⟨some 300, some 250, some 10, some (1 / 2), 1, blank_table 0 0⟩).init example_env
      blank_solved_params).2.2.m_m_dot_min = some 0 ∧
    (((C_pc_heat_sink.construct example_env heat_sink_base).with_params
        ⟨some 300, some 250, some 10, some (1 / 2), 1, blank_table 0 0⟩).init example_env
      blank_solved_params).2.1.get_max_thermal_power = some (100 * 10) :=
  have h := heat_sink_solved_params example_env heat_sink_base
    ⟨some 300, some 250, some 10, some (1 / 2), 1, blank_table 0 0⟩ blank_solved_params
    250 300 10 rfl rfl rfl scenario_B_init_ok
  ⟨scenario_B_init_ok, h.1,
    (h.2.2.2.2.2.2.2.2.1 (by norm_num) (by norm_num [example_env])).1,
    h.2.2.2.2.2.2.2.2.2.2.2.2.2.2.2.2⟩

/-! ## The weekday cursor, day by day -/

theorem hour_loop_wday (s : C_block_schedule) (n m : Nat) (b : Bool) :
    ∀ (r h : Nat) (st : expand_state), (hour_loop s n m b h r st).wday = st.wday := by
  intro r
  induction r with
  | zero => intro h st; rfl
  | succ r ih =>
    intro h st
    unfold hour_loop
    by_cases hg : h < 24 ∧ st.i < n ∧ m * 24 + h < 288
    · rw [if_pos hg]
      exact ih _ _
    · rw [if_neg hg]

theorem day_body_wday (s : C_block_schedule) (n m : Nat) (st : expand_state) :
    (day_body s n m st).wday = wday_step st.wday := by
  unfold day_body
  rw [hour_loop_wday]

theorem wday_at_iterate (d : Nat) : wday_at d = wday_step^[d] 5 := by
  induction d with
  | zero => rfl
  | succ d ih => rw [wday_at, ih, Function.iterate_succ_apply']

theorem foldl_days_wday (s : C_block_schedule) (n : Nat) :
    ∀ (l : List Nat) (st : expand_state),
      (l.foldl (fun st m => day_body s n m st) st).wday = wday_step^[l.length] st.wday := by
  intro l
  induction l with
  | nil => intro st; rfl
  | cons m rest ih =>
    intro st
    rw [List.foldl_cons, ih, day_body_wday, List.length_cons, Function.iterate_succ_apply]

theorem month_body_eq_replicate (s : C_block_schedule) (leap : Bool) (m : Nat) :
    ∀ (k : Nat) (st : expand_state),
      (List.range k).foldl (fun acc _ => day_body s (nhrann leap) m acc) st
        = (List.replicate k m).foldl (fun st m => day_body s (nhrann leap) m st) st := by
  intro k
  induction k with
  | zero => intro st; rfl
  | succ k ih =>
    intro st
    rw [List.range_succ, List.foldl_append, List.replicate_succ', List.foldl_append, ih]
    rfl

theorem fold_months_eq_fold_days (s : C_block_schedule) (leap : Bool) :
    ∀ (ms : List Nat) (st : expand_state),
      ms.foldl (month_body s leap) st
        = (ms.flatMap fun m => List.replicate ((nday leap).getD m 0) m).foldl
            (fun st m => day_body s (nhrann leap) m st) st := by
  intro ms
  induction ms with
  | nil => intro st; rfl
  | cons m rest ih =>
    intro st
    rw [List.foldl_cons, List.flatMap_cons, List.foldl_append, ih]
    unfold month_body
    rw [month_body_eq_replicate]

theorem day_months_length (leap : Bool) : (day_months leap).length = days_in_year leap := by
  unfold day_months
  rw [List.length_flatMap]
  cases leap <;> decide

theorem expand_until_all (s : C_block_schedule) (leap : Bool) :
    expand_until s leap (days_in_year leap) = expand s leap := by
  unfold expand_until expand
  rw [← day_months_length, List.take_length, fold_months_eq_fold_days]
  rfl

theorem expand_until_wday (s : C_block_schedule) (leap : Bool) (d : Nat)
    (hd : d ≤ days_in_year leap) : (expand_until s leap d).wday = wday_at d := by
  unfold expand_until
  rw [foldl_days_wday, wday_at_iterate, List.length_take, day_months_length,
    Nat.min_eq_left hd]

theorem wday_at_range (d : Nat) : -1 ≤ wday_at d ∧ wday_at d ≤ 5 := by
  rw [wday_at_closed]
  omega

theorem filter_hours_length (p : Nat → Bool) (n : Nat) :
    ((List.range (24 * n)).filter (fun i => p (i / 24))).length
      = 24 * ((List.range n).filter p).length := by
  induction n with
  | zero => rfl
  | succ n ih =>
    have e : 24 * (n + 1) = 24 * n + 24 := by omega
    rw [e, ← range_append_range, List.filter_append, List.length_append, ih, List.range_succ,
      List.filter_append, List.length_append]
    have hdiv : ∀ i, i ∈ List.range' (24 * n) 24 → i / 24 = n := by
      intro i hi
      rw [List.mem_range'_1] at hi
      omega
    cases hp : p n with
    | false =>
      have hnil : (List.range' (24 * n) 24).filter (fun i => p (i / 24)) = [] := by
        rw [List.filter_eq_nil_iff]
        intro i hi
        rw [hdiv i hi, hp]
        simp
      rw [hnil]
      simp [hp]
    | true =>
      have hall : (List.range' (24 * n) 24).filter (fun i => p (i / 24))
          = List.range' (24 * n) 24 := by
        rw [List.filter_eq_self]
        intro i hi
        rw [hdiv i hi, hp]
      rw [hall]
      simp [hp]
      omega

theorem weekend_days_of_year :
    ((List.range 365).filter is_weekend_day).length = 104 := by
  have hcongr : (List.range 365).filter is_weekend_day
      = (List.range 365).filter (fun d => decide (d % 7 = 5 ∨ d % 7 = 6)) := by
    apply List.filter_congr
    intro d _
    cases hb : is_weekend_day d with
    | true =>
      have := (is_weekend_day_iff d).mp hb
      simp [this]
    | false =>
      have hno : ¬ (d % 7 = 5 ∨ d % 7 = 6) := by
        intro hcon
        rw [(is_weekend_day_iff d).mpr hcon] at hb
        exact absurd hb (by simp)
      simp [hno]
  rw [hcongr]
  decide

/-- C22, refuted as stated: at the start of day 6 of the year the weekday cursor of
`set_hr_tou` is -1, which is negative. -/
theorem weekday_cursor_negative_on_day_six :
    (expand_until (scenario_A 1 1 "Turbine Fraction") false 6).wday = -1 ∧
    ¬ (0 ≤ (expand_until (scenario_A 1 1 "Turbine Fraction") false 6).wday) := by
  have h := expand_until_wday (scenario_A 1 1 "Turbine Fraction") false 6 (by decide)
  have h6 : wday_at 6 = -1 := by decide
  rw [h6] at h
  rw [h]
  exact ⟨rfl, by decide⟩

/-- C22, amended: in `set_hr_tou` the weekday cursor starts at 5; from one day to the next
it is decremented when it is non-negative and set to 5 when it is negative; the value
observed at the start of every day of the year lies in -1..5, and it is -1 exactly on the
days `d` with `d mod 7 = 6`. -/
theorem weekday_cursor_range (s : C_block_schedule) (leap : Bool) (d : Nat)
    (hd : d < days_in_year leap) :
    (expand_until s leap 0).wday = 5 ∧
    (expand_until s leap (d + 1)).wday
      = (if (expand_until s leap d).wday ≥ 0 then (expand_until s leap d).wday - 1 else 5) ∧
    -1 ≤ (expand_until s leap d).wday ∧ (expand_until s leap d).wday ≤ 5 ∧
    ((expand_until s leap d).wday = -1 ↔ d % 7 = 6) := by
  rw [expand_until_wday s leap d (by omega), expand_until_wday s leap (d + 1) (by omega)]
  refine ⟨rfl, rfl, (wday_at_range d).1, (wday_at_range d).2, ?_⟩
  rw [wday_at_closed]
  omega

/-- Witness for the amended C22: day 6 of a non-leap year. -/
theorem weekday_cursor_range_witness :
    6 < days_in_year false ∧
    -1 ≤ (expand_until (scenario_A 1 1 "Turbine Fraction") false 6).wday ∧
    (expand_until (scenario_A 1 1 "Turbine Fraction") false 6).wday ≤ 5 :=
  have h := weekday_cursor_range (scenario_A 1 1 "Turbine Fraction") false 6 (by decide)
  ⟨by decide, h.2.2.1, h.2.2.2.1⟩

/-- C23: in `set_hr_tou`, for both leap settings, day `d` (0-based) is classified as
weekend if and only if `d mod 7` is 5 or 6: five weekdays then two weekend days, with
period 7 through the whole year, whatever the month; a non-leap year has 104 weekend days
and 2496 weekend hours. -/
theorem weekend_iff_mod_seven :
    (∀ d, is_weekend_day d = true ↔ (d % 7 = 5 ∨ d % 7 = 6)) ∧
    (∀ (s : C_block_schedule) (leap : Bool) (d : Nat), d < days_in_year leap →
      (decide ((expand_until s leap d).wday ≤ 0) = true ↔ (d % 7 = 5 ∨ d % 7 = 6))) ∧
    (∀ (s : C_block_schedule) (leap : Bool) (i : Nat), i < nhrann leap →
      (set_hr_tou s leap).m_hr_tou[i]? = some (some
        (if i / 24 % 7 = 5 ∨ i / 24 % 7 = 6
          then s.mc_weekends.cell (month_of_day leap (i / 24)) (i % 24)
          else s.mc_weekdays.cell (month_of_day leap (i / 24)) (i % 24)))) ∧
    ((List.range 365).filter is_weekend_day).length = 104 ∧
    ((List.range 8760).filter (fun i => is_weekend_day (i / 24))).length = 2496 := by
  refine ⟨is_weekend_day_iff, ?_, ?_, weekend_days_of_year, ?_⟩
  · intro s leap d hd
    rw [expand_until_wday s leap d (by omega)]
    exact is_weekend_day_iff d
  · intro s leap i hi
    have h := (expand_spec s leap).2.2.2 i hi
    have hset : (set_hr_tou s leap).m_hr_tou = (expand s leap).m_hr_tou := rfl
    rw [hset, h]
    unfold source_cell
    dsimp only
    by_cases hw : i / 24 % 7 = 5 ∨ i / 24 % 7 = 6
    · rw [(is_weekend_day_iff _).mpr hw, if_pos hw]
      rfl
    · have hf : is_weekend_day (i / 24) = false := by
        cases hb : is_weekend_day (i / 24) with
        | false => rfl
        | true => exact absurd ((is_weekend_day_iff _).mp hb) hw
      rw [hf, if_neg hw]
      rfl
  · have h := filter_hours_length is_weekend_day 365
    have e : 24 * 365 = 8760 := by norm_num
    rw [e] at h
    rw [h, weekend_days_of_year]

/-! ## The array-length message, times near zero, and what the uniform setup keeps -/

/-- C24 fails on the code: in a schedule whose largest period id is 3 and whose only value
array has 2 entries, the array-length exception reports 'TOU period = 0': the value
printed is the 0-based id of the last cell scanned, not a period id of the schedule. -/
theorem size_error_reports_last_cell :
    max_period_id peak_schedule = 3 ∧ min_period_id peak_schedule = 1 ∧
    (check_arrays_for_tous peak_schedule 1).1 = some (.thrown
      ⟨"TOU schedule contains TOU period = 0, while the Turbine Fraction array contains 2 elements",
        loc_init⟩) := by
  have hcell : ∀ a b : Nat, (1 : Int) ≤ (if a = 0 ∧ b = 0 then 3 else 1) ∧
      (if a = 0 ∧ b = 0 then (3 : Int) else 1) ≤ 3 := by
    intro a b
    split_ifs <;> omega
  have hmin : 1 ≤ min_period_id peak_schedule :=
    one_le_min_period_id _ (fun a b => (hcell a b).1)
      (fun _ _ => by simp [peak_schedule, const_matrix])
  have hmax : max_period_id peak_schedule ≤ 3 :=
    max_period_id_le _ _ (fun a b => (hcell a b).2)
      (fun _ _ => by simp [peak_schedule, const_matrix])
  have hb3 := period_id_bounds peak_schedule 3
    ((mem_period_ids _ _).mpr ⟨0, 0, by decide, by decide, Or.inl rfl⟩)
  have hb1 := period_id_bounds peak_schedule 1
    ((mem_period_ids _ _).mpr ⟨0, 0, by decide, by decide, Or.inr rfl⟩)
  refine ⟨by omega, by omega, ?_⟩
  have hneg : ¬ (scan_schedules peak_schedule).i_tou_min < 0 := by
    rw [scan_min_neg_iff]; omega
  have hbig : (scan_schedules peak_schedule).i_tou_max + 1 > 2 := by
    by_contra hcon
    have := ((scan_max_le_iff peak_schedule 2).mp (by omega)).2
    omega
  have htemp : (scan_schedules peak_schedule).i_temp_max = 0 := by
    rw [scan_schedules_i_temp_max]; rfl
  unfold check_arrays_for_tous
  dsimp only
  rw [if_neg hneg]
  have harr : peak_schedule.mvv_tou_arrays[0]? = some [1, 1] := rfl
  have hlab : peak_schedule.mv_labels[0]? = some "Turbine Fraction" := rfl
  have hlen : (([1, 1] : List ℚ).length : Int) = 2 := rfl
  simp only [check_sizes, harr, hlab, hlen, hbig, if_true, size_message, htemp]
  decide

/-- C25, refuted as stated: `t = -3600` satisfies `t/3600 - 1e-6 <= 0` and maps to hour
index -2, not -1. -/
theorem hour_index_below_minus_one :
    (-3600 : ℚ) / 3600 - 1 / 1000000 ≤ 0 ∧ hour_index (-3600) = -2 ∧
    hour_index (-3600) ≠ -1 := by
  have h : hour_index (-3600) = -2 := by
    rw [hour_index_eq_iff]; push_cast; constructor <;> norm_num
  refine ⟨by norm_num, h, ?_⟩
  rw [h]
  decide

/-- C25, amended: `call(0)` throws the range exception for both leap settings; every time
`t` with `t/3600 - 1e-6 <= 0`, that is `t <= 0.0036`, maps to a negative hour index (to
-1 when `t > -3599.9964`) and is rejected, while every `t` in `(0.0036, 3600.0036]` maps
to hour index 0 and is accepted. -/
theorem call_near_zero (self : C_csp_tou_block_schedules) (hinit : self.init.1 = none)
    (t : ℚ) :
    hour_index 0 = -1 ∧
    (self.init.2.call 0).1 = .error (.thrown ⟨hour_message (-1), "TOU timestep call"⟩) ∧
    (t / 3600 - 1 / 1000000 ≤ 0 ↔ t ≤ 9 / 2500) ∧
    (t ≤ 9 / 2500 → hour_index t < 0 ∧
      (self.init.2.call t).1
        = .error (.thrown ⟨hour_message (hour_index t), "TOU timestep call"⟩)) ∧
    (-3600 + 9 / 2500 < t → t ≤ 9 / 2500 → hour_index t = -1) ∧
    (9 / 2500 < t → t ≤ 3600 + 9 / 2500 → hour_index t = 0 ∧
      ∃ out, lookup_at self.init.2 0 = some out ∧ (self.init.2.call t).1 = .ok out) := by
  have e0 : hour_index 0 = -1 := by
    rw [hour_index_eq_iff]; push_cast; constructor <;> norm_num
  have hneg : t ≤ 9 / 2500 → hour_index t < 0 := by
    intro ht
    unfold hour_index
    have hc : ⌈t / 3600 - 1 / 1000000⌉ ≤ 0 := by
      rw [Int.ceil_le]
      push_cast
      linarith
    omega
  refine ⟨e0, ?_, ?_, ?_, ?_, ?_⟩
  · have := call_rejects self.init.2 0 (by rw [e0]; exact Or.inl (by decide))
    rw [e0] at this
    exact this
  · constructor <;> intro h <;> linarith
  · intro ht
    exact ⟨hneg ht, call_rejects self.init.2 t (Or.inl (hneg ht))⟩
  · intro h1 h2
    rw [hour_index_eq_iff]
    push_cast
    constructor <;> linarith
  · intro h1 h2
    have hi : hour_index t = 0 := by
      rw [hour_index_eq_iff]
      push_cast
      constructor <;> linarith
    have hpos : (0 : Int) < total_hours self.mc_dispatch_params.m_isleapyear := by
      cases self.mc_dispatch_params.m_isleapyear <;> decide
    obtain ⟨out, hl, hc⟩ := call_resolves self hinit t (by omega) (by omega)
    rw [hi] at hl
    exact ⟨hi, out, hl, hc⟩

/-- Witness for the amended C25: the Scenario A facade initialises, and `call(0)` on it
throws the range exception. -/
theorem call_near_zero_witness :
    (scenario_A_facade (1 / 2) (3 / 2) true).init.1 = none ∧
    ((scenario_A_facade (1 / 2) (3 / 2) true).init.2.call 0).1
      = .error (.thrown ⟨hour_message (-1), "TOU timestep call"⟩) :=
  ⟨scenario_A_facade_init_ok _ _ _,
    (call_near_zero (scenario_A_facade (1 / 2) (3 / 2) true)
      (scenario_A_facade_init_ok _ _ _) 0).2.1⟩

theorem uniform_setup_of_single_arrays (self : C_csp_tou_block_schedules) (a b : List ℚ)
    (ha : self.ms_params.mc_csp_ops.mvv_tou_arrays = [a])
    (hb : self.ms_params.mc_pricing.mvv_tou_arrays = [b]) :
    self.setup_block_uniform_tod
      = (none,
          ⟨⟨⟨const_matrix 1, const_matrix 1, [vector_resize a 2 1],
              self.ms_params.mc_csp_ops.mv_labels, self.ms_params.mc_csp_ops.m_hr_tou,
              self.ms_params.mc_csp_ops.m_error_msg⟩,
            ⟨const_matrix 1, const_matrix 1, [vector_resize b 2 1],
              self.ms_params.mc_pricing.mv_labels, self.ms_params.mc_pricing.m_hr_tou,
              self.ms_params.mc_pricing.m_error_msg⟩⟩,
           self.mc_dispatch_params, self.m_error_msg⟩) := by
  unfold C_csp_tou_block_schedules.setup_block_uniform_tod
  simp only [C_block_schedule_csp_ops.N_END, C_block_schedule_pricing.N_END, resize_tou_arrays,
    ha, hb, List.getElem?_cons_zero, List.set_cons_zero]
  rfl

theorem vector_resize_two (a : List ℚ) :
    (vector_resize a 2 1).length = 2 ∧
    (vector_resize a 2 1)[0]? = some (a.getD 0 1) ∧
    (vector_resize a 2 1)[1]? = some (a.getD 1 1) := by
  unfold vector_resize
  rcases a with _ | ⟨x, _ | ⟨y, rest⟩⟩
  · exact ⟨rfl, rfl, rfl⟩
  · exact ⟨rfl, rfl, rfl⟩
  · refine ⟨by simp, by simp, by simp⟩

/-- C26: `setup_block_uniform_tod` gives the value array of each schedule the length 2,
keeping the entries already present at positions 0 and 1 and filling only the missing
positions with 1, and overwrites the four matrices with 12 by 24 all-ones.  Hence when
the value arrays held the first entries `x` and `y` before the call, a lookup after the
uniform setup and `init` returns the multipliers `x` and `y`, not 1. -/
theorem uniform_tod_keeps_entries (self : C_csp_tou_block_schedules) (a b : List ℚ)
    (ha : self.ms_params.mc_csp_ops.mvv_tou_arrays = [a])
    (hb : self.ms_params.mc_pricing.mvv_tou_arrays = [b]) :
    self.setup_block_uniform_tod.1 = none ∧
    (∃ a2 b2, self.setup_block_uniform_tod.2.ms_params.mc_csp_ops.mvv_tou_arrays = [a2] ∧
      self.setup_block_uniform_tod.2.ms_params.mc_pricing.mvv_tou_arrays = [b2] ∧
      a2.length = 2 ∧ b2.length = 2 ∧
      a2[0]? = some (a.getD 0 1) ∧ a2[1]? = some (a.getD 1 1) ∧
      b2[0]? = some (b.getD 0 1) ∧ b2[1]? = some (b.getD 1 1)) ∧
    (self.setup_block_uniform_tod.2.ms_params.mc_csp_ops.mc_weekdays.n_rows = 12 ∧
      self.setup_block_uniform_tod.2.ms_params.mc_csp_ops.mc_weekdays.n_cols = 24 ∧
      self.setup_block_uniform_tod.2.ms_params.mc_csp_ops.mc_weekends.n_rows = 12 ∧
      self.setup_block_uniform_tod.2.ms_params.mc_csp_ops.mc_weekends.n_cols = 24 ∧
      self.setup_block_uniform_tod.2.ms_params.mc_pricing.mc_weekdays.n_rows = 12 ∧
      self.setup_block_uniform_tod.2.ms_params.mc_pricing.mc_weekdays.n_cols = 24 ∧
      self.setup_block_uniform_tod.2.ms_params.mc_pricing.mc_weekends.n_rows = 12 ∧
      self.setup_block_uniform_tod.2.ms_params.mc_pricing.mc_weekends.n_cols = 24 ∧
      ∀ i j,
        self.setup_block_uniform_tod.2.ms_params.mc_csp_ops.mc_weekdays.cell i j = 1 ∧
        self.setup_block_uniform_tod.2.ms_params.mc_csp_ops.mc_weekends.cell i j = 1 ∧
        self.setup_block_uniform_tod.2.ms_params.mc_pricing.mc_weekdays.cell i j = 1 ∧
        self.setup_block_uniform_tod.2.ms_params.mc_pricing.mc_weekends.cell i j = 1) ∧
    self.setup_block_uniform_tod.2.init.1 = none ∧
    (∀ (x y : ℚ) (ra rb : List ℚ) (t : ℚ), a = x :: ra → b = y :: rb →
      0 ≤ hour_index t → hour_index t < total_hours self.mc_dispatch_params.m_isleapyear →
      (self.setup_block_uniform_tod.2.init.2.call t).1 = .ok ⟨1, 1, x, y⟩) := by
  rw [uniform_setup_of_single_arrays self a b ha hb]
  dsimp only
  obtain ⟨la, a0, a1⟩ := vector_resize_two a
  obtain ⟨lb, b0, b1⟩ := vector_resize_two b
  have hops : ((⟨const_matrix 1, const_matrix 1, [vector_resize a 2 1],
      self.ms_params.mc_csp_ops.mv_labels, self.ms_params.mc_csp_ops.m_hr_tou,
      self.ms_params.mc_csp_ops.m_error_msg⟩ : C_block_schedule).init 1
      self.mc_dispatch_params.m_isleapyear).1 = none := by
    apply init_ok_of_cells _ 1 _ 1 ⟨rfl, rfl, rfl, rfl⟩
    · intro i j; simp [const_matrix]
    · intro i j; simp [const_matrix]
    · intro k hk
      have hk0 : k = 0 := by omega
      subst hk0
      exact ⟨vector_resize a 2 1, rfl, by rw [la]; decide, by rw [la]; decide⟩
  have hpr : ((⟨const_matrix 1, const_matrix 1, [vector_resize b 2 1],
      self.ms_params.mc_pricing.mv_labels, self.ms_params.mc_pricing.m_hr_tou,
      self.ms_params.mc_pricing.m_error_msg⟩ : C_block_schedule).init 1
      self.mc_dispatch_params.m_isleapyear).1 = none := by
    apply init_ok_of_cells _ 1 _ 1 ⟨rfl, rfl, rfl, rfl⟩
    · intro i j; simp [const_matrix]
    · intro i j; simp [const_matrix]
    · intro k hk
      have hk0 : k = 0 := by omega
      subst hk0
      exact ⟨vector_resize b 2 1, rfl, by rw [lb]; decide, by rw [lb]; decide⟩
  have hinit : (⟨⟨⟨const_matrix 1, const_matrix 1, [vector_resize a 2 1],
        self.ms_params.mc_csp_ops.mv_labels, self.ms_params.mc_csp_ops.m_hr_tou,
        self.ms_params.mc_csp_ops.m_error_msg⟩,
      ⟨const_matrix 1, const_matrix 1, [vector_resize b 2 1],
        self.ms_params.mc_pricing.mv_labels, self.ms_params.mc_pricing.m_hr_tou,
        self.ms_params.mc_pricing.m_error_msg⟩⟩,
      self.mc_dispatch_params, self.m_error_msg⟩ : C_csp_tou_block_schedules).init.1
      = none :=
    congrArg Prod.fst (((facade_init_cases (⟨⟨⟨const_matrix 1, const_matrix 1,
        [vector_resize a 2 1], self.ms_params.mc_csp_ops.mv_labels,
        self.ms_params.mc_csp_ops.m_hr_tou, self.ms_params.mc_csp_ops.m_error_msg⟩,
      ⟨const_matrix 1, const_matrix 1, [vector_resize b 2 1],
        self.ms_params.mc_pricing.mv_labels, self.ms_params.mc_pricing.m_hr_tou,
        self.ms_params.mc_pricing.m_error_msg⟩⟩,
      self.mc_dispatch_params, self.m_error_msg⟩ : C_csp_tou_block_schedules)).2.2 hops).2.2
        hpr)
  refine ⟨rfl, ⟨_, _, rfl, rfl, la, lb, a0, a1, b0, b1⟩,
    ⟨rfl, rfl, rfl, rfl, rfl, rfl, rfl, rfl, fun _ _ => ⟨rfl, rfl, rfl, rfl⟩⟩, hinit, ?_⟩
  intro x y ra rb t hax hby h0 h1
  have hr : hour_out_of_range self.mc_dispatch_params.m_isleapyear (hour_index t) = false := by
    cases hbo : hour_out_of_range self.mc_dispatch_params.m_isleapyear (hour_index t) with
    | false => rfl
    | true =>
      have := (hour_out_of_range_iff _ _).mp hbo
      omega
  rw [call_of_init _ hinit t hr]
  simp only [const_one_source_cell]
  subst hax hby
  simp [tou_value, vector_resize]

/-- Witness for C26: a facade whose value arrays hold 7/10 and 9/10 before the uniform
setup: the lookup at `t = 3600` returns these two multipliers. -/
theorem uniform_tod_keeps_entries_witness :
    (⟨⟨scenario_A (7 / 10) 0 "Turbine Fraction", scenario_A (9 / 10) 0 "Price Multiplier"⟩,
        ⟨false⟩, ""⟩ : C_csp_tou_block_schedules).ms_params.mc_csp_ops.mvv_tou_arrays
      = [[7 / 10, 0]] ∧
    ((⟨⟨scenario_A (7 / 10) 0 "Turbine Fraction", scenario_A (9 / 10) 0 "Price Multiplier"⟩,
        ⟨false⟩, ""⟩ : C_csp_tou_block_schedules).setup_block_uniform_tod.2.init.2.call
      3600).1 = .ok ⟨1, 1, 7 / 10, 9 / 10⟩ :=
  have hi : hour_index 3600 = 0 := by
    rw [hour_index_eq_iff]; push_cast; constructor <;> norm_num
  ⟨rfl,
    (uniform_tod_keeps_entries
      (⟨⟨scenario_A (7 / 10) 0 "Turbine Fraction", scenario_A (9 / 10) 0 "Price Multiplier"⟩,
        ⟨false⟩, ""⟩ : C_csp_tou_block_schedules) [7 / 10, 0] [9 / 10, 0] rfl rfl).2.2.2.2
      (7 / 10) (9 / 10) [0] [0] 3600 rfl rfl (by rw [hi]) (by rw [hi]; decide)⟩

/-! ## The pumping coefficient and the inverter -/

/-- C27, refuted as stated: with hot and cold design temperatures both 250 C, the non-zero
duty 10 and pump coefficient 0, `init` succeeds, but neither the published
`m_m_dot_design` nor `get_htf_pumping_parasitic_coef()` is a finite number (the quotient
of line 83 has a zero divisor, and the coefficient is 0 times it): there are no numbers
`coef`, `md`, `W` as the claim relates them. -/
theorem pumping_coefficient_not_finite_at_equal_temperatures :
    ((equal_temperatures 0).init example_env blank_solved_params).1 = none ∧
    (10 : ℚ) ≠ 0 ∧
    ((equal_temperatures 0).init example_env blank_solved_params).2.2.m_m_dot_design
      = none ∧
    ((equal_temperatures 0).init example_env
      blank_solved_params).2.1.get_htf_pumping_parasitic_coef = none ∧
    ¬ ∃ coef md W,
      ((equal_temperatures 0).init example_env
        blank_solved_params).2.1.get_htf_pumping_parasitic_coef = some coef ∧
      ((equal_temperatures 0).init example_env blank_solved_params).2.2.m_m_dot_design
        = some md ∧
      (((equal_temperatures 0).init example_env blank_solved_params).2.1.call
        example_env 250 md).2.1.m_W_dot_htf_pump = some W ∧
      coef * 10 = W := by
  obtain ⟨_, _, hm, hsp⟩ := heat_sink_init_design example_env (equal_temperatures 0)
    blank_solved_params 250 250 10 rfl rfl rfl (equal_temperatures_init_ok _)
  have hz : (250 : ℚ) - 250 = 0 := by norm_num
  rw [hz, mul_zero, div_double_zero] at hm hsp
  have hd : ((equal_temperatures 0).init example_env blank_solved_params).2.2.m_m_dot_design
      = none := by rw [hsp]; rfl
  have hc : ((equal_temperatures 0).init example_env
      blank_solved_params).2.1.get_htf_pumping_parasitic_coef = none := by
    unfold C_pc_heat_sink.get_htf_pumping_parasitic_coef
    rw [hm]
    cases ((equal_temperatures 0).init example_env
      blank_solved_params).2.1.ms_params.m_htf_pump_coef <;> rfl
  refine ⟨equal_temperatures_init_ok _, by norm_num, hd, hc, ?_⟩
  rintro ⟨coef, md, W, _, h2, _⟩
  rw [hd] at h2
  exact absurd h2 (by simp)

/-- C27, amended: after a successful `init` with a non-zero design duty, `T_hot ≠ T_cold`
and a non-zero `cp_avg`, `get_htf_pumping_parasitic_coef()` times the design duty equals
the pumping power `m_W_dot_htf_pump` that `call` reports when the mass flow is the
published `m_m_dot_design`, for every inlet temperature. -/
theorem pumping_formulas_agree {Φ R : Type} (env : collaborators Φ R)
    (self : C_pc_heat_sink Φ R) (sp : S_solved_params) (tc th q k T : ℚ)
    (h1 : self.ms_params.m_T_htf_cold_des = some tc)
    (h2 : self.ms_params.m_T_htf_hot_des = some th)
    (h3 : self.ms_params.m_q_dot_des = some q)
    (h4 : self.ms_params.m_htf_pump_coef = some k)
    (hinit : (self.init env sp).1 = none)
    (hq : q ≠ 0)
    (hT : th ≠ tc)
    (hcp : env.Cp_ave (self.init env sp).2.1.mc_pc_htfProps (tc + 273.15) (th + 273.15) 5
      ≠ 0) :
    ∃ coef md W, (self.init env sp).2.1.get_htf_pumping_parasitic_coef = some coef ∧
      (self.init env sp).2.2.m_m_dot_design = some md ∧
      ((self.init env sp).2.1.call env T md).2.1.m_W_dot_htf_pump = some W ∧
      coef * q = W := by
  obtain ⟨hp, _, hm, hsp⟩ := heat_sink_init_result env self sp tc th q h1 h2 h3 hinit
    (mul_ne_zero hcp (sub_ne_zero.mpr hT))
  have hk : (self.init env sp).2.1.ms_params.m_htf_pump_coef = some k := by rw [hp]; exact h4
  have hqq : (self.init env sp).2.1.ms_params.m_q_dot_des = some q := by rw [hp]; exact h3
  have hc : (self.init env sp).2.1.ms_params.m_T_htf_cold_des = some tc := by rw [hp]; exact h1
  have hd : (self.init env sp).2.2.m_m_dot_design = some (q * 1000 /
      (env.Cp_ave (self.init env sp).2.1.mc_pc_htfProps (tc + 273.15) (th + 273.15) 5
        * (th - tc)) * 3600) := by rw [hsp]
  generalize q * 1000 /
      (env.Cp_ave (self.init env sp).2.1.mc_pc_htfProps (tc + 273.15) (th + 273.15) 5
        * (th - tc)) = m at hm hd
  have hq1000 : q * 1000 ≠ 0 := mul_ne_zero hq (by norm_num)
  refine ⟨k * m / (q * 1000), m * 3600, k * (m * 3600 / 3600) / 1000, ?_, hd, ?_, ?_⟩
  · simp only [C_pc_heat_sink.get_htf_pumping_parasitic_coef, hk, hm, hqq, Option.pure_def,
      Option.bind_eq_bind, Option.some_bind, div_double_of_ne _ _ hq1000]
  · rw [(heat_sink_call_eq env (self.init env sp).2.1 T (m * 3600) tc k hc hk).2]
  · field_simp
    ring

/-- Witness for the amended C27: Scenario B with `cp_avg = 3/2`. -/
theorem pumping_formulas_agree_witness :
    ((scenario_B 1 (blank_table 0 0)).init example_env blank_solved_params).1 = none ∧
    (10 : ℚ) ≠ 0 ∧ (300 : ℚ) ≠ 250 ∧
    ∃ coef md W,
      ((scenario_B 1 (blank_table 0 0)).init example_env
        blank_solved_params).2.1.get_htf_pumping_parasitic_coef = some coef ∧
      ((scenario_B 1 (blank_table 0 0)).init example_env
        blank_solved_params).2.2.m_m_dot_design = some md ∧
      (((scenario_B 1 (blank_table 0 0)).init example_env blank_solved_params).2.1.call
        example_env 300 md).2.1.m_W_dot_htf_pump = some W ∧
      coef * 10 = W :=
  ⟨scenario_B_init_ok, by norm_num, by norm_num,
    pumping_formulas_agree example_env (scenario_B 1 (blank_table 0 0)) blank_solved_params
      250 300 10 (1 / 2) 300 rfl rfl rfl rfl scenario_B_init_ok (by norm_num) (by norm_num)
      (by simp [example_env])⟩

theorem close_after_one_sample (q : reported_quantity) (v : Option ℚ) (d : ℚ)
    (hq : q.is_reset) (hd : 0 < d) :
    ((q.record v d).close).committed = q.committed ++ [v] := by
  obtain ⟨h1, h2, _⟩ := hq
  have hd0 : d ≠ 0 := ne_of_gt hd
  cases v with
  | none => simp [reported_quantity.record, reported_quantity.close, h1, h2, hd0]
  | some x =>
    simp [reported_quantity.record, reported_quantity.close, h1, h2, hd0]

theorem close_after_two_samples (q : reported_quantity) (v1 v2 : Option ℚ) (d1 d2 : ℚ)
    (hq : q.is_reset) (hd1 : 0 < d1) (hd2 : 0 < d2) :
    (((q.record v1 d1).record v2 d2).close).committed
      = q.committed ++ [weighted_average v1 d1 v2 d2] := by
  obtain ⟨h1, h2, _⟩ := hq
  have hd0 : d1 + d2 ≠ 0 := ne_of_gt (add_pos hd1 hd2)
  cases v1 <;> cases v2 <;>
    simp [reported_quantity.record, reported_quantity.close, weighted_average, h1, h2, hd0]

theorem call_records_samples {Φ R : Type} (env : collaborators Φ R)
    (self : C_pc_heat_sink Φ reported_outputs) (T m d : ℚ) (id : heat_sink_output) :
    (self.call (with_aggregator env d) T m).2.2.mc_reported_outputs id
      = (self.mc_reported_outputs id).record
          (reported_sample (with_aggregator env d) self T m id) d := by
  cases id <;> rfl

theorem reported_sample_after_call {Φ R : Type} (env : collaborators Φ R)
    (self : C_pc_heat_sink Φ reported_outputs) (T m d T2 m2 d2 : ℚ)
    (id : heat_sink_output) :
    reported_sample (with_aggregator env d2) (self.call (with_aggregator env d) T m).2.2 T2 m2 id
      = reported_sample (with_aggregator env d2) self T2 m2 id := by
  cases id <;> rfl

/-- C21: time-weighted aggregation of the three reported quantities of the heat sink, all
declared `TS_WEIGHTED_AVE` in `S_output_info`, over the aggregator of the specification.
Starting with an empty open interval, one `call` recorded over a positive duration `d1` and
closed by `converged` appends the value `v` that the `call` reported to the committed
series of each quantity; a `call` over `d1` followed by a `call` over a positive `d2` and
closed by `converged` appends `(v1*d1 + v2*d2)/(d1 + d2)`. -/
theorem heat_sink_time_weighted_average {Φ R : Type} (env : collaborators Φ R)
    (self : C_pc_heat_sink Φ reported_outputs) (T1 m1 T2 m2 d1 d2 d : ℚ)
    (id : heat_sink_output)
    (hreset : ∀ i, (self.mc_reported_outputs i).is_reset)
    (hd1 : 0 < d1) (hd2 : 0 < d2) :
    (∀ e ∈ S_output_info, e.2 = output_kind.TS_WEIGHTED_AVE) ∧
    (((self.call (with_aggregator env d1) T1 m1).2.2.converged
        (with_aggregator env d)).mc_reported_outputs id).committed
      = (self.mc_reported_outputs id).committed
          ++ [reported_sample (with_aggregator env d1) self T1 m1 id] ∧
    (((((self.call (with_aggregator env d1) T1 m1).2.2.call
          (with_aggregator env d2) T2 m2).2.2.converged
        (with_aggregator env d)).mc_reported_outputs id).committed
      = (self.mc_reported_outputs id).committed
          ++ [weighted_average (reported_sample (with_aggregator env d1) self T1 m1 id) d1
                (reported_sample (with_aggregator env d2) self T2 m2 id) d2]) := by
  refine ⟨by decide, ?_, ?_⟩
  · show ((((self.call (with_aggregator env d1) T1 m1).2.2.mc_reported_outputs id)).close).committed
      = _
    rw [call_records_samples]
    exact close_after_one_sample _ _ _ (hreset id) hd1
  · show ((((self.call (with_aggregator env d1) T1 m1).2.2.call
          (with_aggregator env d2) T2 m2).2.2.mc_reported_outputs id).close).committed = _
    rw [call_records_samples, call_records_samples, reported_sample_after_call]
    exact close_after_two_samples _ _ _ _ _ (hreset id) hd1 hd2

theorem heat_sink_time_weighted_average_witness :
    (∀ i, (scenario_B_reporting.mc_reported_outputs i).is_reset) ∧ (0 : ℚ) < 1 ∧ (0 : ℚ) < 3 ∧
    ((∀ e ∈ S_output_info, e.2 = output_kind.TS_WEIGHTED_AVE) ∧
    (((scenario_B_reporting.call (with_aggregator example_env 1) 300 7200).2.2.converged
        (with_aggregator example_env 0)).mc_reported_outputs
          heat_sink_output.E_M_DOT_HTF).committed
      = (scenario_B_reporting.mc_reported_outputs heat_sink_output.E_M_DOT_HTF).committed
          ++ [reported_sample (with_aggregator example_env 1) scenario_B_reporting 300 7200
                heat_sink_output.E_M_DOT_HTF] ∧
    (((((scenario_B_reporting.call (with_aggregator example_env 1) 300 7200).2.2.call
          (with_aggregator example_env 3) 280 3600).2.2.converged
        (with_aggregator example_env 0)).mc_reported_outputs
          heat_sink_output.E_M_DOT_HTF).committed
      = (scenario_B_reporting.mc_reported_outputs heat_sink_output.E_M_DOT_HTF).committed
          ++ [weighted_average
                (reported_sample (with_aggregator example_env 1) scenario_B_reporting 300 7200
                  heat_sink_output.E_M_DOT_HTF) 1
                (reported_sample (with_aggregator example_env 3) scenario_B_reporting 280 3600
                  heat_sink_output.E_M_DOT_HTF) 3])) :=
  ⟨fun _ => ⟨rfl, rfl, rfl⟩, by norm_num, by norm_num,
    heat_sink_time_weighted_average example_env scenario_B_reporting 300 7200 280 3600 1 3 0
      heat_sink_output.E_M_DOT_HTF (fun _ => ⟨rfl, rfl, rfl⟩) (by norm_num) (by norm_num)⟩

end ssc
